import Mathlib

/-! Verification of the software-scaling video filter (`video/filter/vf_scale.c`)

A shallow embedding of the format negotiation (`check_outfmt`, `find_best_out`,
`query_format`), of the geometry resolution performed by `reconfig` and of the equalizer
requests served by `control`, followed by theorems about them.

Conventions of the embedding

* Pixel-format identifiers, picture dimensions and colour values are C `int`s of 32 bits; they
  are modelled by `Int`.  Every sum and product that the code forms on them is reduced to the
  32-bit two's-complement range by `wrap32` (an explicit `% 2 ^ 32`), which is what the
  compiled code computes; `fits_int x` says that the exact value `x` lies in that range, so
  that the operation does not overflow.  The two additions that cannot leave the range for any
  `int` operand (the `+ 8` of lines 240 and 244, applied to a value of at most -8, and the sum
  of two comparison results on line 286) are written without `wrap32`.
* The C operator `/` truncates toward zero and is modelled by `Int.tdiv`.  A division by zero
  stops the C program; here it has the value 0, so a theorem describes the value a call
  returns only where its divisors are not zero.
* A capability word (the `int` returned by a `query_format` callback, used as a bit set) is
  modelled by its 32-bit pattern as a natural number: `&` is `&&&` and `~x` is
  `x ^^^ 0xFFFFFFFF`.
* Everything the file takes from headers that are not part of the sources (the numeric values
  of the `IMGFMT_*` identifiers and hence the contents of the two tables, the `VFCAP_*` masks,
  the libswscale and filter-chain callbacks) is a field of an environment record.
* The zero-terminated arrays `outfmt_list` and `preferred_conversions` are modelled by the list
  of the entries that precede the terminator; reading at or past the end of the list is
  reading the terminator.
* A loop is a recursive function with a bound on the number of iterations, together with a
  theorem that every larger bound gives the same result.
-/

set_option autoImplicit false

namespace VfScale

/-! ## Environment of the format negotiation -/

/-- Everything `check_outfmt`, `find_best_out` and `query_format` read from outside the file. -/
structure FormatEnv where
  /-- The rows of `preferred_conversions` before the `{0, 0}` terminator, as `(from, to)`. -/
  preferred_conversions : List (Int × Int)
  /-- The entries of `outfmt_list` before the `0` terminator. -/
  outfmt_list : List Int
  /-- First identifier of the format range scanned by the last-resort loop. -/
  IMGFMT_START : Int
  /-- One past the last identifier of that range. -/
  IMGFMT_END : Int
  /-- Mask of the "supported, possibly with conversion" capability bit. -/
  VFCAP_CSP_SUPPORTED : Nat
  /-- Mask of the "supported without conversion" capability bit. -/
  VFCAP_CSP_SUPPORTED_BY_HW : Nat
  /-- The pixel-format value that `imgfmt2pixfmt` returns for an unknown format. -/
  PIX_FMT_NONE : Int
  /-- The test `IMGFMT_IS_HWACCEL(fmt)`. -/
  IMGFMT_IS_HWACCEL : Int → Bool
  /-- Translation of a format identifier to a libswscale pixel format. -/
  imgfmt2pixfmt : Int → Int
  /-- Answer of libswscale to "can this pixel format be read". -/
  sws_isSupportedInput : Int → Int
  /-- Answer of libswscale to "can this pixel format be written". -/
  sws_isSupportedOutput : Int → Int
  /-- Capability word the next filter reports for a format (`vf_next_query_format`). -/
  vf_next_query_format : Int → Nat

/-- Complement `~x` of a capability word on 32 bits. -/
def bit_not32 (x : Nat) : Nat := x ^^^ 0xFFFFFFFF

/-! ## Arithmetic of the C type `int` -/

/-- The value of type `int` (32 bits, two's complement) that a sum or product of exact value
`x` leaves in the machine. -/
def wrap32 (x : Int) : Int := (x + 2147483648) % 2 ^ 32 - 2147483648

/-- The exact value `x` is representable in the type `int`: forming it does not overflow. -/
def fits_int (x : Int) : Prop := -2147483648 ≤ x ∧ x ≤ 2147483647

instance (x : Int) : Decidable (fits_int x) := by
  unfold fits_int; infer_instance

/-! ## `check_outfmt` (lines 157-163) -/

/-- Capability of `outfmt` as an output: `0` when libswscale cannot write it, else what the
next filter reports. -/
def check_outfmt (env : FormatEnv) (outfmt : Int) : Nat :=
  let pixfmt := env.imgfmt2pixfmt outfmt
  if pixfmt = env.PIX_FMT_NONE ∨ env.sws_isSupportedOutput pixfmt < 1 then 0
  else env.vf_next_query_format outfmt

/-! ## `find_best_out` (lines 165-218) -/

/-- The local variables of `find_best_out` that live across the iterations of the
`while (1)` loop. -/
structure find_best_out_vars where
  /-- The best format found so far, `0` for none. -/
  best : Int
  /-- Cursor into `outfmt_list`, `-1` while the list is not in use. -/
  i : Int
  /-- Cursor into `preferred_conversions`, `-1` before the first iteration. -/
  j : Int
  /-- The format under examination. -/
  format : Int
  deriving DecidableEq, Repr

/-- Row `j` of the array `preferred_conversions`: a row of the list, and the terminator
`{0, 0}` from the end of the list on. -/
def preferred_conversions_at (env : FormatEnv) (j : Int) : Int × Int :=
  env.preferred_conversions.getD j.toNat (0, 0)

/-- Entry `i` of the array `outfmt_list`: an entry of the list, and the terminator `0` from
the end of the list on. -/
def outfmt_list_at (env : FormatEnv) (i : Int) : Int :=
  env.outfmt_list.getD i.toNat 0

/-- The inner `while` of lines 179-181, which advances `j` past the rows whose source is
neither `0` nor `in_format`; the first argument bounds the number of steps, and the result is
the final `j`. -/
def find_best_out_skip (env : FormatEnv) (in_format : Int) : Nat → Int → Int
  | 0, j => j
  | fuel + 1, j =>
    if (preferred_conversions_at env j).1 ≠ 0 ∧
        (preferred_conversions_at env j).1 ≠ in_format then
      find_best_out_skip env in_format fuel (j + 1)
    else j

/-- Lines 175-188 of the loop body: the choice of the next `format`. -/
def find_best_out_select (env : FormatEnv) (in_format : Int) (v : find_best_out_vars) :
    find_best_out_vars :=
  let v :=
    if v.j < 0 then { v with format := in_format, j := 0 }
    else if v.i < 0 then
      let j := find_best_out_skip env in_format env.preferred_conversions.length v.j
      let v := { v with format := (preferred_conversions_at env j).2, j := j + 1 }
      if v.format = 0 then { v with i := 0 } else v
    else v
  if v.i ≥ 0 then { v with format := outfmt_list_at env v.i, i := v.i + 1 } else v

/-- Lines 189-202 of the loop body: leave the loop on a zero `format`, otherwise probe it.
The result is `Sum.inr best` when the loop is left by a `break` with that value of `best`,
and `Sum.inl` of the variables when the loop goes round again. -/
def find_best_out_probe (env : FormatEnv) (v : find_best_out_vars) : find_best_out_vars ⊕ Int :=
  if v.format = 0 then Sum.inr v.best
  else
    let ret := check_outfmt env v.format
    if ret &&& env.VFCAP_CSP_SUPPORTED_BY_HW ≠ 0 then Sum.inr v.format
    else if ret &&& env.VFCAP_CSP_SUPPORTED ≠ 0 ∧ v.best = 0 then
      Sum.inl { v with best := v.format }
    else Sum.inl v

/-- The `while (1)` loop of lines 173-203, run for at most the given number of iterations;
the result is the value of `best` after the loop. -/
def find_best_out_while (env : FormatEnv) (in_format : Int) :
    Nat → find_best_out_vars → Int
  | 0, v => v.best
  | fuel + 1, v =>
    match find_best_out_probe env (find_best_out_select env in_format v) with
    | Sum.inr best => best
    | Sum.inl v => find_best_out_while env in_format fuel v

/-- A number of iterations that the `while (1)` loop never exceeds: one for the input
format, one for each row and the terminator of `preferred_conversions`, one for each entry
and the terminator of `outfmt_list`. -/
def find_best_out_bound (env : FormatEnv) : Nat :=
  env.preferred_conversions.length + env.outfmt_list.length + 3

/-! The loop, phase by phase.  The three functions below describe the same loop as a
recursion on what is left of the two tables; `find_best_out_while_eq_loop` proves that the
loop above computes `find_best_out_loop`. -/

/-- The part of the `while (1)` loop that runs once `i >= 0`: `format = outfmt_list[i++]`,
leave the loop on the terminator, otherwise probe `format` (lines 187-202).  The first argument
is the rest of `outfmt_list` from index `i`; the result is the value of `best` when the loop
is left. -/
def find_best_out_list (env : FormatEnv) : List Int → Int → Int
  | [], best => best
  | format :: rest, best =>
    if format = 0 then best
    else
      let ret := check_outfmt env format
      if ret &&& env.VFCAP_CSP_SUPPORTED_BY_HW ≠ 0 then format
      else if ret &&& env.VFCAP_CSP_SUPPORTED ≠ 0 ∧ best = 0 then
        find_best_out_list env rest format
      else find_best_out_list env rest best

/-- The part of the `while (1)` loop that runs while `j >= 0` and `i < 0` (lines 178-202).
The second argument is the rest of `preferred_conversions` from index `j`.  The inner `while`
skips the rows whose source is neither `0` nor `in_format`; then `format` is the target of the
row reached, and a zero target switches to `outfmt_list`. -/
def find_best_out_conv (env : FormatEnv) (in_format : Int) : List (Int × Int) → Int → Int
  | [], best => find_best_out_list env env.outfmt_list best
  | row :: rest, best =>
    if row.1 ≠ 0 ∧ row.1 ≠ in_format then find_best_out_conv env in_format rest best
    else
      let format := row.2
      if format = 0 then find_best_out_list env env.outfmt_list best
      else
        let ret := check_outfmt env format
        if ret &&& env.VFCAP_CSP_SUPPORTED_BY_HW ≠ 0 then format
        else if ret &&& env.VFCAP_CSP_SUPPORTED ≠ 0 ∧ best = 0 then
          find_best_out_conv env in_format rest format
        else find_best_out_conv env in_format rest best

/-- The whole `while (1)` loop (lines 173-203): the first iteration (`j < 0`) probes
`in_format` itself, the following ones walk the two tables.  The result is `best` after the
loop. -/
def find_best_out_loop (env : FormatEnv) (in_format : Int) : Int :=
  let format := in_format
  if format = 0 then 0
  else
    let ret := check_outfmt env format
    if ret &&& env.VFCAP_CSP_SUPPORTED_BY_HW ≠ 0 then format
    else if ret &&& env.VFCAP_CSP_SUPPORTED ≠ 0 then
      find_best_out_conv env in_format env.preferred_conversions format
    else find_best_out_conv env in_format env.preferred_conversions 0

/-- The last-resort loop `for (format = IMGFMT_START; format < IMGFMT_END; format++)`
(lines 206-215); the first argument is the number of iterations still to run. -/
def find_best_out_any (env : FormatEnv) : Nat → Int → Int → Int
  | 0, _, best => best
  | n + 1, format, best =>
    let ret := check_outfmt env format
    if ret &&& env.VFCAP_CSP_SUPPORTED_BY_HW ≠ 0 then format
    else if ret &&& env.VFCAP_CSP_SUPPORTED ≠ 0 ∧ best = 0 then
      find_best_out_any env n (format + 1) format
    else find_best_out_any env n (format + 1) best

/-- The function `find_best_out`: the best output format for `in_format`, or `0`. -/
def find_best_out (env : FormatEnv) (in_format : Int) : Int :=
  let best := find_best_out_while env in_format (find_best_out_bound env)
    { best := 0, i := -1, j := -1, format := 0 }
  if best = 0 then
    find_best_out_any env (env.IMGFMT_END - env.IMGFMT_START).toNat env.IMGFMT_START best
  else best

/-! ## `query_format` (lines 397-414) -/

/-- Capability word the filter reports for `fmt` as its own input. -/
def query_format (env : FormatEnv) (fmt : Int) : Nat :=
  if ¬ env.IMGFMT_IS_HWACCEL fmt ∧ env.imgfmt2pixfmt fmt ≠ env.PIX_FMT_NONE then
    if env.sws_isSupportedInput (env.imgfmt2pixfmt fmt) < 1 then 0
    else
      let best := find_best_out env fmt
      if best = 0 then 0
      else
        let flags := env.vf_next_query_format best
        if flags &&& (env.VFCAP_CSP_SUPPORTED ||| env.VFCAP_CSP_SUPPORTED_BY_HW) = 0 then 0
        else if fmt ≠ best then flags &&& bit_not32 env.VFCAP_CSP_SUPPORTED_BY_HW
        else flags
  else 0

/-! ## State and environment of `reconfig` -/

/-- The private data of a filter instance (`struct vf_priv_s`, lines 44-57) without the two
`param` doubles; the scaler context it points to is the separate record `mp_sws_context`. -/
structure vf_priv_s where
  /-- Output width resolved by the last `reconfig`. -/
  w : Int
  /-- Output height resolved by the last `reconfig`. -/
  h : Int
  /-- Configured width (option `w`, minimum -11). -/
  cfg_w : Int
  /-- Configured height (option `h`, minimum -11). -/
  cfg_h : Int
  /-- Option `chr-drop`, 0 to 3. -/
  v_chr_drop : Int
  /-- Option `noup`, 0 to 2. -/
  noup : Int
  /-- Option `arnd`, 0 or 1. -/
  accurate_rnd : Int
  deriving DecidableEq, Repr

/-- The fields of `struct mp_image_params` that the file reads or writes. -/
structure mp_image_params where
  /-- Pixel format. -/
  imgfmt : Int
  /-- Width in pixels. -/
  w : Int
  /-- Height in pixels. -/
  h : Int
  /-- Display width. -/
  d_w : Int
  /-- Display height. -/
  d_h : Int
  /-- Colour space. -/
  colorspace : Int
  /-- Colour levels. -/
  colorlevels : Int
  deriving DecidableEq, Repr

/-- The fields of `struct mp_sws_context` that the file reads or writes. -/
structure mp_sws_context where
  /-- Flag word of libswscale. -/
  flags : Nat
  /-- Source parameters. -/
  src : mp_image_params
  /-- Destination parameters. -/
  dst : mp_image_params
  /-- Brightness, 16 fractional bits. -/
  brightness : Int
  /-- Contrast, 16 fractional bits. -/
  contrast : Int
  /-- Saturation, 16 fractional bits. -/
  saturation : Int
  deriving DecidableEq, Repr

/-- Everything `reconfig` reads from outside the file, on top of the format environment. -/
structure ReconfigEnv extends FormatEnv where
  /-- The `flags` field of `mp_imgfmt_get_desc(fmt)`. -/
  mp_imgfmt_get_desc_flags : Int → Nat
  /-- Mask of the YUV flag in a format description. -/
  MP_IMGFLAG_YUV : Nat
  /-- The "auto" colour space. -/
  MP_CSP_AUTO : Int
  /-- The "auto" colour levels. -/
  MP_CSP_LEVELS_AUTO : Int
  /-- Colour space and colour levels that `mp_image_params_guess_csp` settles on; the
  function is taken to leave every other field of the parameters alone. -/
  mp_image_params_guess_csp : mp_image_params → Int × Int
  /-- Effect of `mp_sws_set_from_cmdline` on the flag word of the scaler context. -/
  mp_sws_set_from_cmdline : Nat → Nat
  /-- Bit position of the chroma-drop field in the flag word. -/
  SWS_SRC_V_CHR_DROP_SHIFT : Nat
  /-- Mask of the accurate-rounding flag. -/
  SWS_ACCURATE_RND : Nat
  /-- Return value of `mp_sws_reinit` for a scaler context. -/
  mp_sws_reinit : mp_sws_context → Int
  /-- Return value of `vf_next_reconfig` for the parameters and flags passed on. -/
  vf_next_reconfig : mp_image_params → Int → Int

/-- Which `return` statement of `reconfig` was taken. -/
inductive reconfig_exit where
  /-- Line 231: no supported output format, `return -1`. -/
  | no_outfmt
  /-- Line 256: the configured width and height make no sense, `return -1`. -/
  | bad_params
  /-- Line 334: libswscale could not be initialised, `return -1`. -/
  | sws_failed
  /-- Line 340: `return vf_next_reconfig(vf, p, flags)` with the value returned. -/
  | forwarded (ret : Int)
  deriving DecidableEq, Repr

/-- The C return value of `reconfig`. -/
def reconfig_exit.ret : reconfig_exit → Int
  | .forwarded ret => ret
  | _ => -1

/-- State left by a call of `reconfig`: the exit taken, the private data, the scaler context
and the caller's parameter record `*p`. -/
structure reconfig_result where
  /-- The `return` statement taken. -/
  outcome : reconfig_exit
  /-- Private data after the call. -/
  priv : vf_priv_s
  /-- Scaler context after the call. -/
  sws : mp_sws_context
  /-- The record `*p` after the call. -/
  p : mp_image_params
  deriving DecidableEq, Repr

/-! ## `reconfig` (lines 220-341) -/

/-- Lines 239-246, for one axis: a configured value of -8 or less has 8 added and sets the
rounding flag of the axis. -/
def reconfig_decode (cfg : Int) : Int × Bool :=
  if cfg ≤ -8 then (cfg + 8, true) else (cfg, false)

/-- The test of lines 248-249 on the decoded width and height. -/
def reconfig_nonsense (w h : Int) : Prop :=
  w < -3 ∨ h < -3 ∨ (w < -1 ∧ h < -1)

instance (w h : Int) : Decidable (reconfig_nonsense w h) := by
  unfold reconfig_nonsense; infer_instance

/-- Lines 259-277: the cascade of tests that turns the decoded width and height into
numbers of pixels, given the decoded size and the display size of the source. -/
def reconfig_resolve (w h width height d_width d_height : Int) : Int × Int :=
  let w := if w = -1 then width else w
  let w := if w = 0 then d_width else w
  let h := if h = -1 then height else h
  let h := if h = 0 then d_height else h
  let w := if w = -3 then (wrap32 (h * width)).tdiv height else w
  let w := if w = -2 then (wrap32 (h * d_width)).tdiv d_height else w
  let h := if h = -3 then (wrap32 (w * height)).tdiv width else h
  let h := if h = -2 then (wrap32 (w * d_height)).tdiv d_width else h
  (w, h)

/-- The two tests of lines 259-262 (width) or 264-267 (height) on one axis: -1 becomes the
decoded dimension of the source, then 0 becomes its display dimension. -/
def reconfig_axis_base (v src disp : Int) : Int :=
  let v := if v = -1 then src else v
  if v = 0 then disp else v

/-- The two tests of lines 269-272 (width) or 274-277 (height) on one axis: -3 becomes the
other axis scaled by the decoded aspect, then -2 becomes the other axis scaled by the display
aspect. -/
def reconfig_axis_rel (v other src_this src_other disp_this disp_other : Int) : Int :=
  let v := if v = -3 then (wrap32 (other * src_this)).tdiv src_other else v
  if v = -2 then (wrap32 (other * disp_this)).tdiv disp_other else v

/-- Lines 279-282, for one axis: round to a multiple of 16 when the flag is set. -/
def reconfig_round (round : Bool) (v : Int) : Int :=
  if round then wrap32 ((wrap32 (v + 8)).tdiv 16 * 16) else v

/-- Lines 285-290: the check for upscaling. -/
def reconfig_noup (noup w h width height : Int) : Int × Int :=
  if noup ≠ 0 then
    if (if w > width then (1 : Int) else 0) + (if h > height then (1 : Int) else 0) ≥ noup then
      (width, height)
    else (w, h)
  else (w, h)

/-- Lines 298-304: the new display width and height. -/
def reconfig_display (w h d_width d_height : Int) : Int × Int :=
  if wrap32 (h * d_width) > wrap32 (w * d_height) then
    ((wrap32 (h * d_width)).tdiv d_height, h)
  else (w, (wrap32 (w * d_height)).tdiv d_width)

/-- Lines 259-290 in one piece: output width and height from the decoded configuration. -/
def reconfig_size (w h : Int) (round_w round_h : Bool) (noup width height d_width d_height : Int) :
    Int × Int :=
  let wh := reconfig_resolve w h width height d_width d_height
  let w := reconfig_round round_w wh.1
  let h := reconfig_round round_h wh.2
  reconfig_noup noup w h width height

/-- Lines 313-321: the colour space and levels are reset to "auto" unless both the source
and the destination format are YUV. -/
def reconfig_csp (env : ReconfigEnv) (input_imgfmt : Int) (p : mp_image_params) :
    mp_image_params :=
  let s_fmt_flags := env.mp_imgfmt_get_desc_flags input_imgfmt
  let d_fmt_flags := env.mp_imgfmt_get_desc_flags p.imgfmt
  if s_fmt_flags &&& env.MP_IMGFLAG_YUV = 0 ∨ d_fmt_flags &&& env.MP_IMGFLAG_YUV = 0 then
    { p with colorspace := env.MP_CSP_AUTO, colorlevels := env.MP_CSP_LEVELS_AUTO }
  else p

/-- The function `reconfig`.  The arguments are the private data and the scaler context of the
instance, the record `*p` and `flags`; the call of the next filter's `query_format` on line 234,
whose result is dropped, is not represented. -/
def reconfig (env : ReconfigEnv) (priv : vf_priv_s) (sws : mp_sws_context)
    (p : mp_image_params) (flags : Int) : reconfig_result :=
  let width := p.w
  let height := p.h
  let d_width := p.d_w
  let d_height := p.d_h
  let outfmt := p.imgfmt
  let best := find_best_out env.toFormatEnv outfmt
  let input := p
  if best = 0 then ⟨.no_outfmt, priv, sws, p⟩
  else
    let dw := reconfig_decode priv.cfg_w
    let dh := reconfig_decode priv.cfg_h
    if reconfig_nonsense dw.1 dh.1 then
      ⟨.bad_params, { priv with w := dw.1, h := dh.1 }, sws, p⟩
    else
      let wh := reconfig_size dw.1 dh.1 dw.2 dh.2 priv.noup width height d_width d_height
      let priv := { priv with w := wh.1, h := wh.2 }
      let d := reconfig_display priv.w priv.h d_width d_height
      let p := { p with w := priv.w, h := priv.h, d_w := d.1, d_h := d.2, imgfmt := best }
      let p := reconfig_csp env input.imgfmt p
      let csp := env.mp_image_params_guess_csp p
      let p := { p with colorspace := csp.1, colorlevels := csp.2 }
      let sws := { sws with flags := env.mp_sws_set_from_cmdline sws.flags }
      let sws := { sws with flags :=
        sws.flags ||| (priv.v_chr_drop.toNat <<< env.SWS_SRC_V_CHR_DROP_SHIFT) }
      let sws := { sws with flags := sws.flags ||| (priv.accurate_rnd.toNat * env.SWS_ACCURATE_RND) }
      let sws := { sws with src := input, dst := p }
      if env.mp_sws_reinit sws < 0 then ⟨.sws_failed, priv, sws, p⟩
      else ⟨.forwarded (env.vf_next_reconfig p flags), priv, sws, p⟩

/-- Output width and height before the check for upscaling (lines 259-282): resolved, then
rounded on the axes whose flag is set. -/
def reconfig_aligned (priv : vf_priv_s) (p : mp_image_params) : Int × Int :=
  let dw := reconfig_decode priv.cfg_w
  let dh := reconfig_decode priv.cfg_h
  let wh := reconfig_resolve dw.1 dh.1 p.w p.h p.d_w p.d_h
  (reconfig_round dw.2 wh.1, reconfig_round dh.2 wh.2)

/-- Number of axes on which the resolved and rounded value exceeds the decoded source size. -/
def grown_axes (priv : vf_priv_s) (p : mp_image_params) : Int :=
  (if (reconfig_aligned priv p).1 > p.w then 1 else 0) +
    (if (reconfig_aligned priv p).2 > p.h then 1 else 0)

/-- No product of lines 269-277 overflows.  On an accepted configuration at most one axis
still holds a relative code (-3 or -2) after lines 259-267, and the product formed for it is
the one of the other axis, resolved by lines 259-267, with a dimension of the source. -/
def reconfig_resolve_fits (w h width height d_width d_height : Int) : Prop :=
  (w = -3 → fits_int (reconfig_axis_base h height d_height * width)) ∧
    (w = -2 → fits_int (reconfig_axis_base h height d_height * d_width)) ∧
    (h = -3 → fits_int (reconfig_axis_base w width d_width * height)) ∧
    (h = -2 → fits_int (reconfig_axis_base w width d_width * d_height))

instance (w h width height d_width d_height : Int) :
    Decidable (reconfig_resolve_fits w h width height d_width d_height) := by
  unfold reconfig_resolve_fits; infer_instance

/-- The sum `v + 8` of line 280 or 282 does not overflow, on an axis whose flag is set. -/
def reconfig_round_fits (round : Bool) (v : Int) : Prop :=
  round = true → fits_int (v + 8)

instance (round : Bool) (v : Int) : Decidable (reconfig_round_fits round v) := by
  unfold reconfig_round_fits; infer_instance

/-- No product of lines 269-277 and no sum of lines 279-282 overflows in the call of
`reconfig` with this configuration on this source. -/
def reconfig_size_fits (priv : vf_priv_s) (p : mp_image_params) : Prop :=
  reconfig_resolve_fits (reconfig_decode priv.cfg_w).1 (reconfig_decode priv.cfg_h).1
      p.w p.h p.d_w p.d_h ∧
    reconfig_round_fits (reconfig_decode priv.cfg_w).2
      (reconfig_resolve (reconfig_decode priv.cfg_w).1 (reconfig_decode priv.cfg_h).1
        p.w p.h p.d_w p.d_h).1 ∧
    reconfig_round_fits (reconfig_decode priv.cfg_h).2
      (reconfig_resolve (reconfig_decode priv.cfg_w).1 (reconfig_decode priv.cfg_h).1
        p.w p.h p.d_w p.d_h).2

instance (priv : vf_priv_s) (p : mp_image_params) : Decidable (reconfig_size_fits priv p) := by
  unfold reconfig_size_fits; infer_instance

/-- Neither product of line 298 (formed again on lines 299 and 302) overflows, for the
output size `w x h` and the display size of the source. -/
def reconfig_display_fits (w h d_width d_height : Int) : Prop :=
  fits_int (h * d_width) ∧ fits_int (w * d_height)

instance (w h d_width d_height : Int) : Decidable (reconfig_display_fits w h d_width d_height) := by
  unfold reconfig_display_fits; infer_instance

/-! ## `control` (lines 354-393) -/

/-- The request codes that `control` switches on; every other code is `other`. -/
inductive vf_control_request where
  /-- The case label `VFCTRL_GET_EQUALIZER`. -/
  | VFCTRL_GET_EQUALIZER
  /-- The case label `VFCTRL_SET_EQUALIZER`. -/
  | VFCTRL_SET_EQUALIZER
  /-- Any other request code, handled by `default`. -/
  | other (code : Int)
  deriving DecidableEq, Repr

/-- The record `vf_equalizer_t` that the argument `data` points to. -/
structure vf_equalizer_t where
  /-- Name of the colour control. -/
  item : String
  /-- Its value in percent. -/
  value : Int
  deriving DecidableEq, Repr

/-- Everything `control` reads from outside the file, on top of the environment of
`reconfig`. -/
structure ControlEnv extends ReconfigEnv where
  /-- The return value for a request that was handled. -/
  CONTROL_TRUE : Int
  /-- Return value of `vf_next_control` for a request and the record `*data`, and the record
  as the next filter leaves it. -/
  vf_next_control : vf_control_request → vf_equalizer_t → Int × vf_equalizer_t

/-- Which `return` statement of `control` was taken. -/
inductive control_exit where
  /-- Lines 371 and 387: `return CONTROL_TRUE`. -/
  | handled
  /-- Line 392: `return vf_next_control(vf, request, data)`, with the request and the record
  that were passed on. -/
  | forwarded (request : vf_control_request) (data : vf_equalizer_t)
  deriving DecidableEq, Repr

/-- State left by a call of `control`: the exit taken, the C return value, the scaler context
and the record `*data`. -/
structure control_result where
  /-- The `return` statement taken. -/
  outcome : control_exit
  /-- The C return value. -/
  ret : Int
  /-- Scaler context after the call. -/
  sws : mp_sws_context
  /-- The record `*data` after the call. -/
  data : vf_equalizer_t
  deriving DecidableEq, Repr

/-- Line 392: hand the request to the next filter. -/
def control_forward (env : ControlEnv) (sws : mp_sws_context) (request : vf_control_request)
    (data : vf_equalizer_t) : control_result :=
  let next := env.vf_next_control request data
  { outcome := .forwarded request data, ret := next.1, sws := sws, data := next.2 }

/-- The expression `((raw * 100) + (1 << 15)) >> 16` of lines 362, 365 and 368: `x >> 16` on
a signed value is the arithmetic shift, which rounds toward minus infinity. -/
def control_get_percent (raw : Int) : Int :=
  (wrap32 (wrap32 (raw * 100) + 32768)) >>> (16 : Nat)

/-- The expression `((x << 16) + 50) / 100` of lines 375, 377 and 379: the shift `x << 16` is
the multiplication by 65536. -/
def control_set_raw (x : Int) : Int :=
  (wrap32 (wrap32 (x * 65536) + 50)).tdiv 100

/-- The function `control`.  The call of `mp_sws_reinit` is represented by its return value:
it is taken to leave the colour fields of the context as `control` has set them. -/
def control (env : ControlEnv) (sws : mp_sws_context) (request : vf_control_request)
    (data : vf_equalizer_t) : control_result :=
  match request with
  | .VFCTRL_GET_EQUALIZER =>
    let eq := data
    if eq.item = "brightness" then
      { outcome := .handled, ret := env.CONTROL_TRUE, sws := sws,
        data := { eq with value := control_get_percent sws.brightness } }
    else if eq.item = "contrast" then
      { outcome := .handled, ret := env.CONTROL_TRUE, sws := sws,
        data := { eq with value := wrap32 (control_get_percent sws.contrast - 100) } }
    else if eq.item = "saturation" then
      { outcome := .handled, ret := env.CONTROL_TRUE, sws := sws,
        data := { eq with value := wrap32 (control_get_percent sws.saturation - 100) } }
    else control_forward env sws request data
  | .VFCTRL_SET_EQUALIZER =>
    let eq := data
    if eq.item = "brightness" then
      let sws := { sws with brightness := control_set_raw eq.value }
      let r := env.mp_sws_reinit sws
      if r < 0 then control_forward env sws request data
      else { outcome := .handled, ret := env.CONTROL_TRUE, sws := sws, data := data }
    else if eq.item = "contrast" then
      let sws := { sws with contrast := control_set_raw (wrap32 (eq.value + 100)) }
      let r := env.mp_sws_reinit sws
      if r < 0 then control_forward env sws request data
      else { outcome := .handled, ret := env.CONTROL_TRUE, sws := sws, data := data }
    else if eq.item = "saturation" then
      let sws := { sws with saturation := control_set_raw (wrap32 (eq.value + 100)) }
      let r := env.mp_sws_reinit sws
      if r < 0 then control_forward env sws request data
      else { outcome := .handled, ret := env.CONTROL_TRUE, sws := sws, data := data }
    else control_forward env sws request data
  | .other _ => control_forward env sws request data

/-- The integer `n` is a nearest integer to the fraction `num / den`, for `den > 0`: it
differs from it by at most one half. -/
def is_nearest (n num den : Int) : Prop :=
  2 * |n * den - num| ≤ den

instance (n num den : Int) : Decidable (is_nearest n num den) := by
  unfold is_nearest; infer_instance

/-- The record that an accepted `reconfig` hands to `mp_image_params_guess_csp` on line 322:
the caller's record with the output size, display size and format filled in (lines 307-311)
and the colour fields treated by lines 318-321. -/
def reconfig_guess_input (env : ReconfigEnv) (priv : vf_priv_s) (p : mp_image_params) :
    mp_image_params :=
  let wh := reconfig_size (reconfig_decode priv.cfg_w).1 (reconfig_decode priv.cfg_h).1
    (reconfig_decode priv.cfg_w).2 (reconfig_decode priv.cfg_h).2 priv.noup p.w p.h p.d_w p.d_h
  let d := reconfig_display wh.1 wh.2 p.d_w p.d_h
  reconfig_csp env p.imgfmt
    { p with w := wh.1, h := wh.2, d_w := d.1, d_h := d.2,
             imgfmt := find_best_out env.toFormatEnv p.imgfmt }

/-- A format belongs to the YUV family: its description carries the YUV flag. -/
def is_yuv (env : ReconfigEnv) (fmt : Int) : Prop :=
  env.mp_imgfmt_get_desc_flags fmt &&& env.MP_IMGFLAG_YUV ≠ 0

instance (env : ReconfigEnv) (fmt : Int) : Decidable (is_yuv env fmt) := by
  unfold is_yuv; infer_instance

/-! ## Rule-based reference of the dimension resolution

The reference follows the words of the specification: each configured value is decoded once
into a rounding flag and a tagged rule, the rules are evaluated with the non-relative axis
first, then the flagged axes are aligned and the guard against upscaling is applied. -/

/-- The space whose aspect ratio a relative axis preserves. -/
inductive AspectSpace where
  /-- The decoded size of the source. -/
  | SourceSpace
  /-- The display size of the source. -/
  | DisplaySpace
  deriving DecidableEq, Repr

/-- The tagged rule of one axis. -/
inductive AxisRule where
  /-- A literal number of pixels. -/
  | Absolute (n : Int)
  /-- Use the decoded dimension of the source (value -1). -/
  | FromSource
  /-- Use the display dimension of the source (value 0). -/
  | FromDisplay
  /-- Derive from the other axis, keeping an aspect ratio (values -3 and -2). -/
  | RelativeAspect (space : AspectSpace)
  deriving DecidableEq, Repr

/-- The rule that a value stands for once the offset of the rounding flag is removed; none
for a value below -3, which is invalid. -/
def axis_rule (v : Int) : Option AxisRule :=
  if v < -3 then none
  else if v = -1 then some .FromSource
  else if v = 0 then some .FromDisplay
  else if v = -3 then some (.RelativeAspect .SourceSpace)
  else if v = -2 then some (.RelativeAspect .DisplaySpace)
  else some (.Absolute v)

/-- Decoding of one configured value: a value of -8 or less has the offset -8 removed and
sets the rounding flag. -/
def decode_axis (cfg : Int) : Bool × Option AxisRule :=
  if cfg ≤ -8 then (true, axis_rule (cfg + 8)) else (false, axis_rule cfg)

/-- Value of an axis whose rule does not refer to the other axis. -/
def eval_fixed (src disp : Int) : AxisRule → Int
  | .Absolute n => n
  | .FromSource => src
  | .FromDisplay => disp
  | .RelativeAspect _ => 0

/-- Value of a relative axis: `other * thisDim / otherDim`, truncated, in the chosen space. -/
def eval_relative (space : AspectSpace) (other src_this src_other disp_this disp_other : Int) :
    Int :=
  match space with
  | .SourceSpace => (other * src_this).tdiv src_other
  | .DisplaySpace => (other * disp_this).tdiv disp_other

/-- Evaluation of the two rules, the non-relative axis first; none when both axes are
relative to each other. -/
def resolve_rules (rule_w rule_h : AxisRule) (width height d_width d_height : Int) :
    Option (Int × Int) :=
  match rule_w, rule_h with
  | .RelativeAspect _, .RelativeAspect _ => none
  | .RelativeAspect space, rule_h =>
    let h := eval_fixed height d_height rule_h
    some (eval_relative space h width height d_width d_height, h)
  | rule_w, .RelativeAspect space =>
    let w := eval_fixed width d_width rule_w
    some (w, eval_relative space w height width d_height d_width)
  | rule_w, rule_h => some (eval_fixed width d_width rule_w, eval_fixed height d_height rule_h)

/-- Alignment of a flagged axis: `((value + 8) / 16) * 16`. -/
def align16 (round : Bool) (v : Int) : Int :=
  if round then ((v + 8).tdiv 16) * 16 else v

/-- The guard against upscaling with threshold `t`: when `t > 0` and at least `t` axes exceed
the decoded size of the source, both axes fall back to the decoded size of the source. -/
def anti_upscale (t w h width height : Int) : Int × Int :=
  let count : Int := (if w > width then 1 else 0) + (if h > height then 1 else 0)
  if count ≥ t ∧ t > 0 then (width, height) else (w, h)

/-- The rule-based resolution of the output width and height; none for a configuration
that is rejected. -/
def resolve_reference (cfg_w cfg_h noup width height d_width d_height : Int) :
    Option (Int × Int) :=
  match (decode_axis cfg_w).2, (decode_axis cfg_h).2 with
  | some rule_w, some rule_h =>
    match resolve_rules rule_w rule_h width height d_width d_height with
    | some wh =>
      some (anti_upscale noup (align16 (decode_axis cfg_w).1 wh.1)
        (align16 (decode_axis cfg_h).1 wh.2) width height)
    | none => none
  | _, _ => none

/-! ## Reference descriptions of the search, used to state the negotiation theorems -/

/-- A format reports the "supported without conversion" bit through `check_outfmt`. -/
def reports_hw (env : FormatEnv) (format : Int) : Bool :=
  decide (check_outfmt env format &&& env.VFCAP_CSP_SUPPORTED_BY_HW ≠ 0)

/-- A format reports the "supported" bit through `check_outfmt`. -/
def reports_supported (env : FormatEnv) (format : Int) : Bool :=
  decide (check_outfmt env format &&& env.VFCAP_CSP_SUPPORTED ≠ 0)

/-- The two-tier rule on a sequence of candidates: the first one that reports the
"without conversion" bit if there is one, otherwise the first one that reports "supported". -/
def two_tier (env : FormatEnv) (l : List Int) : Option Int :=
  match l.find? (reports_hw env) with
  | some f => some f
  | none => l.find? (reports_supported env)

/-- Targets of the conversion-table rows whose source is `in_format`, in table order. -/
def conv_targets (env : FormatEnv) (in_format : Int) : List Int :=
  (env.preferred_conversions.filter (fun row => decide (row.1 = in_format))).map Prod.snd

/-- The identifiers `IMGFMT_START, ..., IMGFMT_END - 1` in increasing order. -/
def format_range (env : FormatEnv) : List Int :=
  (List.range (env.IMGFMT_END - env.IMGFMT_START).toNat).map
    (fun (k : Nat) => env.IMGFMT_START + (k : Int))

/-- The two-tier rule on `candidates`, falling back to the two-tier rule on the whole
identifier range when no candidate is supported, and to `0` (none) when that fails too. -/
def best_of (env : FormatEnv) (candidates : List Int) : Int :=
  match two_tier env candidates with
  | some f => f
  | none =>
    match two_tier env (format_range env) with
    | some f => f
    | none => 0

/-- The search as the specification words it: the candidates are the conversion-table
targets for the input format followed by the format table. -/
def findBestOutputFormat_stated (env : FormatEnv) (in_format : Int) : Int :=
  best_of env (conv_targets env in_format ++ env.outfmt_list)

/-- The search with the input format itself as the first candidate, ahead of both tables. -/
def findBestOutputFormat_input_first (env : FormatEnv) (in_format : Int) : Int :=
  best_of env (in_format :: (conv_targets env in_format ++ env.outfmt_list))

/-- Well-formed tables: `0` is only the terminator (no conversion row has a zero source or
target, no format-table entry is zero) and the identifier range starts above `0`. -/
def tables_wf (env : FormatEnv) : Prop :=
  (∀ row ∈ env.preferred_conversions, row.1 ≠ 0 ∧ row.2 ≠ 0) ∧
  (∀ f ∈ env.outfmt_list, f ≠ 0) ∧ 0 < env.IMGFMT_START

instance (env : FormatEnv) : Decidable (tables_wf env) := by
  unfold tables_wf; infer_instance

/-- Value of `best` after probing the candidates `l` in order, starting from `best`: the first
one with the "without conversion" bit, else the incoming `best` if set, else the first one with
the "supported" bit, else `0`. -/
def pick (env : FormatEnv) (l : List Int) (best : Int) : Int :=
  match l.find? (reports_hw env) with
  | some f => f
  | none => if best = 0 then (l.find? (reports_supported env)).getD 0 else best

/-- The format is zero (none) or `check_outfmt` reports one of the two capability bits. -/
def none_or_accepted (env : FormatEnv) (f : Int) : Prop :=
  f = 0 ∨ check_outfmt env f &&& env.VFCAP_CSP_SUPPORTED_BY_HW ≠ 0 ∨
    check_outfmt env f &&& env.VFCAP_CSP_SUPPORTED ≠ 0

/-- A format passes `check_outfmt`: the word returned carries one of the two capability
bits. -/
def passes_check_outfmt (env : FormatEnv) (format : Int) : Prop :=
  check_outfmt env format &&& env.VFCAP_CSP_SUPPORTED_BY_HW ≠ 0 ∨
    check_outfmt env format &&& env.VFCAP_CSP_SUPPORTED ≠ 0

instance (env : FormatEnv) (format : Int) : Decidable (passes_check_outfmt env format) := by
  unfold passes_check_outfmt; infer_instance

/-- The formats that `find_best_out` may probe for an input format: the input format, the
conversion-table targets for it, the format-table entries and the whole identifier range. -/
def probed_formats (env : FormatEnv) (in_format : Int) : List Int :=
  (in_format :: (conv_targets env in_format ++ env.outfmt_list)) ++ format_range env

/-- The private data with the roles of width and height exchanged. -/
def swap_axes_priv (priv : vf_priv_s) : vf_priv_s :=
  { priv with w := priv.h, h := priv.w, cfg_w := priv.cfg_h, cfg_h := priv.cfg_w }

/-- The image parameters with the roles of width and height exchanged. -/
def swap_axes_params (p : mp_image_params) : mp_image_params :=
  { p with w := p.h, h := p.w, d_w := p.d_h, d_h := p.d_w }

/-- A sample environment: two conversion rows from format 1, a three-entry format table, the
identifier range 1..7, masks 1 and 2, every format known to libswscale and readable and
writable, and a next filter that takes every format without conversion. -/
def sample_env : FormatEnv where
  preferred_conversions := [(1, 2), (1, 3), (4, 1)]
  outfmt_list := [5, 3, 1]
  IMGFMT_START := 1
  IMGFMT_END := 8
  VFCAP_CSP_SUPPORTED := 1
  VFCAP_CSP_SUPPORTED_BY_HW := 2
  PIX_FMT_NONE := -1
  IMGFMT_IS_HWACCEL := fun _ => false
  imgfmt2pixfmt := fun f => f
  sws_isSupportedInput := fun _ => 1
  sws_isSupportedOutput := fun _ => 1
  vf_next_query_format := fun _ => 3

/-- The sample environment with a next filter that takes format 2 without conversion and every
other format with conversion only. -/
def sample_env_conv : FormatEnv :=
  { sample_env with vf_next_query_format := fun f => if f = 2 then 3 else 1 }

/-- A sample environment for `reconfig` on top of `sample_env`: formats below 4 are YUV, the
colour inference keeps what it is given, libswscale always initialises, and the next filter
accepts every configuration. -/
def sample_reconfig_env : ReconfigEnv :=
  { sample_env with
    mp_imgfmt_get_desc_flags := fun f => if f < 4 then 1 else 0
    MP_IMGFLAG_YUV := 1
    MP_CSP_AUTO := 0
    MP_CSP_LEVELS_AUTO := 0
    mp_image_params_guess_csp := fun p => (p.colorspace, p.colorlevels)
    mp_sws_set_from_cmdline := fun flags => flags
    SWS_SRC_V_CHR_DROP_SHIFT := 16
    SWS_ACCURATE_RND := 0x40000
    mp_sws_reinit := fun _ => 0
    vf_next_reconfig := fun _ _ => 0 }

/-- Private data with the given configured width, height and `noup`, everything else zero. -/
def sample_priv (cfg_w cfg_h noup : Int) : vf_priv_s :=
  { w := 0, h := 0, cfg_w := cfg_w, cfg_h := cfg_h, v_chr_drop := 0, noup := noup,
    accurate_rnd := 0 }

/-- Parameters of format 1 with the given decoded and display size. -/
def sample_params (w h d_w d_h : Int) : mp_image_params :=
  { imgfmt := 1, w := w, h := h, d_w := d_w, d_h := d_h, colorspace := 0, colorlevels := 0 }

/-- A scaler context with every field zero. -/
def sample_sws : mp_sws_context :=
  { flags := 0, src := sample_params 0 0 0 0, dst := sample_params 0 0 0 0,
    brightness := 0, contrast := 0, saturation := 0 }

/-- A sample environment for `control`: the next filter answers every request with the
value of `CONTROL_TRUE` and leaves the record alone, and libswscale initialises. -/
def sample_control_env : ControlEnv :=
  { sample_reconfig_env with
    CONTROL_TRUE := 1
    vf_next_control := fun _ data => (1, data) }

/-- The sample environment for `control` with a libswscale that fails to initialise. -/
def sample_control_env_failing : ControlEnv :=
  { sample_control_env with mp_sws_reinit := fun _ => -1 }

/-! ## Lemmas on the search -/

/-! ### The `while (1)` loop computes the phase description -/

theorem preferred_conversions_at_lt (env : FormatEnv) (k : Nat)
    (h : k < env.preferred_conversions.length) :
    preferred_conversions_at env (k : Int) = env.preferred_conversions[k] := by
  unfold preferred_conversions_at
  rw [Int.toNat_natCast]
  exact List.getD_eq_getElem _ _ h

theorem preferred_conversions_at_ge (env : FormatEnv) (k : Nat)
    (h : env.preferred_conversions.length ≤ k) :
    preferred_conversions_at env (k : Int) = (0, 0) := by
  unfold preferred_conversions_at
  rw [Int.toNat_natCast]
  exact List.getD_eq_default _ _ h

theorem outfmt_list_at_lt (env : FormatEnv) (k : Nat) (h : k < env.outfmt_list.length) :
    outfmt_list_at env (k : Int) = env.outfmt_list[k] := by
  unfold outfmt_list_at
  rw [Int.toNat_natCast]
  exact List.getD_eq_getElem _ _ h

theorem outfmt_list_at_ge (env : FormatEnv) (k : Nat) (h : env.outfmt_list.length ≤ k) :
    outfmt_list_at env (k : Int) = 0 := by
  unfold outfmt_list_at
  rw [Int.toNat_natCast]
  exact List.getD_eq_default _ _ h

/-- The inner `while` stops on a row of the table or on its terminator, and the rows it
passes are the rows that the phase description skips. -/
theorem find_best_out_skip_spec (env : FormatEnv) (in_format : Int) (fuel k : Nat)
    (hk : k ≤ env.preferred_conversions.length)
    (hfuel : env.preferred_conversions.length - k ≤ fuel) :
    ∃ k2 : Nat, find_best_out_skip env in_format fuel (k : Int) = (k2 : Int) ∧
      k ≤ k2 ∧ k2 ≤ env.preferred_conversions.length ∧
      ¬ ((preferred_conversions_at env (k2 : Int)).1 ≠ 0 ∧
        (preferred_conversions_at env (k2 : Int)).1 ≠ in_format) ∧
      ∀ best, find_best_out_conv env in_format (env.preferred_conversions.drop k) best =
        find_best_out_conv env in_format (env.preferred_conversions.drop k2) best := by
  induction fuel generalizing k with
  | zero =>
    have hkl : env.preferred_conversions.length ≤ k := by omega
    refine ⟨k, rfl, le_refl k, hk, ?_, fun _ => rfl⟩
    rw [preferred_conversions_at_ge env k hkl]
    simp
  | succ fuel ih =>
    by_cases hc : (preferred_conversions_at env (k : Int)).1 ≠ 0 ∧
        (preferred_conversions_at env (k : Int)).1 ≠ in_format
    · have hlt : k < env.preferred_conversions.length := by
        by_contra hge
        rw [preferred_conversions_at_ge env k (by omega)] at hc
        exact hc.1 rfl
      obtain ⟨k2, h1, h2, h3, h4, h5⟩ := ih (k + 1) (by omega) (by omega)
      refine ⟨k2, ?_, by omega, h3, h4, ?_⟩
      · rw [find_best_out_skip, if_pos hc]
        have hcast : ((k : Int) + 1) = ((k + 1 : Nat) : Int) := by push_cast; ring
        rw [hcast]
        exact h1
      · intro best
        rw [← h5 best, List.drop_eq_getElem_cons hlt, find_best_out_conv]
        rw [preferred_conversions_at_lt env k hlt] at hc
        rw [if_pos hc]
    · refine ⟨k, ?_, le_refl k, hk, hc, fun _ => rfl⟩
      rw [find_best_out_skip, if_neg hc]

theorem find_best_out_select_list (env : FormatEnv) (in_format : Int) (v : find_best_out_vars)
    (hj : 0 ≤ v.j) (hi : 0 ≤ v.i) :
    find_best_out_select env in_format v =
      { v with format := outfmt_list_at env v.i, i := v.i + 1 } := by
  have h1 : ¬ v.j < 0 := by omega
  have h2 : ¬ v.i < 0 := by omega
  simp only [find_best_out_select]
  rw [if_neg h1, if_neg h2, if_pos (by omega)]

/-- The loop from a state in which `outfmt_list` is in use. -/
theorem find_best_out_while_list (env : FormatEnv) (in_format : Int) (n : Nat) :
    ∀ (k fuel : Nat) (best j format : Int), env.outfmt_list.length - k = n →
      k ≤ env.outfmt_list.length → n + 1 ≤ fuel → 0 ≤ j →
      find_best_out_while env in_format fuel { best := best, i := (k : Int), j := j, format := format } =
        find_best_out_list env (env.outfmt_list.drop k) best := by
  induction n with
  | zero =>
    intro k fuel best j format hn hk hfuel hj
    obtain ⟨fuel, rfl⟩ : ∃ f, fuel = f + 1 := ⟨fuel - 1, by omega⟩
    have hkl : env.outfmt_list.length ≤ k := by omega
    rw [find_best_out_while, find_best_out_select_list env in_format _ hj (by simp)]
    simp only [find_best_out_probe]
    rw [outfmt_list_at_ge env k hkl, List.drop_of_length_le hkl]
    simp [find_best_out_list]
  | succ n ih =>
    intro k fuel best j format hn hk hfuel hj
    obtain ⟨fuel, rfl⟩ : ∃ f, fuel = f + 1 := ⟨fuel - 1, by omega⟩
    have hlt : k < env.outfmt_list.length := by omega
    have hcast : ((k : Int) + 1) = ((k + 1 : Nat) : Int) := by push_cast; ring
    rw [find_best_out_while, find_best_out_select_list env in_format _ hj (by simp)]
    simp only [find_best_out_probe]
    rw [outfmt_list_at_lt env k hlt, List.drop_eq_getElem_cons hlt, find_best_out_list, hcast]
    by_cases h0 : env.outfmt_list[k] = 0
    · simp [h0]
    · rw [if_neg h0, if_neg h0]
      by_cases hhw : check_outfmt env env.outfmt_list[k] &&& env.VFCAP_CSP_SUPPORTED_BY_HW ≠ 0
      · simp only [if_pos hhw]
      · by_cases hs : check_outfmt env env.outfmt_list[k] &&& env.VFCAP_CSP_SUPPORTED ≠ 0 ∧
            best = 0
        · simp only [if_neg hhw, if_pos hs]
          exact ih (k + 1) fuel _ j _ (by omega) (by omega) (by omega) hj
        · simp only [if_neg hhw, if_neg hs]
          exact ih (k + 1) fuel _ j _ (by omega) (by omega) (by omega) hj


theorem find_best_out_select_conv (env : FormatEnv) (in_format : Int) (v : find_best_out_vars)
    (hj : 0 ≤ v.j) (hi : v.i < 0) :
    find_best_out_select env in_format v =
      if (preferred_conversions_at env
          (find_best_out_skip env in_format env.preferred_conversions.length v.j)).2 = 0 then
        { best := v.best, i := 1,
          j := find_best_out_skip env in_format env.preferred_conversions.length v.j + 1,
          format := outfmt_list_at env 0 }
      else
        { best := v.best, i := v.i,
          j := find_best_out_skip env in_format env.preferred_conversions.length v.j + 1,
          format := (preferred_conversions_at env
            (find_best_out_skip env in_format env.preferred_conversions.length v.j)).2 } := by
  have h1 : ¬ v.j < 0 := by omega
  simp only [find_best_out_select]
  rw [if_neg h1, if_pos hi]
  by_cases h0 : (preferred_conversions_at env
      (find_best_out_skip env in_format env.preferred_conversions.length v.j)).2 = 0
  · simp [h0]
  · have h2 : ¬ v.i ≥ 0 := by omega
    simp [h0, h2]

theorem find_best_out_select_first (env : FormatEnv) (in_format : Int)
    (v : find_best_out_vars) (hj : v.j < 0) (hi : v.i < 0) :
    find_best_out_select env in_format v = { v with format := in_format, j := 0 } := by
  have h2 : ¬ v.i ≥ 0 := by omega
  simp only [find_best_out_select]
  rw [if_pos hj, if_neg h2]

/-- The iteration that switches from the conversion table to `outfmt_list` continues as the
loop does from the start of `outfmt_list`. -/
theorem find_best_out_while_switch (env : FormatEnv) (in_format : Int) (fuel k : Nat)
    (best format : Int) (hfuel : env.outfmt_list.length + 1 ≤ fuel)
    (hsw : (preferred_conversions_at env
      (find_best_out_skip env in_format env.preferred_conversions.length (k : Int))).2 = 0) :
    find_best_out_while env in_format fuel
        { best := best, i := -1, j := (k : Int), format := format } =
      find_best_out_list env env.outfmt_list best := by
  obtain ⟨fuel, rfl⟩ : ∃ f, fuel = f + 1 := ⟨fuel - 1, by omega⟩
  have hlist := find_best_out_while_list env in_format env.outfmt_list.length 0 (fuel + 1) best
    (find_best_out_skip env in_format env.preferred_conversions.length (k : Int) + 1) format
    (by simp) (by omega) (by omega)
  have hskip : 0 ≤ find_best_out_skip env in_format env.preferred_conversions.length (k : Int) := by
    by_cases hk : k ≤ env.preferred_conversions.length
    · obtain ⟨k2, h1, -⟩ := find_best_out_skip_spec env in_format
        env.preferred_conversions.length k hk (by omega)
      rw [h1]
      omega
    · have hge : env.preferred_conversions.length ≤ k := by omega
      have : find_best_out_skip env in_format env.preferred_conversions.length (k : Int) =
          (k : Int) := by
        cases hlen : env.preferred_conversions.length with
        | zero => rfl
        | succ m =>
          rw [find_best_out_skip, preferred_conversions_at_ge env k hge]
          simp
      rw [this]
      omega
  rw [List.drop_zero] at hlist
  rw [← hlist (by omega)]
  rw [find_best_out_while, find_best_out_while,
    find_best_out_select_conv env in_format _ (by simp) (by simp),
    find_best_out_select_list env in_format _ (by simpa using (by omega)) (by simp)]
  simp only [hsw, if_true]
  rfl

/-- The loop from a state in which the conversion table is in use. -/
theorem find_best_out_while_conv (env : FormatEnv) (in_format : Int) (n : Nat) :
    ∀ (k fuel : Nat) (best format : Int), env.preferred_conversions.length - k ≤ n →
      k ≤ env.preferred_conversions.length →
      (env.preferred_conversions.length - k) + env.outfmt_list.length + 2 ≤ fuel →
      find_best_out_while env in_format fuel
          { best := best, i := -1, j := (k : Int), format := format } =
        find_best_out_conv env in_format (env.preferred_conversions.drop k) best := by
  induction n with
  | zero =>
    intro k fuel best format hn hk hfuel
    obtain ⟨k2, h1, h2, h3, h4, h5⟩ := find_best_out_skip_spec env in_format
      env.preferred_conversions.length k hk (by omega)
    have hk2 : env.preferred_conversions.length ≤ k2 := by omega
    have hsw : (preferred_conversions_at env
        (find_best_out_skip env in_format env.preferred_conversions.length (k : Int))).2 = 0 := by
      rw [h1, preferred_conversions_at_ge env k2 hk2]
    rw [find_best_out_while_switch env in_format fuel k best format (by omega) hsw, h5 best,
      List.drop_of_length_le hk2, find_best_out_conv]
  | succ n ih =>
    intro k fuel best format hn hk hfuel
    obtain ⟨k2, h1, h2, h3, h4, h5⟩ := find_best_out_skip_spec env in_format
      env.preferred_conversions.length k hk (by omega)
    by_cases hsw : (preferred_conversions_at env
        (find_best_out_skip env in_format env.preferred_conversions.length (k : Int))).2 = 0
    · rw [find_best_out_while_switch env in_format fuel k best format (by omega) hsw, h5 best]
      rw [h1] at hsw
      by_cases hk2 : k2 < env.preferred_conversions.length
      · rw [preferred_conversions_at_lt env k2 hk2] at hsw h4
        rw [List.drop_eq_getElem_cons hk2, find_best_out_conv, if_neg h4]
        simp only [hsw, if_true]
      · rw [List.drop_of_length_le (by omega), find_best_out_conv]
    · obtain ⟨fuel, rfl⟩ : ∃ f, fuel = f + 1 := ⟨fuel - 1, by omega⟩
      have hk2 : k2 < env.preferred_conversions.length := by
        by_contra hge
        rw [h1, preferred_conversions_at_ge env k2 (by omega)] at hsw
        exact hsw rfl
      have hcast : ((k2 : Int) + 1) = ((k2 + 1 : Nat) : Int) := by push_cast; ring
      rw [find_best_out_while, find_best_out_select_conv env in_format _ (by simp) (by simp),
        if_neg hsw]
      simp only [find_best_out_probe]
      rw [h5 best, h1] at *
      rw [preferred_conversions_at_lt env k2 hk2] at hsw h4 ⊢
      rw [List.drop_eq_getElem_cons hk2, find_best_out_conv, if_neg h4, hcast]
      simp only [if_neg hsw]
      by_cases hhw : check_outfmt env (env.preferred_conversions[k2]).2 &&&
          env.VFCAP_CSP_SUPPORTED_BY_HW ≠ 0
      · simp only [if_pos hhw]
      · by_cases hs : check_outfmt env (env.preferred_conversions[k2]).2 &&&
            env.VFCAP_CSP_SUPPORTED ≠ 0 ∧ best = 0
        · simp only [if_neg hhw, if_pos hs]
          exact ih (k2 + 1) fuel _ _ (by omega) (by omega) (by omega)
        · simp only [if_neg hhw, if_neg hs]
          exact ih (k2 + 1) fuel _ _ (by omega) (by omega) (by omega)

/-- The `while (1)` loop returns what the phase description gives for every number of
iterations allowed from `find_best_out_bound` upward: the loop is left before the bound is
reached. -/
theorem find_best_out_while_eq_loop (env : FormatEnv) (in_format : Int) (fuel : Nat)
    (hfuel : find_best_out_bound env ≤ fuel) :
    find_best_out_while env in_format fuel { best := 0, i := -1, j := -1, format := 0 } =
      find_best_out_loop env in_format := by
  unfold find_best_out_bound at hfuel
  obtain ⟨fuel, rfl⟩ : ∃ f, fuel = f + 1 := ⟨fuel - 1, by omega⟩
  have hconv := fun best format => find_best_out_while_conv env in_format
    env.preferred_conversions.length 0 fuel best format (by omega) (by omega) (by omega)
  simp only [List.drop_zero, Nat.cast_zero] at hconv
  rw [find_best_out_while, find_best_out_select_first env in_format _ (by simp) (by simp)]
  simp only [find_best_out_probe, find_best_out_loop]
  by_cases h0 : in_format = 0
  · simp only [if_pos h0]
  · simp only [if_neg h0]
    by_cases hhw : check_outfmt env in_format &&& env.VFCAP_CSP_SUPPORTED_BY_HW ≠ 0
    · simp only [if_pos hhw]
    · by_cases hs : check_outfmt env in_format &&& env.VFCAP_CSP_SUPPORTED ≠ 0
      · simp only [if_neg hhw, if_pos hs, and_true, if_true]
        exact hconv _ _
      · simp only [if_neg hhw, and_true, if_neg hs]
        exact hconv _ _

theorem find_best_out_unfold (env : FormatEnv) (in_format : Int) :
    find_best_out env in_format =
      if find_best_out_loop env in_format = 0 then
        find_best_out_any env (env.IMGFMT_END - env.IMGFMT_START).toNat env.IMGFMT_START
          (find_best_out_loop env in_format)
      else find_best_out_loop env in_format := by
  simp only [find_best_out, find_best_out_while_eq_loop env in_format _ (le_refl _)]

/-! ### The phase description computes the two-tier rule -/

theorem pick_nil (env : FormatEnv) (best : Int) : pick env [] best = best := by
  unfold pick
  by_cases h : best = 0 <;> simp [h]

theorem pick_cons (env : FormatEnv) (f : Int) (l : List Int) (best : Int) (hf : f ≠ 0) :
    pick env (f :: l) best =
      if check_outfmt env f &&& env.VFCAP_CSP_SUPPORTED_BY_HW ≠ 0 then f
      else if check_outfmt env f &&& env.VFCAP_CSP_SUPPORTED ≠ 0 ∧ best = 0 then pick env l f
      else pick env l best := by
  unfold pick
  by_cases hhw : check_outfmt env f &&& env.VFCAP_CSP_SUPPORTED_BY_HW = 0
  · by_cases hs : check_outfmt env f &&& env.VFCAP_CSP_SUPPORTED = 0
    · simp [List.find?_cons, reports_hw, reports_supported, hhw, hs]
    · by_cases hb : best = 0
      · simp [List.find?_cons, reports_hw, reports_supported, hhw, hs, hb, hf]
      · simp [List.find?_cons, reports_hw, reports_supported, hhw, hs, hb]
  · simp [List.find?_cons, reports_hw, hhw]

theorem find_best_out_list_eq (env : FormatEnv) (l : List Int) (best : Int)
    (hl : ∀ f ∈ l, f ≠ 0) : find_best_out_list env l best = pick env l best := by
  induction l generalizing best with
  | nil => simp [find_best_out_list, pick_nil]
  | cons f rest ih =>
    have hf : f ≠ 0 := hl f (List.mem_cons_self _ _)
    have hrest : ∀ g ∈ rest, g ≠ 0 := fun g hg => hl g (List.mem_cons_of_mem _ hg)
    rw [pick_cons env f rest best hf]
    simp only [find_best_out_list, hf, if_false, ih _ hrest]

theorem find_best_out_conv_eq (env : FormatEnv) (in_format : Int) (rows : List (Int × Int))
    (best : Int) (hrows : ∀ row ∈ rows, row.1 ≠ 0 ∧ row.2 ≠ 0)
    (hl : ∀ f ∈ env.outfmt_list, f ≠ 0) :
    find_best_out_conv env in_format rows best =
      pick env ((rows.filter (fun row => decide (row.1 = in_format))).map Prod.snd
        ++ env.outfmt_list) best := by
  induction rows generalizing best with
  | nil => simp [find_best_out_conv, find_best_out_list_eq env _ best hl]
  | cons row rest ih =>
    have hrow := hrows row (List.mem_cons_self _ _)
    have hrest : ∀ r ∈ rest, r.1 ≠ 0 ∧ r.2 ≠ 0 := fun r hr => hrows r (List.mem_cons_of_mem _ hr)
    by_cases hsrc : row.1 = in_format
    · simp only [find_best_out_conv, List.filter_cons, hsrc, decide_True, if_true,
        List.map_cons, List.cons_append]
      rw [pick_cons env row.2 _ best hrow.2]
      have hne : ¬ (in_format ≠ 0 ∧ in_format ≠ in_format) := by simp
      simp only [hne, if_false, hrow.2, ih _ hrest]
    · have hskip : row.1 ≠ 0 ∧ row.1 ≠ in_format := ⟨hrow.1, hsrc⟩
      rw [find_best_out_conv, if_pos hskip, ih _ hrest]
      simp [List.filter_cons, hsrc]

theorem find_best_out_any_eq (env : FormatEnv) (n : Nat) (format best : Int)
    (hpos : 0 < format) :
    find_best_out_any env n format best =
      pick env ((List.range n).map (fun (k : Nat) => format + (k : Int))) best := by
  induction n generalizing format best with
  | zero => simp [find_best_out_any, pick_nil]
  | succ n ih =>
    have hshift : (List.range (n + 1)).map (fun (k : Nat) => format + (k : Int)) =
        format :: (List.range n).map (fun (k : Nat) => format + 1 + (k : Int)) := by
      rw [List.range_succ_eq_map]
      simp only [List.map_cons, List.map_map, Nat.cast_zero, add_zero]
      congr 1
      apply List.map_congr_left
      intro k _
      simp only [Function.comp]
      push_cast
      ring
    rw [hshift, pick_cons env format _ best (by omega)]
    simp only [find_best_out_any, ih (format + 1) _ (by omega)]

theorem pick_zero_eq (env : FormatEnv) (l : List Int) :
    pick env l 0 = (two_tier env l).getD 0 := by
  unfold pick two_tier
  cases l.find? (reports_hw env) <;> simp

theorem two_tier_some_ne_zero (env : FormatEnv) (l : List Int) (f : Int)
    (hl : ∀ g ∈ l, g ≠ 0) (h : two_tier env l = some f) : f ≠ 0 := by
  unfold two_tier at h
  cases hhw : l.find? (reports_hw env) with
  | some g =>
    rw [hhw] at h
    simp only [Option.some.injEq] at h
    exact h ▸ hl g (List.mem_of_find?_eq_some hhw)
  | none =>
    rw [hhw] at h
    exact hl f (List.mem_of_find?_eq_some h)

theorem find_best_out_eq_best_of (env : FormatEnv) (in_format : Int)
    (hwf : tables_wf env) (hin : in_format ≠ 0) :
    find_best_out env in_format = findBestOutputFormat_input_first env in_format := by
  obtain ⟨hrows, hlist, hstart⟩ := hwf
  have hcand : ∀ g ∈ in_format :: (conv_targets env in_format ++ env.outfmt_list), g ≠ 0 := by
    intro g hg
    rcases List.mem_cons.mp hg with rfl | hg
    · exact hin
    · rcases List.mem_append.mp hg with hg | hg
      · obtain ⟨row, hrow, rfl⟩ := List.mem_map.mp hg
        exact (hrows row (List.mem_of_mem_filter hrow)).2
      · exact hlist g hg
  have hloop : find_best_out_loop env in_format =
      pick env (in_format :: (conv_targets env in_format ++ env.outfmt_list)) 0 := by
    rw [pick_cons env in_format _ 0 hin]
    simp only [find_best_out_loop, hin, if_false, and_true,
      find_best_out_conv_eq env in_format _ _ hrows hlist, conv_targets]
  rw [find_best_out_unfold]
  unfold findBestOutputFormat_input_first best_of
  simp only [hloop, find_best_out_any_eq env _ env.IMGFMT_START _ hstart, pick_zero_eq]
  cases htt : two_tier env (in_format :: (conv_targets env in_format ++ env.outfmt_list)) with
  | some f =>
    have hf := two_tier_some_ne_zero env _ f hcand htt
    simp [hf]
  | none =>
    simp only [Option.getD_none, if_true, format_range]
    rw [pick_zero_eq]
    cases two_tier env ((List.range (env.IMGFMT_END - env.IMGFMT_START).toNat).map
      (fun (k : Nat) => env.IMGFMT_START + (k : Int))) <;> rfl

/-! ## Lemmas on capability words -/

theorem land_bit_not32_land (flags mask : Nat) (hmask : mask < 2 ^ 32) :
    (flags &&& bit_not32 mask) &&& mask = 0 := by
  apply Nat.eq_of_testBit_eq
  intro i
  have hones : (0xFFFFFFFF : Nat) = 2 ^ 32 - 1 := by norm_num
  simp only [bit_not32, Nat.testBit_land, Nat.testBit_xor, Nat.zero_testBit, hones,
    Nat.testBit_two_pow_sub_one]
  by_cases hi : i < 32
  · simp [hi]
  · have hbit : mask.testBit i = false :=
      Nat.testBit_lt_two_pow (lt_of_lt_of_le hmask (Nat.pow_le_pow_right (by norm_num) (by omega)))
    simp [hbit]

theorem testBit_land_bit_not32 (flags mask i : Nat) (hi : i < 32) :
    (flags &&& bit_not32 mask).testBit i = (flags.testBit i && !mask.testBit i) := by
  have hones : (0xFFFFFFFF : Nat) = 2 ^ 32 - 1 := by norm_num
  simp only [bit_not32, Nat.testBit_land, Nat.testBit_xor, hones, Nat.testBit_two_pow_sub_one,
    hi, decide_True, Bool.xor_true]

theorem land_lor_ne_zero (flags a b : Nat) (h : flags &&& a ≠ 0 ∨ flags &&& b ≠ 0) :
    flags &&& (a ||| b) ≠ 0 := by
  intro hz
  have hbits : ∀ i, (flags &&& (a ||| b)).testBit i = false := by
    intro i; rw [hz]; exact Nat.zero_testBit i
  have ha : flags &&& a = 0 := by
    apply Nat.eq_of_testBit_eq
    intro i
    have := hbits i
    simp only [Nat.testBit_land, Nat.testBit_lor, Nat.zero_testBit] at this ⊢
    revert this
    cases flags.testBit i <;> cases a.testBit i <;> cases b.testBit i <;> simp
  have hb : flags &&& b = 0 := by
    apply Nat.eq_of_testBit_eq
    intro i
    have := hbits i
    simp only [Nat.testBit_land, Nat.testBit_lor, Nat.zero_testBit] at this ⊢
    revert this
    cases flags.testBit i <;> cases a.testBit i <;> cases b.testBit i <;> simp
  rcases h with h | h
  · exact h ha
  · exact h hb

/-! ## Soundness of the search: a format that is returned passed `check_outfmt` -/

theorem find_best_out_list_sound (env : FormatEnv) (l : List Int) (best : Int)
    (hb : none_or_accepted env best) : none_or_accepted env (find_best_out_list env l best) := by
  induction l generalizing best with
  | nil => simpa [find_best_out_list] using hb
  | cons f rest ih =>
    simp only [find_best_out_list]
    split_ifs with h0 hhw hs
    · exact hb
    · exact Or.inr (Or.inl hhw)
    · exact ih _ (Or.inr (Or.inr hs.1))
    · exact ih _ hb

theorem find_best_out_conv_sound (env : FormatEnv) (in_format : Int) (rows : List (Int × Int))
    (best : Int) (hb : none_or_accepted env best) :
    none_or_accepted env (find_best_out_conv env in_format rows best) := by
  induction rows generalizing best with
  | nil => simpa [find_best_out_conv] using find_best_out_list_sound env _ best hb
  | cons row rest ih =>
    simp only [find_best_out_conv]
    split_ifs with hskip h0 hhw hs
    · exact ih _ hb
    · exact find_best_out_list_sound env _ best hb
    · exact Or.inr (Or.inl hhw)
    · exact ih _ (Or.inr (Or.inr hs.1))
    · exact ih _ hb

theorem find_best_out_any_sound (env : FormatEnv) (n : Nat) (format best : Int)
    (hb : none_or_accepted env best) :
    none_or_accepted env (find_best_out_any env n format best) := by
  induction n generalizing format best with
  | zero => simpa [find_best_out_any] using hb
  | succ n ih =>
    simp only [find_best_out_any]
    split_ifs with hhw hs
    · exact Or.inr (Or.inl hhw)
    · exact ih _ _ (Or.inr (Or.inr hs.1))
    · exact ih _ _ hb

theorem find_best_out_loop_sound (env : FormatEnv) (in_format : Int) :
    none_or_accepted env (find_best_out_loop env in_format) := by
  simp only [find_best_out_loop]
  split_ifs with h0 hhw hs
  · exact Or.inl rfl
  · exact Or.inr (Or.inl hhw)
  · exact find_best_out_conv_sound env _ _ _ (Or.inr (Or.inr hs))
  · exact find_best_out_conv_sound env _ _ _ (Or.inl rfl)

theorem find_best_out_sound (env : FormatEnv) (in_format : Int) :
    none_or_accepted env (find_best_out env in_format) := by
  rw [find_best_out_unfold]
  split_ifs with h0
  · exact find_best_out_any_sound env _ _ _ (Or.inl h0)
  · exact find_best_out_loop_sound env in_format

theorem check_outfmt_eq_next (env : FormatEnv) (f : Int) (h : check_outfmt env f ≠ 0) :
    check_outfmt env f = env.vf_next_query_format f ∧
      env.imgfmt2pixfmt f ≠ env.PIX_FMT_NONE ∧
      ¬ env.sws_isSupportedOutput (env.imgfmt2pixfmt f) < 1 := by
  unfold check_outfmt at h ⊢
  by_cases hc : env.imgfmt2pixfmt f = env.PIX_FMT_NONE ∨
      env.sws_isSupportedOutput (env.imgfmt2pixfmt f) < 1
  · simp [hc] at h
  · simp only [hc, if_false, true_and]
    exact ⟨fun h1 => hc (Or.inl h1), fun h2 => hc (Or.inr h2)⟩

theorem land_ne_zero_left (a b : Nat) (h : a &&& b ≠ 0) : a ≠ 0 := by
  rintro rfl
  simp at h

/-- A non-zero result of the search is reported by the next filter with one of the two
capability bits, so the re-check of `query_format` (line 407) cannot fail. -/
theorem find_best_out_recheck (env : FormatEnv) (in_format : Int)
    (hbest : find_best_out env in_format ≠ 0) :
    env.vf_next_query_format (find_best_out env in_format) &&&
      (env.VFCAP_CSP_SUPPORTED ||| env.VFCAP_CSP_SUPPORTED_BY_HW) ≠ 0 := by
  rcases find_best_out_sound env in_format with h0 | hhw | hs
  · exact absurd h0 hbest
  · have hnext := (check_outfmt_eq_next env _ (land_ne_zero_left _ _ hhw)).1
    exact land_lor_ne_zero _ _ _ (Or.inr (hnext ▸ hhw))
  · have hnext := (check_outfmt_eq_next env _ (land_ne_zero_left _ _ hs)).1
    exact land_lor_ne_zero _ _ _ (Or.inl (hnext ▸ hs))

theorem query_format_hw_cleared (env : FormatEnv) (fmt : Int)
    (hmask : env.VFCAP_CSP_SUPPORTED_BY_HW < 2 ^ 32) (hne : find_best_out env fmt ≠ fmt) :
    query_format env fmt &&& env.VFCAP_CSP_SUPPORTED_BY_HW = 0 := by
  simp only [query_format]
  split_ifs with h1 h2 h3 h4 h5
  · simp
  · simp
  · simp
  · exact land_bit_not32_land _ _ hmask
  · exact absurd (not_not.mp h5).symm hne
  · simp

theorem query_format_of_converted (env : FormatEnv) (fmt : Int)
    (hgate : ¬ env.IMGFMT_IS_HWACCEL fmt ∧ env.imgfmt2pixfmt fmt ≠ env.PIX_FMT_NONE)
    (hin : ¬ env.sws_isSupportedInput (env.imgfmt2pixfmt fmt) < 1)
    (hbest : find_best_out env fmt ≠ 0) (hne : find_best_out env fmt ≠ fmt) :
    query_format env fmt =
      env.vf_next_query_format (find_best_out env fmt) &&&
        bit_not32 env.VFCAP_CSP_SUPPORTED_BY_HW := by
  have hre := find_best_out_recheck env fmt hbest
  have hne2 : fmt ≠ find_best_out env fmt := fun h => hne h.symm
  simp only [query_format]
  rw [if_pos hgate, if_neg hin, if_neg hbest, if_neg hre, if_pos hne2]

theorem query_format_of_passthrough (env : FormatEnv) (fmt : Int)
    (hgate : ¬ env.IMGFMT_IS_HWACCEL fmt = true ∧ env.imgfmt2pixfmt fmt ≠ env.PIX_FMT_NONE)
    (hin : ¬ env.sws_isSupportedInput (env.imgfmt2pixfmt fmt) < 1)
    (hfmt : fmt ≠ 0) (hbest : find_best_out env fmt = fmt) :
    query_format env fmt = env.vf_next_query_format fmt := by
  have hre := find_best_out_recheck env fmt (by rw [hbest]; exact hfmt)
  rw [hbest] at hre
  have hsame : ¬ (fmt ≠ fmt) := by simp
  simp only [query_format, hbest]
  rw [if_pos hgate, if_neg hin, if_neg hfmt, if_neg hre, if_neg hsame]

/-! ## Claims on the format negotiation -/

/-- C1, as stated, fails: in the sample environment every format is taken without conversion,
the search for input format 1 returns 1 (the input format itself, probed first), while the
stated rule on conversion targets followed by the format table gives 2. -/
theorem C1_stated_candidates_refuted :
    find_best_out sample_env 1 = 1 ∧ findBestOutputFormat_stated sample_env 1 = 2 ∧
      find_best_out sample_env 1 ≠ findBestOutputFormat_stated sample_env 1 := by
  decide

/-- C1, amended: for well-formed tables and a non-zero input format, `find_best_out` returns
the first format reporting the "without conversion" bit in the sequence made of the input
format itself, then the conversion-table targets whose source is the input format, then the
format-table entries; otherwise the first format of that sequence reporting "supported";
otherwise the same two-tier rule applied to the whole identifier range; otherwise `0`. -/
theorem C1_find_best_out_input_first (env : FormatEnv) (in_format : Int)
    (hwf : tables_wf env) (hin : in_format ≠ 0) :
    find_best_out env in_format = findBestOutputFormat_input_first env in_format :=
  find_best_out_eq_best_of env in_format hwf hin

/-- Instance of C1 (amended) in the sample environment whose next filter takes only format 2
without conversion. -/
theorem C1_find_best_out_input_first_witness :
    tables_wf sample_env_conv ∧ (1 : Int) ≠ 0 ∧
      find_best_out sample_env_conv 1 = findBestOutputFormat_input_first sample_env_conv 1 :=
  ⟨by decide, by decide, C1_find_best_out_input_first sample_env_conv 1 (by decide) (by decide)⟩

/-- C2: when the format chosen by `find_best_out` differs from the queried one, the word
returned by `query_format` has the "without conversion" bit clear; and when a format was
chosen (the queried one passed the input tests and the search did not return none), the word
returned is the next filter's word for the chosen format with that bit cleared: every one of
its 32 bits is the bit of the next filter's word, except the bits of the mask, which are 0. -/
theorem C2_query_format_clears_hw (env : FormatEnv) (fmt : Int)
    (hmask : env.VFCAP_CSP_SUPPORTED_BY_HW < 2 ^ 32) (hne : find_best_out env fmt ≠ fmt) :
    query_format env fmt &&& env.VFCAP_CSP_SUPPORTED_BY_HW = 0 ∧
    (env.IMGFMT_IS_HWACCEL fmt = false → env.imgfmt2pixfmt fmt ≠ env.PIX_FMT_NONE →
      1 ≤ env.sws_isSupportedInput (env.imgfmt2pixfmt fmt) → find_best_out env fmt ≠ 0 →
      query_format env fmt =
          env.vf_next_query_format (find_best_out env fmt) &&&
            bit_not32 env.VFCAP_CSP_SUPPORTED_BY_HW ∧
        ∀ i, i < 32 → (query_format env fmt).testBit i =
          ((env.vf_next_query_format (find_best_out env fmt)).testBit i &&
            !env.VFCAP_CSP_SUPPORTED_BY_HW.testBit i)) := by
  refine ⟨query_format_hw_cleared env fmt hmask hne, ?_⟩
  intro hhw hpix hin hbest
  have hq := query_format_of_converted env fmt ⟨by simp [hhw], hpix⟩ (by omega) hbest hne
  refine ⟨hq, ?_⟩
  intro i hi
  rw [hq]
  exact testBit_land_bit_not32 _ _ i hi

/-- Instance of C2: in the sample environment whose next filter takes only format 2 without
conversion, format 1 is converted to format 2 and is reported with the bit clear. -/
theorem C2_query_format_clears_hw_witness :
    sample_env_conv.VFCAP_CSP_SUPPORTED_BY_HW < 2 ^ 32 ∧ find_best_out sample_env_conv 1 ≠ 1 ∧
      query_format sample_env_conv 1 &&& sample_env_conv.VFCAP_CSP_SUPPORTED_BY_HW = 0 :=
  ⟨by decide, by decide, (C2_query_format_clears_hw sample_env_conv 1 (by decide) (by decide)).1⟩

theorem query_format_hw_iff_of_ne_zero (env : FormatEnv) (fmt : Int)
    (hmask : env.VFCAP_CSP_SUPPORTED_BY_HW < 2 ^ 32) (hfmt : fmt ≠ 0) :
    query_format env fmt &&& env.VFCAP_CSP_SUPPORTED_BY_HW ≠ 0 ↔
      (env.IMGFMT_IS_HWACCEL fmt = false ∧ env.imgfmt2pixfmt fmt ≠ env.PIX_FMT_NONE ∧
        1 ≤ env.sws_isSupportedInput (env.imgfmt2pixfmt fmt) ∧
        1 ≤ env.sws_isSupportedOutput (env.imgfmt2pixfmt fmt) ∧
        env.vf_next_query_format fmt &&& env.VFCAP_CSP_SUPPORTED_BY_HW ≠ 0) := by
  constructor
  · intro hq
    have hbest_eq : find_best_out env fmt = fmt := by
      by_contra hne
      exact hq (query_format_hw_cleared env fmt hmask hne)
    have hbest : find_best_out env fmt ≠ 0 := by rw [hbest_eq]; exact hfmt
    have hacc := find_best_out_sound env fmt
    rw [hbest_eq] at hacc
    have hcheck : check_outfmt env fmt ≠ 0 := by
      rcases hacc with h0 | h1 | h2
      · exact absurd h0 hfmt
      · exact land_ne_zero_left _ _ h1
      · exact land_ne_zero_left _ _ h2
    obtain ⟨-, hpix, hout⟩ := check_outfmt_eq_next env fmt hcheck
    have hgate : ¬ env.IMGFMT_IS_HWACCEL fmt = true ∧
        env.imgfmt2pixfmt fmt ≠ env.PIX_FMT_NONE := by
      by_contra h
      apply hq
      simp only [query_format]
      rw [if_neg h]
      simp
    have hin : ¬ env.sws_isSupportedInput (env.imgfmt2pixfmt fmt) < 1 := by
      intro h
      apply hq
      simp only [query_format]
      rw [if_pos hgate, if_pos h]
      simp
    rw [query_format_of_passthrough env fmt hgate hin hfmt hbest_eq] at hq
    exact ⟨by simpa using hgate.1, hpix, by omega, by omega, hq⟩
  · rintro ⟨hhw, hpix, hin, hout, hnext⟩
    have hcheck : check_outfmt env fmt = env.vf_next_query_format fmt := by
      have hc : ¬ (env.imgfmt2pixfmt fmt = env.PIX_FMT_NONE ∨
          env.sws_isSupportedOutput (env.imgfmt2pixfmt fmt) < 1) := by
        rintro (h | h)
        · exact hpix h
        · omega
      simp only [check_outfmt, hc, if_false]
    have hloop : find_best_out_loop env fmt = fmt := by
      simp only [find_best_out_loop]
      rw [if_neg hfmt, hcheck, if_pos hnext]
    have hbest_eq : find_best_out env fmt = fmt := by
      rw [find_best_out_unfold, hloop, if_neg hfmt]
    rw [query_format_of_passthrough env fmt ⟨by simp [hhw], hpix⟩ (by omega) hfmt hbest_eq]
    exact hnext

/-- C3: `query_format` reports the "without conversion" bit for a format exactly when the
format is not a hardware-decoding format, is known to libswscale, is readable and writable by
libswscale, and the next filter itself reports the bit for that same format.  The format is
non-zero, or else zero (no format) is unknown to libswscale. -/
theorem C3_query_format_hw_iff (env : FormatEnv) (fmt : Int)
    (hmask : env.VFCAP_CSP_SUPPORTED_BY_HW < 2 ^ 32)
    (hfmt : fmt ≠ 0 ∨ env.imgfmt2pixfmt 0 = env.PIX_FMT_NONE) :
    query_format env fmt &&& env.VFCAP_CSP_SUPPORTED_BY_HW ≠ 0 ↔
      (env.IMGFMT_IS_HWACCEL fmt = false ∧ env.imgfmt2pixfmt fmt ≠ env.PIX_FMT_NONE ∧
        1 ≤ env.sws_isSupportedInput (env.imgfmt2pixfmt fmt) ∧
        1 ≤ env.sws_isSupportedOutput (env.imgfmt2pixfmt fmt) ∧
        env.vf_next_query_format fmt &&& env.VFCAP_CSP_SUPPORTED_BY_HW ≠ 0) := by
  by_cases h0 : fmt = 0
  · have hnone : env.imgfmt2pixfmt fmt = env.PIX_FMT_NONE := by
      rcases hfmt with h | h
      · exact absurd h0 h
      · rw [h0]; exact h
    constructor
    · intro hq
      exfalso
      apply hq
      simp only [query_format]
      rw [if_neg (fun hg => hg.2 hnone)]
      simp
    · rintro ⟨-, hpix, -⟩
      exact absurd hnone hpix
  · exact query_format_hw_iff_of_ne_zero env fmt hmask h0

/-- Instance of C3: in the sample environment format 5 passes straight through. -/
theorem C3_query_format_hw_iff_witness :
    sample_env.VFCAP_CSP_SUPPORTED_BY_HW < 2 ^ 32 ∧
      ((5 : Int) ≠ 0 ∨ sample_env.imgfmt2pixfmt 0 = sample_env.PIX_FMT_NONE) ∧
      (query_format sample_env 5 &&& sample_env.VFCAP_CSP_SUPPORTED_BY_HW ≠ 0 ↔
        (sample_env.IMGFMT_IS_HWACCEL 5 = false ∧
          sample_env.imgfmt2pixfmt 5 ≠ sample_env.PIX_FMT_NONE ∧
          1 ≤ sample_env.sws_isSupportedInput (sample_env.imgfmt2pixfmt 5) ∧
          1 ≤ sample_env.sws_isSupportedOutput (sample_env.imgfmt2pixfmt 5) ∧
          sample_env.vf_next_query_format 5 &&& sample_env.VFCAP_CSP_SUPPORTED_BY_HW ≠ 0)) :=
  ⟨by decide, by decide, C3_query_format_hw_iff sample_env 5 (by decide) (by decide)⟩

/-- C4, as stated, fails: in the sample environment the only conversion row from format 4
has target 1, which the next filter takes without conversion, yet the search for input
format 4 returns 4, the input format itself, because it is probed before the table. -/
theorem C4_conversion_hit_refuted :
    (conv_targets sample_env 4).find? (reports_hw sample_env) = some 1 ∧
      find_best_out sample_env 4 = 4 ∧ find_best_out sample_env 4 ≠ 1 := by
  decide

/-- C4, amended: for well-formed tables and a non-zero input format that does not itself
report the "without conversion" bit, if some conversion-table row whose source is the input
format has a target reporting that bit, `find_best_out` returns the first such target in
table order, whatever the format-table entries are and report. -/
theorem C4_conversion_hit_wins (env : FormatEnv) (in_format target : Int)
    (hwf : tables_wf env) (hin : in_format ≠ 0)
    (hself : reports_hw env in_format = false)
    (hhit : (conv_targets env in_format).find? (reports_hw env) = some target) :
    find_best_out env in_format = target := by
  rw [find_best_out_eq_best_of env in_format hwf hin]
  simp [findBestOutputFormat_input_first, best_of, two_tier, List.find?_cons, hself,
    List.find?_append, hhit]

/-- Instance of C4 (amended): input format 1 is taken with conversion only, its first
conversion target 2 without conversion, and the search returns 2. -/
theorem C4_conversion_hit_wins_witness :
    tables_wf sample_env_conv ∧ (1 : Int) ≠ 0 ∧ reports_hw sample_env_conv 1 = false ∧
      (conv_targets sample_env_conv 1).find? (reports_hw sample_env_conv) = some 2 ∧
      find_best_out sample_env_conv 1 = 2 :=
  ⟨by decide, by decide, by decide, by decide,
    C4_conversion_hit_wins sample_env_conv 1 2 (by decide) (by decide) (by decide) (by decide)⟩

/-! ## Lemmas on the arithmetic of `int` -/

/-- An operation whose exact result is representable leaves that result. -/
theorem wrap32_of_fits (x : Int) (h : fits_int x) : wrap32 x = x := by
  unfold fits_int at h
  unfold wrap32
  omega

theorem fits_int_wrap32 (x : Int) : fits_int (wrap32 x) := by
  unfold fits_int wrap32
  omega

theorem tdiv_16_mul_16_of_nonneg (x : Int) (h : 0 ≤ x) :
    0 ≤ x.tdiv 16 * 16 ∧ x.tdiv 16 * 16 ≤ x := by
  rw [Int.tdiv_eq_ediv h (by omega)]
  omega

theorem tdiv_16_mul_16_of_neg (x : Int) (h : x < 0) :
    x ≤ x.tdiv 16 * 16 ∧ x.tdiv 16 * 16 ≤ 0 := by
  have hneg : x = -(-x) := by ring
  rw [hneg, Int.neg_tdiv, Int.tdiv_eq_ediv (by omega) (by omega)]
  omega

/-- Rounding a representable value down to a multiple of 16 cannot overflow. -/
theorem fits_int_tdiv_16_mul_16 (x : Int) (h : fits_int x) : fits_int (x.tdiv 16 * 16) := by
  unfold fits_int at h ⊢
  rcases le_or_lt 0 x with hx | hx
  · have := tdiv_16_mul_16_of_nonneg x hx
    omega
  · have := tdiv_16_mul_16_of_neg x hx
    omega

/-! ## Lemmas on `reconfig` -/

theorem reconfig_csp_geometry (env : ReconfigEnv) (fmt : Int) (p : mp_image_params) :
    (reconfig_csp env fmt p).w = p.w ∧ (reconfig_csp env fmt p).h = p.h ∧
      (reconfig_csp env fmt p).d_w = p.d_w ∧ (reconfig_csp env fmt p).d_h = p.d_h ∧
      (reconfig_csp env fmt p).imgfmt = p.imgfmt := by
  simp only [reconfig_csp]
  split_ifs <;> simp

/-- What `reconfig` leaves behind when the search found a format and the test of lines
248-249 passes. -/
theorem reconfig_accepted (env : ReconfigEnv) (priv : vf_priv_s) (sws : mp_sws_context)
    (p : mp_image_params) (flags : Int)
    (hbest : find_best_out env.toFormatEnv p.imgfmt ≠ 0)
    (hok : ¬ reconfig_nonsense (reconfig_decode priv.cfg_w).1 (reconfig_decode priv.cfg_h).1) :
    (reconfig env priv sws p flags).outcome ≠ .no_outfmt ∧
      (reconfig env priv sws p flags).outcome ≠ .bad_params ∧
      (reconfig env priv sws p flags).p.w =
        (reconfig_size (reconfig_decode priv.cfg_w).1 (reconfig_decode priv.cfg_h).1
          (reconfig_decode priv.cfg_w).2 (reconfig_decode priv.cfg_h).2
          priv.noup p.w p.h p.d_w p.d_h).1 ∧
      (reconfig env priv sws p flags).p.h =
        (reconfig_size (reconfig_decode priv.cfg_w).1 (reconfig_decode priv.cfg_h).1
          (reconfig_decode priv.cfg_w).2 (reconfig_decode priv.cfg_h).2
          priv.noup p.w p.h p.d_w p.d_h).2 ∧
      (reconfig env priv sws p flags).p.d_w =
        (reconfig_display (reconfig env priv sws p flags).p.w (reconfig env priv sws p flags).p.h
          p.d_w p.d_h).1 ∧
      (reconfig env priv sws p flags).p.d_h =
        (reconfig_display (reconfig env priv sws p flags).p.w (reconfig env priv sws p flags).p.h
          p.d_w p.d_h).2 := by
  simp only [reconfig]
  rw [if_neg hbest, if_neg hok]
  split_ifs <;> simp [reconfig_csp_geometry]

theorem reconfig_rejected (env : ReconfigEnv) (priv : vf_priv_s) (sws : mp_sws_context)
    (p : mp_image_params) (flags : Int)
    (hbest : find_best_out env.toFormatEnv p.imgfmt ≠ 0)
    (hbad : reconfig_nonsense (reconfig_decode priv.cfg_w).1 (reconfig_decode priv.cfg_h).1) :
    (reconfig env priv sws p flags).outcome = .bad_params := by
  simp only [reconfig]
  rw [if_neg hbest, if_pos hbad]

theorem reconfig_decode_fst (cfg : Int) :
    (reconfig_decode cfg).1 = if cfg ≤ -8 then cfg + 8 else cfg := by
  unfold reconfig_decode
  split_ifs <;> rfl

theorem reconfig_decode_snd (cfg : Int) : (reconfig_decode cfg).2 = decide (cfg ≤ -8) := by
  unfold reconfig_decode
  split_ifs with h <;> simp [h]

theorem reconfig_decode_of_gt (cfg : Int) (h : -8 < cfg) : reconfig_decode cfg = (cfg, false) := by
  unfold reconfig_decode
  rw [if_neg (by omega)]

theorem reconfig_decode_of_le (cfg : Int) (h : cfg ≤ -8) :
    reconfig_decode cfg = (cfg + 8, true) := by
  unfold reconfig_decode
  rw [if_pos h]

/-- Width from the height in the decoded aspect: `w = -3` and a literal height. -/
theorem reconfig_size_w_rel (h width height d_width d_height : Int)
    (hh : 1 ≤ h) (hW : 0 < width) (hH : 0 < height) (hf : fits_int (h * width)) :
    reconfig_size (-3) h false false 0 width height d_width d_height =
      ((h * width).tdiv height, h) := by
  have hq : 0 ≤ (h * width).tdiv height :=
    Int.tdiv_nonneg (Int.mul_nonneg (by omega) (by omega)) (by omega)
  have h1 : ¬ h = -1 := by omega
  have h2 : ¬ h = 0 := by omega
  have h3 : ¬ h = -3 := by omega
  have h4 : ¬ h = -2 := by omega
  have h5 : ¬ (h * width).tdiv height = -2 := by omega
  simp [reconfig_size, reconfig_resolve, reconfig_round, reconfig_noup, wrap32_of_fits _ hf,
    h1, h2, h3, h4, h5]

/-- Height from the width in the decoded aspect: `h = -3` and a literal width. -/
theorem reconfig_size_h_rel (w width height d_width d_height : Int)
    (hw : 1 ≤ w) (hW : 0 < width) (hH : 0 < height) (hf : fits_int (w * height)) :
    reconfig_size w (-3) false false 0 width height d_width d_height =
      (w, (w * height).tdiv width) := by
  have hq : 0 ≤ (w * height).tdiv width :=
    Int.tdiv_nonneg (Int.mul_nonneg (by omega) (by omega)) (by omega)
  have h1 : ¬ w = -1 := by omega
  have h2 : ¬ w = 0 := by omega
  have h3 : ¬ w = -3 := by omega
  have h4 : ¬ w = -2 := by omega
  have h5 : ¬ (w * height).tdiv width = -2 := by omega
  simp [reconfig_size, reconfig_resolve, reconfig_round, reconfig_noup, wrap32_of_fits _ hf,
    h1, h2, h3, h4, h5]

/-- Both axes `-1`: the size of the source, whatever `noup` in 0..2. -/
theorem reconfig_size_unchanged (noup width height d_width d_height : Int)
    (hW : 0 < width) (hH : 0 < height) :
    reconfig_size (-1) (-1) false false noup width height d_width d_height = (width, height) := by
  have h2 : ¬ width = 0 := by omega
  have h3 : ¬ width = -3 := by omega
  have h4 : ¬ width = -2 := by omega
  have h5 : ¬ height = 0 := by omega
  have h6 : ¬ height = -3 := by omega
  have h7 : ¬ height = -2 := by omega
  simp [reconfig_size, reconfig_resolve, reconfig_round, reconfig_noup, h2, h3, h4, h5, h6, h7]

theorem reconfig_resolve_eq_axes (w h width height d_width d_height : Int) :
    reconfig_resolve w h width height d_width d_height =
      (reconfig_axis_rel (reconfig_axis_base w width d_width)
          (reconfig_axis_base h height d_height) width height d_width d_height,
        reconfig_axis_rel (reconfig_axis_base h height d_height)
          (reconfig_axis_rel (reconfig_axis_base w width d_width)
            (reconfig_axis_base h height d_height) width height d_width d_height)
          height width d_height d_width) := rfl

theorem reconfig_axis_base_pos (v src disp : Int) (hv : -1 ≤ v) (hsrc : 0 < src)
    (hdisp : 0 < disp) : 0 < reconfig_axis_base v src disp := by
  simp only [reconfig_axis_base]
  split_ifs <;> omega

theorem reconfig_axis_base_rel (v src disp : Int) (hv : v = -3 ∨ v = -2) :
    reconfig_axis_base v src disp = v := by
  simp only [reconfig_axis_base]
  split_ifs <;> omega

theorem reconfig_axis_rel_of_pos (v other a b c d : Int) (hv : 0 < v) :
    reconfig_axis_rel v other a b c d = v := by
  simp only [reconfig_axis_rel]
  split_ifs <;> omega

/-- A relative axis whose product does not overflow is the exact quotient, and the quotient
is not taken for a special code by the test that follows. -/
theorem reconfig_axis_rel_of_fits (v other a b c d : Int) (hv : v = -3 ∨ v = -2)
    (hother : 0 ≤ other) (ha : 0 < a) (hb : 0 < b) (_hc : 0 < c) (_hd : 0 < d)
    (h3 : v = -3 → fits_int (other * a)) (h2 : v = -2 → fits_int (other * c)) :
    reconfig_axis_rel v other a b c d =
      if v = -3 then (other * a).tdiv b else (other * c).tdiv d := by
  have q1 : 0 ≤ (other * a).tdiv b :=
    Int.tdiv_nonneg (Int.mul_nonneg hother (by omega)) (by omega)
  simp only [reconfig_axis_rel]
  rcases hv with hv | hv
  · rw [if_pos hv, if_pos hv, wrap32_of_fits _ (h3 hv), if_neg (by omega)]
  · have hv3 : ¬ v = -3 := by omega
    rw [if_neg hv3, if_neg hv3, if_pos hv, wrap32_of_fits _ (h2 hv)]

theorem reconfig_axis_rel_nonneg (v other a b c d : Int) (hv : v = -3 ∨ v = -2)
    (hother : 0 ≤ other) (ha : 0 < a) (hb : 0 < b) (hc : 0 < c) (hd : 0 < d)
    (h3 : v = -3 → fits_int (other * a)) (h2 : v = -2 → fits_int (other * c)) :
    0 ≤ reconfig_axis_rel v other a b c d := by
  have q1 : 0 ≤ (other * a).tdiv b :=
    Int.tdiv_nonneg (Int.mul_nonneg hother (by omega)) (by omega)
  have q2 : 0 ≤ (other * c).tdiv d :=
    Int.tdiv_nonneg (Int.mul_nonneg hother (by omega)) (by omega)
  rw [reconfig_axis_rel_of_fits v other a b c d hv hother ha hb hc hd h3 h2]
  split_ifs <;> omega

/-- After an accepted configuration both resolved values are non-negative when the source
has positive decoded and display dimensions and no product overflows. -/
theorem reconfig_resolve_nonneg (w h width height d_width d_height : Int)
    (hok : ¬ reconfig_nonsense w h) (hW : 0 < width) (hH : 0 < height)
    (hDW : 0 < d_width) (hDH : 0 < d_height)
    (hf : reconfig_resolve_fits w h width height d_width d_height) :
    0 ≤ (reconfig_resolve w h width height d_width d_height).1 ∧
      0 ≤ (reconfig_resolve w h width height d_width d_height).2 := by
  have hb : -3 ≤ w ∧ -3 ≤ h ∧ (-1 ≤ w ∨ -1 ≤ h) := by
    unfold reconfig_nonsense at hok
    omega
  rw [reconfig_resolve_eq_axes]
  by_cases hw : -1 ≤ w
  · have hw2 := reconfig_axis_base_pos w width d_width hw hW hDW
    rw [reconfig_axis_rel_of_pos _ _ _ _ _ _ hw2]
    by_cases hh : -1 ≤ h
    · have hh2 := reconfig_axis_base_pos h height d_height hh hH hDH
      rw [reconfig_axis_rel_of_pos _ _ _ _ _ _ hh2]
      exact ⟨by omega, by omega⟩
    · have hh2 : h = -3 ∨ h = -2 := by omega
      rw [reconfig_axis_base_rel h height d_height hh2]
      exact ⟨by omega, reconfig_axis_rel_nonneg _ _ _ _ _ _ hh2 (by omega) hH hW hDH hDW
        hf.2.2.1 hf.2.2.2⟩
  · have hw2 : w = -3 ∨ w = -2 := by omega
    have hh : -1 ≤ h := by omega
    have hh2 := reconfig_axis_base_pos h height d_height hh hH hDH
    rw [reconfig_axis_base_rel w width d_width hw2]
    have hw4 := reconfig_axis_rel_nonneg w (reconfig_axis_base h height d_height)
      width height d_width d_height hw2 (by omega) hW hH hDW hDH hf.1 hf.2.1
    refine ⟨hw4, ?_⟩
    rw [reconfig_axis_rel_of_pos _ _ _ _ _ _ hh2]
    omega

/-- A flagged axis whose sum `v + 8` does not overflow is rounded exactly. -/
theorem reconfig_round_of_fits (v : Int) (hf : fits_int (v + 8)) :
    reconfig_round true v = (v + 8).tdiv 16 * 16 := by
  simp only [reconfig_round, if_true]
  rw [wrap32_of_fits _ hf, wrap32_of_fits _ (fits_int_tdiv_16_mul_16 _ hf)]

theorem reconfig_round_false (v : Int) : reconfig_round false v = v := by
  simp [reconfig_round]

theorem reconfig_round_nonneg (round : Bool) (v : Int) (hv : 0 ≤ v)
    (hf : reconfig_round_fits round v) : 0 ≤ reconfig_round round v := by
  cases round with
  | false => rw [reconfig_round_false]; exact hv
  | true =>
    rw [reconfig_round_of_fits v (hf rfl)]
    exact (tdiv_16_mul_16_of_nonneg (v + 8) (by omega)).1

theorem reconfig_noup_nonneg (noup w h width height : Int) (hw : 0 ≤ w) (hh : 0 ≤ h)
    (hW : 0 < width) (hH : 0 < height) :
    0 ≤ (reconfig_noup noup w h width height).1 ∧
      0 ≤ (reconfig_noup noup w h width height).2 := by
  unfold reconfig_noup
  split_ifs <;> exact ⟨by simp only []; omega, by simp only []; omega⟩

/-- The display size when neither product of line 298 overflows. -/
theorem reconfig_display_of_fits (w h d_width d_height : Int)
    (hf : reconfig_display_fits w h d_width d_height) :
    reconfig_display w h d_width d_height =
      if h * d_width > w * d_height then ((h * d_width).tdiv d_height, h)
      else (w, (w * d_height).tdiv d_width) := by
  unfold reconfig_display
  rw [wrap32_of_fits _ hf.1, wrap32_of_fits _ hf.2]

theorem reconfig_display_nonneg (w h d_width d_height : Int) (hw : 0 ≤ w) (hh : 0 ≤ h)
    (hDW : 0 < d_width) (hDH : 0 < d_height)
    (hf : reconfig_display_fits w h d_width d_height) :
    0 ≤ (reconfig_display w h d_width d_height).1 ∧
      0 ≤ (reconfig_display w h d_width d_height).2 := by
  have q1 : 0 ≤ (h * d_width).tdiv d_height :=
    Int.tdiv_nonneg (Int.mul_nonneg hh (by omega)) (by omega)
  have q2 : 0 ≤ (w * d_height).tdiv d_width :=
    Int.tdiv_nonneg (Int.mul_nonneg hw (by omega)) (by omega)
  rw [reconfig_display_of_fits w h d_width d_height hf]
  split_ifs <;> exact ⟨by simp only []; omega, by simp only []; omega⟩

theorem reconfig_size_eq_noup (priv : vf_priv_s) (p : mp_image_params) :
    reconfig_size (reconfig_decode priv.cfg_w).1 (reconfig_decode priv.cfg_h).1
        (reconfig_decode priv.cfg_w).2 (reconfig_decode priv.cfg_h).2
        priv.noup p.w p.h p.d_w p.d_h =
      reconfig_noup priv.noup (reconfig_aligned priv p).1 (reconfig_aligned priv p).2 p.w p.h :=
  rfl

theorem reconfig_no_outfmt (env : ReconfigEnv) (priv : vf_priv_s) (sws : mp_sws_context)
    (p : mp_image_params) (flags : Int)
    (hbest : find_best_out env.toFormatEnv p.imgfmt = 0) :
    (reconfig env priv sws p flags).outcome = .no_outfmt := by
  simp only [reconfig]
  rw [if_pos hbest]

/-- The new display size is at least the output size on both axes. -/
theorem reconfig_display_ge (w h d_width d_height : Int) (hw : 0 ≤ w) (hh : 0 ≤ h)
    (hDW : 0 < d_width) (hDH : 0 < d_height)
    (hf : reconfig_display_fits w h d_width d_height) :
    w ≤ (reconfig_display w h d_width d_height).1 ∧
      h ≤ (reconfig_display w h d_width d_height).2 := by
  rw [reconfig_display_of_fits w h d_width d_height hf]
  split_ifs with hc
  · refine ⟨?_, le_refl h⟩
    show w ≤ (h * d_width).tdiv d_height
    rw [Int.tdiv_eq_ediv (Int.mul_nonneg hh (by omega)) (by omega)]
    exact (Int.le_ediv_iff_mul_le hDH).mpr (by omega)
  · refine ⟨le_refl w, ?_⟩
    show h ≤ (w * d_height).tdiv d_width
    rw [Int.tdiv_eq_ediv (Int.mul_nonneg hw (by omega)) (by omega)]
    exact (Int.le_ediv_iff_mul_le hDW).mpr (by omega)

/-- An axis that is neither relative nor rounded ends strictly positive. -/
theorem reconfig_aligned_pos (priv : vf_priv_s) (p : mp_image_params)
    (hW : 0 < p.w) (hH : 0 < p.h) (hDW : 0 < p.d_w) (hDH : 0 < p.d_h) :
    (-1 ≤ priv.cfg_w → 0 < (reconfig_aligned priv p).1) ∧
      (-1 ≤ priv.cfg_h → 0 < (reconfig_aligned priv p).2) := by
  simp only [reconfig_aligned, reconfig_resolve_eq_axes]
  constructor
  · intro hc
    rw [reconfig_decode_of_gt priv.cfg_w (by omega)]
    have hb := reconfig_axis_base_pos priv.cfg_w p.w p.d_w hc hW hDW
    rw [reconfig_axis_rel_of_pos _ _ _ _ _ _ hb]
    simpa [reconfig_round] using hb
  · intro hc
    rw [reconfig_decode_of_gt priv.cfg_h (by omega)]
    have hb := reconfig_axis_base_pos priv.cfg_h p.h p.d_h hc hH hDH
    rw [reconfig_axis_rel_of_pos _ _ _ _ _ _ hb]
    simpa [reconfig_round] using hb

theorem reconfig_aligned_nonneg (priv : vf_priv_s) (p : mp_image_params)
    (hok : ¬ reconfig_nonsense (reconfig_decode priv.cfg_w).1 (reconfig_decode priv.cfg_h).1)
    (hW : 0 < p.w) (hH : 0 < p.h) (hDW : 0 < p.d_w) (hDH : 0 < p.d_h)
    (hf : reconfig_size_fits priv p) :
    0 ≤ (reconfig_aligned priv p).1 ∧ 0 ≤ (reconfig_aligned priv p).2 := by
  obtain ⟨h1, h2⟩ := reconfig_resolve_nonneg _ _ _ _ _ _ hok hW hH hDW hDH hf.1
  exact ⟨reconfig_round_nonneg _ _ h1 hf.2.1, reconfig_round_nonneg _ _ h2 hf.2.2⟩

theorem reconfig_noup_pos (noup w h width height : Int) (hW : 0 < width) (hH : 0 < height) :
    (0 < w → 0 < (reconfig_noup noup w h width height).1) ∧
      (0 < h → 0 < (reconfig_noup noup w h width height).2) := by
  unfold reconfig_noup
  split_ifs <;> exact ⟨fun _ => by simp only []; omega, fun _ => by simp only []; omega⟩

/-! ## Claims on the geometry -/

/-- C5: when an output format exists, `reconfig` leaves through the "parameters make no
sense" exit exactly when, after 8 has been added back to each configured value that is -8 or
less, one of the two values is below -3 or both are below -1.  For configured values from -11
upward this means: one of them lies in -7..-4, or both are among -2, -3, -10, -11; so the pair
(-11, -11) is rejected.  Every other pair goes on to the numeric resolution, whose result is
the output size. -/
theorem C5_rejected_iff (env : ReconfigEnv) (priv : vf_priv_s) (sws : mp_sws_context)
    (p : mp_image_params) (flags : Int)
    (hbest : find_best_out env.toFormatEnv p.imgfmt ≠ 0)
    (hw : -11 ≤ priv.cfg_w) (hh : -11 ≤ priv.cfg_h) :
    ((reconfig env priv sws p flags).outcome = .bad_params ↔
      ((if priv.cfg_w ≤ -8 then priv.cfg_w + 8 else priv.cfg_w) < -3 ∨
        (if priv.cfg_h ≤ -8 then priv.cfg_h + 8 else priv.cfg_h) < -3 ∨
        ((if priv.cfg_w ≤ -8 then priv.cfg_w + 8 else priv.cfg_w) < -1 ∧
          (if priv.cfg_h ≤ -8 then priv.cfg_h + 8 else priv.cfg_h) < -1))) ∧
    ((reconfig env priv sws p flags).outcome = .bad_params ↔
      ((-7 ≤ priv.cfg_w ∧ priv.cfg_w ≤ -4) ∨ (-7 ≤ priv.cfg_h ∧ priv.cfg_h ≤ -4) ∨
        ((priv.cfg_w = -2 ∨ priv.cfg_w = -3 ∨ priv.cfg_w = -10 ∨ priv.cfg_w = -11) ∧
          (priv.cfg_h = -2 ∨ priv.cfg_h = -3 ∨ priv.cfg_h = -10 ∨ priv.cfg_h = -11)))) ∧
    (priv.cfg_w = -11 → priv.cfg_h = -11 →
      (reconfig env priv sws p flags).outcome = .bad_params) ∧
    ((reconfig env priv sws p flags).outcome ≠ .bad_params →
      (reconfig env priv sws p flags).outcome ≠ .no_outfmt ∧
      ((reconfig env priv sws p flags).p.w, (reconfig env priv sws p flags).p.h) =
        reconfig_size (reconfig_decode priv.cfg_w).1 (reconfig_decode priv.cfg_h).1
          (reconfig_decode priv.cfg_w).2 (reconfig_decode priv.cfg_h).2
          priv.noup p.w p.h p.d_w p.d_h) := by
  have hiff : (reconfig env priv sws p flags).outcome = .bad_params ↔
      reconfig_nonsense (reconfig_decode priv.cfg_w).1 (reconfig_decode priv.cfg_h).1 := by
    constructor
    · intro hout
      by_contra hok
      exact (reconfig_accepted env priv sws p flags hbest hok).2.1 hout
    · exact reconfig_rejected env priv sws p flags hbest
  have hshape : reconfig_nonsense (reconfig_decode priv.cfg_w).1 (reconfig_decode priv.cfg_h).1 ↔
      ((if priv.cfg_w ≤ -8 then priv.cfg_w + 8 else priv.cfg_w) < -3 ∨
        (if priv.cfg_h ≤ -8 then priv.cfg_h + 8 else priv.cfg_h) < -3 ∨
        ((if priv.cfg_w ≤ -8 then priv.cfg_w + 8 else priv.cfg_w) < -1 ∧
          (if priv.cfg_h ≤ -8 then priv.cfg_h + 8 else priv.cfg_h) < -1)) := by
    rw [reconfig_nonsense, reconfig_decode_fst, reconfig_decode_fst]
  have hrange : reconfig_nonsense (reconfig_decode priv.cfg_w).1 (reconfig_decode priv.cfg_h).1 ↔
      ((-7 ≤ priv.cfg_w ∧ priv.cfg_w ≤ -4) ∨ (-7 ≤ priv.cfg_h ∧ priv.cfg_h ≤ -4) ∨
        ((priv.cfg_w = -2 ∨ priv.cfg_w = -3 ∨ priv.cfg_w = -10 ∨ priv.cfg_w = -11) ∧
          (priv.cfg_h = -2 ∨ priv.cfg_h = -3 ∨ priv.cfg_h = -10 ∨ priv.cfg_h = -11))) := by
    rw [reconfig_nonsense, reconfig_decode_fst, reconfig_decode_fst]
    split_ifs <;> omega
  refine ⟨hiff.trans hshape, hiff.trans hrange, ?_, ?_⟩
  · intro h1 h2
    exact hiff.mpr (hrange.mpr (Or.inr (Or.inr ⟨by omega, by omega⟩)))
  · intro hout
    have hok : ¬ reconfig_nonsense (reconfig_decode priv.cfg_w).1 (reconfig_decode priv.cfg_h).1 :=
      fun hbad => hout (hiff.mpr hbad)
    obtain ⟨h1, -, h3, h4, -, -⟩ := reconfig_accepted env priv sws p flags hbest hok
    exact ⟨h1, Prod.ext h3 h4⟩

/-- Instance of C5: the configured pair (-11, -11) on a 1920x1080 source is rejected. -/
theorem C5_rejected_iff_witness :
    find_best_out sample_reconfig_env.toFormatEnv (sample_params 1920 1080 1920 1080).imgfmt ≠ 0 ∧
      (-11 : Int) ≤ (sample_priv (-11) (-11) 0).cfg_w ∧
      (-11 : Int) ≤ (sample_priv (-11) (-11) 0).cfg_h ∧
      (reconfig sample_reconfig_env (sample_priv (-11) (-11) 0) sample_sws
        (sample_params 1920 1080 1920 1080) 0).outcome = .bad_params :=
  ⟨by decide, by decide, by decide,
    (C5_rejected_iff sample_reconfig_env (sample_priv (-11) (-11) 0) sample_sws
      (sample_params 1920 1080 1920 1080) 0 (by decide) (by decide) (by decide)).2.2.1 rfl rfl⟩

/-- C6, as stated, fails: with configured width -3 and the literal height 2000000 on a
1920x1080 source (`noup = 0`) the configuration is accepted, the product `2000000 * 1920`
does not fit the type `int`, and the output width is -421266, whereas `h * srcW / srcH`
truncated is 3555555. -/
theorem C6_relative_width_overflows :
    (0 : Int) < (sample_params 1920 1080 1920 1080).w ∧
      (0 : Int) < (sample_params 1920 1080 1920 1080).h ∧
      (sample_priv (-3) 2000000 0).cfg_w = -3 ∧ (1 : Int) ≤ (sample_priv (-3) 2000000 0).cfg_h ∧
      (sample_priv (-3) 2000000 0).noup = 0 ∧
      (reconfig sample_reconfig_env (sample_priv (-3) 2000000 0) sample_sws
        (sample_params 1920 1080 1920 1080) 0).outcome ≠ .no_outfmt ∧
      (reconfig sample_reconfig_env (sample_priv (-3) 2000000 0) sample_sws
        (sample_params 1920 1080 1920 1080) 0).outcome ≠ .bad_params ∧
      (reconfig sample_reconfig_env (sample_priv (-3) 2000000 0) sample_sws
        (sample_params 1920 1080 1920 1080) 0).p.h = 2000000 ∧
      (reconfig sample_reconfig_env (sample_priv (-3) 2000000 0) sample_sws
        (sample_params 1920 1080 1920 1080) 0).p.w = -421266 ∧
      (2000000 * 1920 : Int) / 1080 = 3555555 ∧
      ¬ fits_int (2000000 * 1920) := by
  decide

/-- C6, amended: for a source with positive decoded size and `noup = 0`, a configured width
of -3 with a literal height `h >= 1` whose product `h * srcW` fits the type `int` is accepted
and gives output height `h` and output width `h * srcW / srcH` truncated; symmetrically a
configured height of -3 with a literal width `w` whose product `w * srcH` fits gives output
width `w` and output height `w * srcH / srcW` truncated. -/
theorem C6_relative_axis_follows_decoded_aspect (env : ReconfigEnv) (priv : vf_priv_s)
    (sws : mp_sws_context) (p : mp_image_params) (flags : Int)
    (hbest : find_best_out env.toFormatEnv p.imgfmt ≠ 0)
    (hW : 0 < p.w) (hH : 0 < p.h) (hnoup : priv.noup = 0) :
    (priv.cfg_w = -3 → 1 ≤ priv.cfg_h → fits_int (priv.cfg_h * p.w) →
      (reconfig env priv sws p flags).outcome ≠ .no_outfmt ∧
      (reconfig env priv sws p flags).outcome ≠ .bad_params ∧
      (reconfig env priv sws p flags).p.h = priv.cfg_h ∧
      (reconfig env priv sws p flags).p.w = (priv.cfg_h * p.w).tdiv p.h ∧
      (reconfig env priv sws p flags).p.w = priv.cfg_h * p.w / p.h) ∧
    (priv.cfg_h = -3 → 1 ≤ priv.cfg_w → fits_int (priv.cfg_w * p.h) →
      (reconfig env priv sws p flags).outcome ≠ .no_outfmt ∧
      (reconfig env priv sws p flags).outcome ≠ .bad_params ∧
      (reconfig env priv sws p flags).p.w = priv.cfg_w ∧
      (reconfig env priv sws p flags).p.h = (priv.cfg_w * p.h).tdiv p.w ∧
      (reconfig env priv sws p flags).p.h = priv.cfg_w * p.h / p.w) := by
  constructor
  · intro hcw hch hfit
    have hdw : reconfig_decode priv.cfg_w = (-3, false) := by
      rw [hcw]; exact reconfig_decode_of_gt _ (by omega)
    have hdh : reconfig_decode priv.cfg_h = (priv.cfg_h, false) :=
      reconfig_decode_of_gt _ (by omega)
    have hok : ¬ reconfig_nonsense (reconfig_decode priv.cfg_w).1 (reconfig_decode priv.cfg_h).1 := by
      rw [hdw, hdh, reconfig_nonsense]
      omega
    obtain ⟨h1, h2, h3, h4, -, -⟩ := reconfig_accepted env priv sws p flags hbest hok
    rw [hdw, hdh, hnoup, reconfig_size_w_rel _ _ _ _ _ hch hW hH hfit] at h3 h4
    refine ⟨h1, h2, h4, h3, ?_⟩
    rw [h3]
    exact Int.tdiv_eq_ediv (Int.mul_nonneg (by omega) (by omega)) (by omega)
  · intro hch hcw hfit
    have hdh : reconfig_decode priv.cfg_h = (-3, false) := by
      rw [hch]; exact reconfig_decode_of_gt _ (by omega)
    have hdw : reconfig_decode priv.cfg_w = (priv.cfg_w, false) :=
      reconfig_decode_of_gt _ (by omega)
    have hok : ¬ reconfig_nonsense (reconfig_decode priv.cfg_w).1 (reconfig_decode priv.cfg_h).1 := by
      rw [hdw, hdh, reconfig_nonsense]
      omega
    obtain ⟨h1, h2, h3, h4, -, -⟩ := reconfig_accepted env priv sws p flags hbest hok
    rw [hdw, hdh, hnoup, reconfig_size_h_rel _ _ _ _ _ hcw hW hH hfit] at h3 h4
    refine ⟨h1, h2, h3, h4, ?_⟩
    rw [h4]
    exact Int.tdiv_eq_ediv (Int.mul_nonneg (by omega) (by omega)) (by omega)

/-- Instance of C6 (amended): width -3 and height 200 on a 1920x1080 source give width 355. -/
theorem C6_relative_axis_follows_decoded_aspect_witness :
    find_best_out sample_reconfig_env.toFormatEnv (sample_params 1920 1080 1920 1080).imgfmt ≠ 0 ∧
      (0 : Int) < (sample_params 1920 1080 1920 1080).w ∧
      (0 : Int) < (sample_params 1920 1080 1920 1080).h ∧
      (sample_priv (-3) 200 0).noup = 0 ∧
      fits_int ((sample_priv (-3) 200 0).cfg_h * (sample_params 1920 1080 1920 1080).w) ∧
      (reconfig sample_reconfig_env (sample_priv (-3) 200 0) sample_sws
        (sample_params 1920 1080 1920 1080) 0).p.h = 200 ∧
      (reconfig sample_reconfig_env (sample_priv (-3) 200 0) sample_sws
        (sample_params 1920 1080 1920 1080) 0).p.w = 355 :=
  ⟨by decide, by decide, by decide, rfl, by decide,
    ((C6_relative_axis_follows_decoded_aspect sample_reconfig_env (sample_priv (-3) 200 0)
      sample_sws (sample_params 1920 1080 1920 1080) 0 (by decide) (by decide) (by decide)
      rfl).1 rfl (by decide) (by decide)).2.2.1,
    ((C6_relative_axis_follows_decoded_aspect sample_reconfig_env (sample_priv (-3) 200 0)
      sample_sws (sample_params 1920 1080 1920 1080) 0 (by decide) (by decide) (by decide)
      rfl).1 rfl (by decide) (by decide)).2.2.2.1⟩

/-- C7: for a source with positive decoded and display size and `noup` in 0..2, the
configured pair (-1, -1) is accepted when an output format exists, and the output width and
height are the decoded width and height of the source. -/
theorem C7_unchanged_size (env : ReconfigEnv) (priv : vf_priv_s) (sws : mp_sws_context)
    (p : mp_image_params) (flags : Int)
    (hbest : find_best_out env.toFormatEnv p.imgfmt ≠ 0)
    (hW : 0 < p.w) (hH : 0 < p.h) (_hDW : 0 < p.d_w) (_hDH : 0 < p.d_h)
    (_hnoup : priv.noup = 0 ∨ priv.noup = 1 ∨ priv.noup = 2)
    (hcw : priv.cfg_w = -1) (hch : priv.cfg_h = -1) :
    (reconfig env priv sws p flags).outcome ≠ .no_outfmt ∧
      (reconfig env priv sws p flags).outcome ≠ .bad_params ∧
      (reconfig env priv sws p flags).p.w = p.w ∧
      (reconfig env priv sws p flags).p.h = p.h := by
  have hdw : reconfig_decode priv.cfg_w = (-1, false) := by
    rw [hcw]; exact reconfig_decode_of_gt _ (by omega)
  have hdh : reconfig_decode priv.cfg_h = (-1, false) := by
    rw [hch]; exact reconfig_decode_of_gt _ (by omega)
  have hok : ¬ reconfig_nonsense (reconfig_decode priv.cfg_w).1 (reconfig_decode priv.cfg_h).1 := by
    rw [hdw, hdh, reconfig_nonsense]
    omega
  obtain ⟨h1, h2, h3, h4, -, -⟩ := reconfig_accepted env priv sws p flags hbest hok
  rw [hdw, hdh, reconfig_size_unchanged _ _ _ _ _ hW hH] at h3 h4
  exact ⟨h1, h2, h3, h4⟩

/-- Instance of C7: the pair (-1, -1) with `noup = 2` on a 1920x1080 source shown at
1280x720. -/
theorem C7_unchanged_size_witness :
    find_best_out sample_reconfig_env.toFormatEnv (sample_params 1920 1080 1280 720).imgfmt ≠ 0 ∧
      (sample_priv (-1) (-1) 2).cfg_w = -1 ∧ (sample_priv (-1) (-1) 2).cfg_h = -1 ∧
      (reconfig sample_reconfig_env (sample_priv (-1) (-1) 2) sample_sws
        (sample_params 1920 1080 1280 720) 0).p.w = 1920 ∧
      (reconfig sample_reconfig_env (sample_priv (-1) (-1) 2) sample_sws
        (sample_params 1920 1080 1280 720) 0).p.h = 1080 :=
  ⟨by decide, rfl, rfl,
    (C7_unchanged_size sample_reconfig_env (sample_priv (-1) (-1) 2) sample_sws
      (sample_params 1920 1080 1280 720) 0 (by decide) (by decide) (by decide) (by decide)
      (by decide) (by decide) rfl rfl).2.2⟩

/-- C8, as stated, fails: with `noup = 1`, configured width -8 and configured height -1 on a
640x480 source shown at 1000x480 the configuration is accepted, the width axis is flagged for
rounding and resolves to 1000, `((1000 + 8) / 16) * 16` is 1008, and the output width is 640:
the check for upscaling has put the source size back. -/
theorem C8_flagged_axis_reset_by_noup :
    (reconfig sample_reconfig_env (sample_priv (-8) (-1) 1) sample_sws
        (sample_params 640 480 1000 480) 0).outcome ≠ .no_outfmt ∧
      (reconfig sample_reconfig_env (sample_priv (-8) (-1) 1) sample_sws
        (sample_params 640 480 1000 480) 0).outcome ≠ .bad_params ∧
      reconfig_decode (sample_priv (-8) (-1) 1).cfg_w = (0, true) ∧
      (reconfig_resolve (reconfig_decode (sample_priv (-8) (-1) 1).cfg_w).1
        (reconfig_decode (sample_priv (-8) (-1) 1).cfg_h).1 640 480 1000 480).1 = 1000 ∧
      ((1000 + 8 : Int).tdiv 16) * 16 = 1008 ∧
      (reconfig sample_reconfig_env (sample_priv (-8) (-1) 1) sample_sws
        (sample_params 640 480 1000 480) 0).p.w = 640 := by
  decide

/-- C8, amended: with `noup = 0`, a configured width of -8 on a source of positive display
width `D` for which `D + 8` fits the type `int`, the height not being relative, decodes to the
base value 0 with the rounding flag set, and the output width is `((D + 8) / 16) * 16`.  More
generally, for every accepted configuration on which the check for upscaling does not fire
(`noup = 0`, or fewer than `noup` axes grew), an axis configured at -8 or less ends as
`((v + 8) / 16) * 16` when `v + 8` fits the type `int`, `v` being the value resolved for that
axis, and any other axis ends as `v`. -/
theorem C8_round_to_16 (env : ReconfigEnv) (priv : vf_priv_s) (sws : mp_sws_context)
    (p : mp_image_params) (flags : Int)
    (hbest : find_best_out env.toFormatEnv p.imgfmt ≠ 0) :
    (priv.noup = 0 → priv.cfg_w = -8 → 0 < p.d_w → fits_int (p.d_w + 8) →
      (-1 ≤ priv.cfg_h ∨ priv.cfg_h = -8 ∨ priv.cfg_h = -9) →
      reconfig_decode priv.cfg_w = (0, true) ∧
      (reconfig env priv sws p flags).outcome ≠ .no_outfmt ∧
      (reconfig env priv sws p flags).outcome ≠ .bad_params ∧
      (reconfig env priv sws p flags).p.w = ((p.d_w + 8).tdiv 16) * 16 ∧
      (reconfig env priv sws p flags).p.w = (p.d_w + 8) / 16 * 16) ∧
    (¬ reconfig_nonsense (reconfig_decode priv.cfg_w).1 (reconfig_decode priv.cfg_h).1 →
      (priv.noup = 0 ∨ grown_axes priv p < priv.noup) →
      (priv.cfg_w ≤ -8 →
        fits_int ((reconfig_resolve (reconfig_decode priv.cfg_w).1 (reconfig_decode priv.cfg_h).1
          p.w p.h p.d_w p.d_h).1 + 8) →
        (reconfig env priv sws p flags).p.w =
          (((reconfig_resolve (reconfig_decode priv.cfg_w).1 (reconfig_decode priv.cfg_h).1
            p.w p.h p.d_w p.d_h).1 + 8).tdiv 16) * 16) ∧
      (¬ priv.cfg_w ≤ -8 →
        (reconfig env priv sws p flags).p.w =
          (reconfig_resolve (reconfig_decode priv.cfg_w).1 (reconfig_decode priv.cfg_h).1
            p.w p.h p.d_w p.d_h).1) ∧
      (priv.cfg_h ≤ -8 →
        fits_int ((reconfig_resolve (reconfig_decode priv.cfg_w).1 (reconfig_decode priv.cfg_h).1
          p.w p.h p.d_w p.d_h).2 + 8) →
        (reconfig env priv sws p flags).p.h =
          (((reconfig_resolve (reconfig_decode priv.cfg_w).1 (reconfig_decode priv.cfg_h).1
            p.w p.h p.d_w p.d_h).2 + 8).tdiv 16) * 16) ∧
      (¬ priv.cfg_h ≤ -8 →
        (reconfig env priv sws p flags).p.h =
          (reconfig_resolve (reconfig_decode priv.cfg_w).1 (reconfig_decode priv.cfg_h).1
            p.w p.h p.d_w p.d_h).2)) := by
  have hgen : ¬ reconfig_nonsense (reconfig_decode priv.cfg_w).1 (reconfig_decode priv.cfg_h).1 →
      (priv.noup = 0 ∨ grown_axes priv p < priv.noup) →
      (reconfig env priv sws p flags).p.w = (reconfig_aligned priv p).1 ∧
      (reconfig env priv sws p flags).p.h = (reconfig_aligned priv p).2 := by
    intro hok hquiet
    obtain ⟨-, -, h3, h4, -, -⟩ := reconfig_accepted env priv sws p flags hbest hok
    rw [reconfig_size_eq_noup] at h3 h4
    have hkeep : reconfig_noup priv.noup (reconfig_aligned priv p).1 (reconfig_aligned priv p).2
        p.w p.h = ((reconfig_aligned priv p).1, (reconfig_aligned priv p).2) := by
      simp only [grown_axes] at hquiet
      simp only [reconfig_noup]
      split_ifs at hquiet ⊢ <;> first | rfl | (exfalso; omega)
    rw [hkeep] at h3 h4
    exact ⟨h3, h4⟩
  have haxes : ¬ reconfig_nonsense (reconfig_decode priv.cfg_w).1 (reconfig_decode priv.cfg_h).1 →
      (priv.noup = 0 ∨ grown_axes priv p < priv.noup) →
      (priv.cfg_w ≤ -8 →
        fits_int ((reconfig_resolve (reconfig_decode priv.cfg_w).1 (reconfig_decode priv.cfg_h).1
          p.w p.h p.d_w p.d_h).1 + 8) →
        (reconfig env priv sws p flags).p.w =
          (((reconfig_resolve (reconfig_decode priv.cfg_w).1 (reconfig_decode priv.cfg_h).1
            p.w p.h p.d_w p.d_h).1 + 8).tdiv 16) * 16) ∧
      (¬ priv.cfg_w ≤ -8 →
        (reconfig env priv sws p flags).p.w =
          (reconfig_resolve (reconfig_decode priv.cfg_w).1 (reconfig_decode priv.cfg_h).1
            p.w p.h p.d_w p.d_h).1) ∧
      (priv.cfg_h ≤ -8 →
        fits_int ((reconfig_resolve (reconfig_decode priv.cfg_w).1 (reconfig_decode priv.cfg_h).1
          p.w p.h p.d_w p.d_h).2 + 8) →
        (reconfig env priv sws p flags).p.h =
          (((reconfig_resolve (reconfig_decode priv.cfg_w).1 (reconfig_decode priv.cfg_h).1
            p.w p.h p.d_w p.d_h).2 + 8).tdiv 16) * 16) ∧
      (¬ priv.cfg_h ≤ -8 →
        (reconfig env priv sws p flags).p.h =
          (reconfig_resolve (reconfig_decode priv.cfg_w).1 (reconfig_decode priv.cfg_h).1
            p.w p.h p.d_w p.d_h).2) := by
    intro hok hquiet
    obtain ⟨h3, h4⟩ := hgen hok hquiet
    simp only [reconfig_aligned, reconfig_decode_snd] at h3 h4
    refine ⟨?_, ?_, ?_, ?_⟩
    · intro hc hfit
      rw [h3, decide_eq_true hc, reconfig_round_of_fits _ hfit]
    · intro hc
      rw [h3, decide_eq_false hc, reconfig_round_false]
    · intro hc hfit
      rw [h4, decide_eq_true hc, reconfig_round_of_fits _ hfit]
    · intro hc
      rw [h4, decide_eq_false hc, reconfig_round_false]
  refine ⟨?_, haxes⟩
  intro hnoup hcw hD hfit hch
  have hdw : reconfig_decode priv.cfg_w = (0, true) := by
    rw [hcw]; exact reconfig_decode_of_le _ (by omega)
  have hdh : -1 ≤ (reconfig_decode priv.cfg_h).1 := by
    rw [reconfig_decode_fst]
    split_ifs <;> omega
  have hok : ¬ reconfig_nonsense (reconfig_decode priv.cfg_w).1 (reconfig_decode priv.cfg_h).1 := by
    rw [hdw, reconfig_nonsense]
    omega
  obtain ⟨h1, h2, -, -, -, -⟩ := reconfig_accepted env priv sws p flags hbest hok
  have hbase : reconfig_axis_base 0 p.w p.d_w = p.d_w := by
    simp [reconfig_axis_base]
  have hv : (reconfig_resolve (reconfig_decode priv.cfg_w).1 (reconfig_decode priv.cfg_h).1
      p.w p.h p.d_w p.d_h).1 = p.d_w := by
    rw [hdw, reconfig_resolve_eq_axes, hbase, reconfig_axis_rel_of_pos _ _ _ _ _ _ hD]
  have hw := (haxes hok (Or.inl hnoup)).1 (by omega) (by rw [hv]; exact hfit)
  rw [hv] at hw
  refine ⟨hdw, h1, h2, hw, ?_⟩
  rw [hw, Int.tdiv_eq_ediv (by omega) (by omega)]

/-- Instance of C8 (amended): width -8 on a source of display width 1000 gives width 1008. -/
theorem C8_round_to_16_witness :
    find_best_out sample_reconfig_env.toFormatEnv (sample_params 1920 1080 1000 1080).imgfmt ≠ 0 ∧
      (sample_priv (-8) (-1) 0).noup = 0 ∧ (sample_priv (-8) (-1) 0).cfg_w = -8 ∧
      (0 : Int) < (sample_params 1920 1080 1000 1080).d_w ∧
      fits_int ((sample_params 1920 1080 1000 1080).d_w + 8) ∧
      (reconfig sample_reconfig_env (sample_priv (-8) (-1) 0) sample_sws
        (sample_params 1920 1080 1000 1080) 0).p.w = 1008 :=
  ⟨by decide, rfl, rfl, by decide, by decide,
    ((C8_round_to_16 sample_reconfig_env (sample_priv (-8) (-1) 0) sample_sws
      (sample_params 1920 1080 1000 1080) 0 (by decide)).1 rfl rfl (by decide) (by decide)
      (by decide)).2.2.2.1⟩

/-- C9: for an accepted configuration with `noup = t` in 0..2, let `c` be the number of axes
whose resolved and rounded value exceeds the decoded source size.  If `t > 0` and `c >= t`
the output size is the decoded source size on both axes; otherwise the resolved and rounded
values are kept.  Hence with `t = 1` the output exceeds the source on no axis, and with
`t = 2` it does not exceed the source on both axes at once. -/
theorem C9_noup_guard (env : ReconfigEnv) (priv : vf_priv_s) (sws : mp_sws_context)
    (p : mp_image_params) (flags : Int)
    (hbest : find_best_out env.toFormatEnv p.imgfmt ≠ 0)
    (hok : ¬ reconfig_nonsense (reconfig_decode priv.cfg_w).1 (reconfig_decode priv.cfg_h).1)
    (hnoup : priv.noup = 0 ∨ priv.noup = 1 ∨ priv.noup = 2) :
    ((0 < priv.noup ∧ priv.noup ≤ grown_axes priv p) →
      (reconfig env priv sws p flags).p.w = p.w ∧ (reconfig env priv sws p flags).p.h = p.h) ∧
    (¬ (0 < priv.noup ∧ priv.noup ≤ grown_axes priv p) →
      (reconfig env priv sws p flags).p.w = (reconfig_aligned priv p).1 ∧
      (reconfig env priv sws p flags).p.h = (reconfig_aligned priv p).2) ∧
    (priv.noup = 1 →
      (reconfig env priv sws p flags).p.w ≤ p.w ∧ (reconfig env priv sws p flags).p.h ≤ p.h) ∧
    (priv.noup = 2 →
      ¬ (p.w < (reconfig env priv sws p flags).p.w ∧
        p.h < (reconfig env priv sws p flags).p.h)) := by
  obtain ⟨-, -, h3, h4, -, -⟩ := reconfig_accepted env priv sws p flags hbest hok
  rw [reconfig_size_eq_noup] at h3 h4
  rw [h3, h4]
  simp only [grown_axes]
  generalize (reconfig_aligned priv p).1 = a
  generalize (reconfig_aligned priv p).2 = b
  simp only [reconfig_noup]
  refine ⟨?_, ?_, ?_, ?_⟩
  · intro hc
    split_ifs at hc ⊢ <;> first | exact ⟨rfl, rfl⟩ | (exfalso; omega)
  · intro hc
    split_ifs at hc ⊢ <;> first | exact ⟨rfl, rfl⟩ | (exfalso; omega)
  · intro h1
    split_ifs <;> first | (exfalso; omega) | (constructor <;> simp only [] <;> omega)
  · intro h2
    split_ifs <;> first | (exfalso; omega) | (simp only []; omega)

/-- Instance of C9: `noup = 1`, source 640x480 and configured size 800x480 give 640x480. -/
theorem C9_noup_guard_witness :
    find_best_out sample_reconfig_env.toFormatEnv (sample_params 640 480 640 480).imgfmt ≠ 0 ∧
      ¬ reconfig_nonsense (reconfig_decode (sample_priv 800 480 1).cfg_w).1
        (reconfig_decode (sample_priv 800 480 1).cfg_h).1 ∧
      reconfig_aligned (sample_priv 800 480 1) (sample_params 640 480 640 480) = (800, 480) ∧
      (reconfig sample_reconfig_env (sample_priv 800 480 1) sample_sws
        (sample_params 640 480 640 480) 0).p.w = 640 ∧
      (reconfig sample_reconfig_env (sample_priv 800 480 1) sample_sws
        (sample_params 640 480 640 480) 0).p.h = 480 :=
  ⟨by decide, by decide, by decide,
    (C9_noup_guard sample_reconfig_env (sample_priv 800 480 1) sample_sws
      (sample_params 640 480 640 480) 0 (by decide) (by decide) (by decide)).1 (by decide)⟩

/-- C10, as stated, fails.  With configured width 1 and configured height -3 on a 1920x1080
source shown at 1920x1080 the configuration passes both the search for an output format and
the check of the parameters, and the output height and the output display height are both
`1 * 1080 / 1920 = 0`.  With configured width -3 and configured height 2000000 on the same
source the product `2000000 * 1920` does not fit the type `int`, and the output width and both
output display dimensions are negative. -/
theorem C10_not_strictly_positive :
    (-11 : Int) ≤ (sample_priv 1 (-3) 0).cfg_w ∧ (-11 : Int) ≤ (sample_priv 1 (-3) 0).cfg_h ∧
      (reconfig sample_reconfig_env (sample_priv 1 (-3) 0) sample_sws
        (sample_params 1920 1080 1920 1080) 0).outcome ≠ .no_outfmt ∧
      (reconfig sample_reconfig_env (sample_priv 1 (-3) 0) sample_sws
        (sample_params 1920 1080 1920 1080) 0).outcome ≠ .bad_params ∧
      (reconfig sample_reconfig_env (sample_priv 1 (-3) 0) sample_sws
        (sample_params 1920 1080 1920 1080) 0).p.h = 0 ∧
      (reconfig sample_reconfig_env (sample_priv 1 (-3) 0) sample_sws
        (sample_params 1920 1080 1920 1080) 0).p.d_h = 0 ∧
      ¬ (0 < (reconfig sample_reconfig_env (sample_priv 1 (-3) 0) sample_sws
        (sample_params 1920 1080 1920 1080) 0).p.h) ∧
      (reconfig sample_reconfig_env (sample_priv (-3) 2000000 0) sample_sws
        (sample_params 1920 1080 1920 1080) 0).outcome ≠ .no_outfmt ∧
      (reconfig sample_reconfig_env (sample_priv (-3) 2000000 0) sample_sws
        (sample_params 1920 1080 1920 1080) 0).outcome ≠ .bad_params ∧
      (reconfig sample_reconfig_env (sample_priv (-3) 2000000 0) sample_sws
        (sample_params 1920 1080 1920 1080) 0).p.w = -421266 ∧
      (reconfig sample_reconfig_env (sample_priv (-3) 2000000 0) sample_sws
        (sample_params 1920 1080 1920 1080) 0).p.d_w = -421266 ∧
      (reconfig sample_reconfig_env (sample_priv (-3) 2000000 0) sample_sws
        (sample_params 1920 1080 1920 1080) 0).p.d_h = -236962 ∧
      ¬ reconfig_size_fits (sample_priv (-3) 2000000 0) (sample_params 1920 1080 1920 1080) := by
  decide

/-- C10, amended: for configured values from -11 upward, `noup` in 0..2 and a source whose
decoded and display dimensions are all positive, whenever `reconfig` gets past both the
"no output format" and the "parameters make no sense" exits: if no product or sum of the
resolution (lines 269-282) overflows the type `int`, the output width and height are
non-negative, and so are the output display width and height if the two products of the
display size (line 298) do not overflow either; the output width (height) is strictly positive
when the configured width (height) is -1 or more; and all four are strictly positive when both
configured values are -1 or more and the two products of the display size do not overflow. -/
theorem C10_dimensions_nonneg (env : ReconfigEnv) (priv : vf_priv_s) (sws : mp_sws_context)
    (p : mp_image_params) (flags : Int)
    (_hw : -11 ≤ priv.cfg_w) (_hh : -11 ≤ priv.cfg_h)
    (_hnoup : priv.noup = 0 ∨ priv.noup = 1 ∨ priv.noup = 2)
    (hW : 0 < p.w) (hH : 0 < p.h) (hDW : 0 < p.d_w) (hDH : 0 < p.d_h)
    (hfmt : (reconfig env priv sws p flags).outcome ≠ .no_outfmt)
    (hacc : (reconfig env priv sws p flags).outcome ≠ .bad_params) :
    (reconfig_size_fits priv p →
      0 ≤ (reconfig env priv sws p flags).p.w ∧ 0 ≤ (reconfig env priv sws p flags).p.h ∧
      (reconfig_display_fits (reconfig env priv sws p flags).p.w
          (reconfig env priv sws p flags).p.h p.d_w p.d_h →
        0 ≤ (reconfig env priv sws p flags).p.d_w ∧
        0 ≤ (reconfig env priv sws p flags).p.d_h)) ∧
    (-1 ≤ priv.cfg_w → 0 < (reconfig env priv sws p flags).p.w) ∧
    (-1 ≤ priv.cfg_h → 0 < (reconfig env priv sws p flags).p.h) ∧
    (-1 ≤ priv.cfg_w → -1 ≤ priv.cfg_h →
      reconfig_display_fits (reconfig env priv sws p flags).p.w
        (reconfig env priv sws p flags).p.h p.d_w p.d_h →
      0 < (reconfig env priv sws p flags).p.w ∧ 0 < (reconfig env priv sws p flags).p.h ∧
      0 < (reconfig env priv sws p flags).p.d_w ∧ 0 < (reconfig env priv sws p flags).p.d_h) := by
  have hbest : find_best_out env.toFormatEnv p.imgfmt ≠ 0 :=
    fun h0 => hfmt (reconfig_no_outfmt env priv sws p flags h0)
  have hok : ¬ reconfig_nonsense (reconfig_decode priv.cfg_w).1 (reconfig_decode priv.cfg_h).1 :=
    fun hbad => hacc (reconfig_rejected env priv sws p flags hbest hbad)
  obtain ⟨-, -, h3, h4, h5, h6⟩ := reconfig_accepted env priv sws p flags hbest hok
  rw [reconfig_size_eq_noup] at h3 h4
  obtain ⟨hp1, hp2⟩ := reconfig_noup_pos priv.noup (reconfig_aligned priv p).1
    (reconfig_aligned priv p).2 p.w p.h hW hH
  obtain ⟨hq1, hq2⟩ := reconfig_aligned_pos priv p hW hH hDW hDH
  rw [← h3] at hp1
  rw [← h4] at hp2
  refine ⟨?_, fun hc => hp1 (hq1 hc), fun hc => hp2 (hq2 hc), ?_⟩
  · intro hfit
    obtain ⟨ha1, ha2⟩ := reconfig_aligned_nonneg priv p hok hW hH hDW hDH hfit
    obtain ⟨hn1, hn2⟩ := reconfig_noup_nonneg priv.noup _ _ p.w p.h ha1 ha2 hW hH
    rw [← h3] at hn1
    rw [← h4] at hn2
    refine ⟨hn1, hn2, ?_⟩
    intro hdisp
    obtain ⟨hd1, hd2⟩ := reconfig_display_ge _ _ p.d_w p.d_h hn1 hn2 hDW hDH hdisp
    rw [← h5] at hd1
    rw [← h6] at hd2
    exact ⟨by omega, by omega⟩
  · intro hc1 hc2 hdisp
    have h1 := hp1 (hq1 hc1)
    have h2 := hp2 (hq2 hc2)
    obtain ⟨hd1, hd2⟩ := reconfig_display_ge _ _ p.d_w p.d_h (by omega) (by omega) hDW hDH hdisp
    rw [← h5] at hd1
    rw [← h6] at hd2
    exact ⟨h1, h2, by omega, by omega⟩

/-- Instance of C10 (amended): configured size 1 x -3 on a 1920x1080 source is accepted with
a positive width and a non-negative height. -/
theorem C10_dimensions_nonneg_witness :
    (reconfig sample_reconfig_env (sample_priv 1 (-3) 0) sample_sws
        (sample_params 1920 1080 1920 1080) 0).outcome ≠ .no_outfmt ∧
      (reconfig sample_reconfig_env (sample_priv 1 (-3) 0) sample_sws
        (sample_params 1920 1080 1920 1080) 0).outcome ≠ .bad_params ∧
      reconfig_size_fits (sample_priv 1 (-3) 0) (sample_params 1920 1080 1920 1080) ∧
      0 < (reconfig sample_reconfig_env (sample_priv 1 (-3) 0) sample_sws
        (sample_params 1920 1080 1920 1080) 0).p.w ∧
      0 ≤ (reconfig sample_reconfig_env (sample_priv 1 (-3) 0) sample_sws
        (sample_params 1920 1080 1920 1080) 0).p.h :=
  ⟨by decide, by decide, by decide,
    (C10_dimensions_nonneg sample_reconfig_env (sample_priv 1 (-3) 0) sample_sws
      (sample_params 1920 1080 1920 1080) 0 (by decide) (by decide) (by decide) (by decide)
      (by decide) (by decide) (by decide) (by decide) (by decide)).2.1 (by decide),
    ((C10_dimensions_nonneg sample_reconfig_env (sample_priv 1 (-3) 0) sample_sws
      (sample_params 1920 1080 1920 1080) 0 (by decide) (by decide) (by decide) (by decide)
      (by decide) (by decide) (by decide) (by decide) (by decide)).1 (by decide)).2.1⟩

/-! ## Claims on the display size -/

/-- C11: for an accepted configuration whose output size `outW x outH` is positive and a
source of positive display size `sdW x sdH`, with exact integer arithmetic (the products
`outH * sdW` and `outW * sdH` fit the type `int`): if `outH * sdW > outW * sdH` the display
size is `(outH * sdW / sdH, outH)`, otherwise it is `(outW, outW * sdH / sdW)`; in both cases
the display size equals the output size on one axis, and it is at least the output size on
both axes. -/
theorem C11_display_size (env : ReconfigEnv) (priv : vf_priv_s) (sws : mp_sws_context)
    (p : mp_image_params) (flags : Int)
    (hbest : find_best_out env.toFormatEnv p.imgfmt ≠ 0)
    (hok : ¬ reconfig_nonsense (reconfig_decode priv.cfg_w).1 (reconfig_decode priv.cfg_h).1)
    (hw : 0 < (reconfig env priv sws p flags).p.w) (hh : 0 < (reconfig env priv sws p flags).p.h)
    (hDW : 0 < p.d_w) (hDH : 0 < p.d_h)
    (hexact : reconfig_display_fits (reconfig env priv sws p flags).p.w
      (reconfig env priv sws p flags).p.h p.d_w p.d_h) :
    ((reconfig env priv sws p flags).p.h * p.d_w > (reconfig env priv sws p flags).p.w * p.d_h →
      (reconfig env priv sws p flags).p.d_w =
          (reconfig env priv sws p flags).p.h * p.d_w / p.d_h ∧
        (reconfig env priv sws p flags).p.d_h = (reconfig env priv sws p flags).p.h) ∧
    (¬ (reconfig env priv sws p flags).p.h * p.d_w >
        (reconfig env priv sws p flags).p.w * p.d_h →
      (reconfig env priv sws p flags).p.d_w = (reconfig env priv sws p flags).p.w ∧
        (reconfig env priv sws p flags).p.d_h =
          (reconfig env priv sws p flags).p.w * p.d_h / p.d_w) ∧
    ((reconfig env priv sws p flags).p.d_w = (reconfig env priv sws p flags).p.w ∨
      (reconfig env priv sws p flags).p.d_h = (reconfig env priv sws p flags).p.h) ∧
    (reconfig env priv sws p flags).p.w ≤ (reconfig env priv sws p flags).p.d_w ∧
    (reconfig env priv sws p flags).p.h ≤ (reconfig env priv sws p flags).p.d_h := by
  obtain ⟨-, -, -, -, h5, h6⟩ := reconfig_accepted env priv sws p flags hbest hok
  obtain ⟨hge1, hge2⟩ := reconfig_display_ge (reconfig env priv sws p flags).p.w
    (reconfig env priv sws p flags).p.h p.d_w p.d_h (by omega) (by omega) hDW hDH hexact
  rw [← h5] at hge1
  rw [← h6] at hge2
  rw [reconfig_display_of_fits _ _ _ _ hexact] at h5 h6
  have hbranch1 : (reconfig env priv sws p flags).p.h * p.d_w >
      (reconfig env priv sws p flags).p.w * p.d_h →
      (reconfig env priv sws p flags).p.d_w =
          (reconfig env priv sws p flags).p.h * p.d_w / p.d_h ∧
        (reconfig env priv sws p flags).p.d_h = (reconfig env priv sws p flags).p.h := by
    intro hc
    rw [if_pos hc] at h5 h6
    rw [h5, h6]
    exact ⟨Int.tdiv_eq_ediv (Int.mul_nonneg (by omega) (by omega)) (by omega), rfl⟩
  have hbranch2 : ¬ (reconfig env priv sws p flags).p.h * p.d_w >
        (reconfig env priv sws p flags).p.w * p.d_h →
      (reconfig env priv sws p flags).p.d_w = (reconfig env priv sws p flags).p.w ∧
        (reconfig env priv sws p flags).p.d_h =
          (reconfig env priv sws p flags).p.w * p.d_h / p.d_w := by
    intro hc
    rw [if_neg hc] at h5 h6
    rw [h5, h6]
    exact ⟨rfl, Int.tdiv_eq_ediv (Int.mul_nonneg (by omega) (by omega)) (by omega)⟩
  refine ⟨hbranch1, hbranch2, ?_, hge1, hge2⟩
  by_cases hc : (reconfig env priv sws p flags).p.h * p.d_w >
      (reconfig env priv sws p flags).p.w * p.d_h
  · exact Or.inr (hbranch1 hc).2
  · exact Or.inl (hbranch2 hc).1

/-- Instance of C11: a 640x480 output from a source shown at 16:9 gets the display size
853x480. -/
theorem C11_display_size_witness :
    find_best_out sample_reconfig_env.toFormatEnv (sample_params 1920 1080 1920 1080).imgfmt ≠ 0 ∧
      ¬ reconfig_nonsense (reconfig_decode (sample_priv 640 480 0).cfg_w).1
        (reconfig_decode (sample_priv 640 480 0).cfg_h).1 ∧
      (reconfig sample_reconfig_env (sample_priv 640 480 0) sample_sws
        (sample_params 1920 1080 1920 1080) 0).p.w = 640 ∧
      (reconfig sample_reconfig_env (sample_priv 640 480 0) sample_sws
        (sample_params 1920 1080 1920 1080) 0).p.h = 480 ∧
      (reconfig sample_reconfig_env (sample_priv 640 480 0) sample_sws
        (sample_params 1920 1080 1920 1080) 0).p.d_w = 853 ∧
      (reconfig sample_reconfig_env (sample_priv 640 480 0) sample_sws
        (sample_params 1920 1080 1920 1080) 0).p.d_h = 480 ∧
      (reconfig sample_reconfig_env (sample_priv 640 480 0) sample_sws
        (sample_params 1920 1080 1920 1080) 0).p.w ≤
        (reconfig sample_reconfig_env (sample_priv 640 480 0) sample_sws
          (sample_params 1920 1080 1920 1080) 0).p.d_w :=
  ⟨by decide, by decide, by decide, by decide, by decide, by decide,
    (C11_display_size sample_reconfig_env (sample_priv 640 480 0) sample_sws
      (sample_params 1920 1080 1920 1080) 0 (by decide) (by decide) (by decide) (by decide)
      (by decide) (by decide) (by decide)).2.2.2.1⟩

/-! ## Lemmas on `control` -/

theorem control_set_sws (env : ControlEnv) (sws : mp_sws_context) (data : vf_equalizer_t) :
    (control env sws .VFCTRL_SET_EQUALIZER data).sws =
      if data.item = "brightness" then
        { sws with brightness := control_set_raw data.value }
      else if data.item = "contrast" then
        { sws with contrast := control_set_raw (wrap32 (data.value + 100)) }
      else if data.item = "saturation" then
        { sws with saturation := control_set_raw (wrap32 (data.value + 100)) }
      else sws := by
  simp only [control]
  split_ifs <;> simp [control_forward]

theorem control_get_sws (env : ControlEnv) (sws : mp_sws_context) (data : vf_equalizer_t) :
    (control env sws .VFCTRL_GET_EQUALIZER data).sws = sws := by
  simp only [control]
  split_ifs <;> simp [control_forward]

theorem shiftRight_16 (x : Int) : x >>> (16 : Nat) = x / 65536 := by
  rw [Int.shiftRight_eq_div_pow]
  norm_num

/-- The percentage computed by a get lies in the range of 16 bits, whatever the raw value. -/
theorem control_get_percent_range (raw : Int) :
    -32768 ≤ control_get_percent raw ∧ control_get_percent raw ≤ 32767 := by
  unfold control_get_percent
  rw [shiftRight_16]
  have h := fits_int_wrap32 (wrap32 (raw * 100) + 32768)
  unfold fits_int at h
  omega

/-- The subtraction of 100 on lines 365 and 368 cannot overflow. -/
theorem control_get_percent_sub_100 (raw : Int) :
    wrap32 (control_get_percent raw - 100) = control_get_percent raw - 100 := by
  have h := control_get_percent_range raw
  exact wrap32_of_fits _ ⟨by omega, by omega⟩

/-- The percentage computed by a get when neither `raw * 100` nor the addition of `1 << 15`
overflows. -/
theorem control_get_percent_of_fits (raw : Int) (h1 : fits_int (raw * 100))
    (h2 : fits_int (raw * 100 + 32768)) :
    control_get_percent raw = (raw * 100 + 32768) / 65536 := by
  unfold control_get_percent
  rw [wrap32_of_fits _ h1, wrap32_of_fits _ h2, shiftRight_16]

/-- The raw value computed by a set when the shift and the addition of 50 do not overflow,
which is the case for values in the range of 16 bits. -/
theorem control_set_raw_of_range (x : Int) (h1 : -32768 ≤ x) (h2 : x ≤ 32767) :
    control_set_raw x = (x * 65536 + 50).tdiv 100 := by
  have f1 : fits_int (x * 65536) := ⟨by omega, by omega⟩
  have f2 : fits_int (x * 65536 + 50) := ⟨by omega, by omega⟩
  unfold control_set_raw
  rw [wrap32_of_fits _ f1, wrap32_of_fits _ f2]

theorem control_get_value (env : ControlEnv) (sws : mp_sws_context) (data : vf_equalizer_t) :
    (data.item = "brightness" →
      (control env sws .VFCTRL_GET_EQUALIZER data).data.value =
        control_get_percent sws.brightness) ∧
    (data.item = "contrast" →
      (control env sws .VFCTRL_GET_EQUALIZER data).data.value =
        control_get_percent sws.contrast - 100) ∧
    (data.item = "saturation" →
      (control env sws .VFCTRL_GET_EQUALIZER data).data.value =
        control_get_percent sws.saturation - 100) := by
  refine ⟨?_, ?_, ?_⟩
  · intro h
    simp only [control]
    rw [if_pos h]
  · intro h
    have h1 : ¬ data.item = "brightness" := by rw [h]; decide
    simp only [control]
    rw [if_neg h1, if_pos h]
    exact control_get_percent_sub_100 _
  · intro h
    have h1 : ¬ data.item = "brightness" := by rw [h]; decide
    have h2 : ¬ data.item = "contrast" := by rw [h]; decide
    simp only [control]
    rw [if_neg h1, if_neg h2, if_pos h]
    exact control_get_percent_sub_100 _

theorem control_get_handled (env : ControlEnv) (sws : mp_sws_context) (data : vf_equalizer_t)
    (h : data.item = "brightness" ∨ data.item = "contrast" ∨ data.item = "saturation") :
    (control env sws .VFCTRL_GET_EQUALIZER data).outcome = .handled ∧
      (control env sws .VFCTRL_GET_EQUALIZER data).ret = env.CONTROL_TRUE := by
  simp only [control]
  split_ifs with h1 h2 h3
  · exact ⟨rfl, rfl⟩
  · exact ⟨rfl, rfl⟩
  · exact ⟨rfl, rfl⟩
  · rcases h with h | h | h
    · exact absurd h h1
    · exact absurd h h2
    · exact absurd h h3

/-- C division of a negative numerator by 100 rounds toward zero, that is upward. -/
theorem tdiv_100_of_neg (a : Int) (h : a < 0) : a.tdiv 100 = -((-a) / 100) := by
  have hneg : a = -(-a) := by ring
  rw [hneg, Int.neg_tdiv, Int.tdiv_eq_ediv (by omega) (by omega)]
  simp

theorem tdiv_100_of_nonneg (a : Int) (h : 0 ≤ a) : a.tdiv 100 = a / 100 :=
  Int.tdiv_eq_ediv h (by omega)

/-- The value stored by a set is a nearest integer when the numerator is not negative. -/
theorem set_formula_nearest_of_nonneg (x : Int) (hx : 0 ≤ x) :
    is_nearest ((x * 65536 + 50).tdiv 100) (x * 65536) 100 := by
  rw [tdiv_100_of_nonneg _ (by omega)]
  unfold is_nearest
  have habs : |(x * 65536 + 50) / 100 * 100 - x * 65536| ≤ 50 := by
    rw [abs_le]
    constructor <;> omega
  omega

/-- The value stored by a set for a negative percentage is not a nearest integer: it is the
nearest integer plus one. -/
theorem set_formula_off_by_one_of_neg (x : Int) (hx : x < 0) :
    ¬ is_nearest ((x * 65536 + 50).tdiv 100) (x * 65536) 100 ∧
      is_nearest ((x * 65536 + 50).tdiv 100 - 1) (x * 65536) 100 := by
  rw [tdiv_100_of_neg _ (by omega)]
  unfold is_nearest
  constructor
  · intro h
    have habs : |(-(-(x * 65536 + 50) / 100)) * 100 - x * 65536| ≤ 50 := by omega
    rw [abs_le] at habs
    omega
  · have habs : |(-(-(x * 65536 + 50) / 100) - 1) * 100 - x * 65536| ≤ 50 := by
      rw [abs_le]
      constructor <;> omega
    omega

/-- The value read back from a stored value is the percentage that was set. -/
theorem get_formula_of_set_formula (x : Int) :
    ((x * 65536 + 50).tdiv 100 * 100 + 32768) / 65536 = x := by
  by_cases hx : 0 ≤ x
  · rw [tdiv_100_of_nonneg _ (by omega)]
    omega
  · rw [tdiv_100_of_neg _ (by omega)]
    omega

/-- The same on the expressions of the code, for percentages from -200 to 200: neither the
set nor the get overflows. -/
theorem control_get_percent_of_set_raw (x : Int) (h1 : -200 ≤ x) (h2 : x ≤ 200) :
    control_get_percent (control_set_raw x) = x := by
  have hq : -131073 ≤ (x * 65536 + 50).tdiv 100 ∧ (x * 65536 + 50).tdiv 100 ≤ 131073 := by
    by_cases hx : 0 ≤ x
    · rw [tdiv_100_of_nonneg _ (by omega)]
      omega
    · rw [tdiv_100_of_neg _ (by omega)]
      omega
  rw [control_set_raw_of_range x (by omega) (by omega),
    control_get_percent_of_fits _ ⟨by omega, by omega⟩ ⟨by omega, by omega⟩]
  exact get_formula_of_set_formula x

/-- The value read by a get is a nearest integer to `raw * 100 / 65536`. -/
theorem get_formula_nearest (raw : Int) :
    is_nearest ((raw * 100 + 32768) / 65536) (raw * 100) 65536 := by
  unfold is_nearest
  have habs : |(raw * 100 + 32768) / 65536 * 65536 - raw * 100| ≤ 32768 := by
    rw [abs_le]
    constructor <;> omega
  omega

theorem control_set_handled_iff (env : ControlEnv) (sws : mp_sws_context)
    (data : vf_equalizer_t)
    (h : data.item = "brightness" ∨ data.item = "contrast" ∨ data.item = "saturation") :
    (¬ env.mp_sws_reinit (control env sws .VFCTRL_SET_EQUALIZER data).sws < 0 →
      (control env sws .VFCTRL_SET_EQUALIZER data).outcome = .handled ∧
      (control env sws .VFCTRL_SET_EQUALIZER data).ret = env.CONTROL_TRUE ∧
      (control env sws .VFCTRL_SET_EQUALIZER data).data = data) ∧
    (env.mp_sws_reinit (control env sws .VFCTRL_SET_EQUALIZER data).sws < 0 →
      (control env sws .VFCTRL_SET_EQUALIZER data).outcome =
        .forwarded .VFCTRL_SET_EQUALIZER data ∧
      (control env sws .VFCTRL_SET_EQUALIZER data).ret =
        (env.vf_next_control .VFCTRL_SET_EQUALIZER data).1 ∧
      (control env sws .VFCTRL_SET_EQUALIZER data).data =
        (env.vf_next_control .VFCTRL_SET_EQUALIZER data).2) := by
  rw [control_set_sws]
  simp only [control]
  split_ifs with h1 h2 h3 h4 h5 h6
  all_goals first
    | (refine ⟨fun hr => ?_, fun hr => ?_⟩ <;>
        first
        | exact ⟨rfl, rfl, rfl⟩
        | exact absurd ‹_› hr
        | exact absurd hr ‹_›)
    | (exfalso
       rcases h with h | h | h
       · exact h1 h
       · exact ‹¬ data.item = "contrast"› h
       · exact ‹¬ data.item = "saturation"› h)

theorem control_forwarded_of_unrecognised (env : ControlEnv) (sws : mp_sws_context)
    (request : vf_control_request) (data : vf_equalizer_t)
    (h1 : data.item ≠ "brightness") (h2 : data.item ≠ "contrast")
    (h3 : data.item ≠ "saturation") :
    control env sws request data = control_forward env sws request data := by
  cases request with
  | VFCTRL_GET_EQUALIZER =>
    simp only [control]
    rw [if_neg h1, if_neg h2, if_neg h3]
  | VFCTRL_SET_EQUALIZER =>
    simp only [control]
    rw [if_neg h1, if_neg h2, if_neg h3]
  | other code => rfl

/-- What a set stores for each of the three items, for percentages in the range of 16 bits:
a nearest integer to the fraction of the specification for contrast and saturation from -100
upward and for a brightness that is not negative, and the nearest integer plus one for a
negative brightness. -/
theorem control_set_stored_value (env : ControlEnv) (sws : mp_sws_context) (percent : Int)
    (hlo : -32768 ≤ percent) (hhi : percent ≤ 32667) :
    (0 ≤ percent →
      is_nearest (control env sws .VFCTRL_SET_EQUALIZER
        { item := "brightness", value := percent }).sws.brightness (percent * 65536) 100) ∧
    (percent < 0 →
      ¬ is_nearest (control env sws .VFCTRL_SET_EQUALIZER
        { item := "brightness", value := percent }).sws.brightness (percent * 65536) 100 ∧
      is_nearest ((control env sws .VFCTRL_SET_EQUALIZER
        { item := "brightness", value := percent }).sws.brightness - 1) (percent * 65536) 100) ∧
    (-100 ≤ percent →
      is_nearest (control env sws .VFCTRL_SET_EQUALIZER
        { item := "contrast", value := percent }).sws.contrast ((percent + 100) * 65536) 100 ∧
      is_nearest (control env sws .VFCTRL_SET_EQUALIZER
        { item := "saturation", value := percent }).sws.saturation
        ((percent + 100) * 65536) 100) := by
  have hwrap : wrap32 (percent + 100) = percent + 100 :=
    wrap32_of_fits _ ⟨by omega, by omega⟩
  have hb : (control env sws .VFCTRL_SET_EQUALIZER
      { item := "brightness", value := percent }).sws.brightness =
      control_set_raw percent := by
    rw [control_set_sws]; rfl
  have hc : (control env sws .VFCTRL_SET_EQUALIZER
      { item := "contrast", value := percent }).sws.contrast =
      control_set_raw (wrap32 (percent + 100)) := by
    rw [control_set_sws]; rfl
  have hs : (control env sws .VFCTRL_SET_EQUALIZER
      { item := "saturation", value := percent }).sws.saturation =
      control_set_raw (wrap32 (percent + 100)) := by
    rw [control_set_sws]; rfl
  rw [hb, hc, hs, hwrap, control_set_raw_of_range percent hlo (by omega),
    control_set_raw_of_range (percent + 100) (by omega) (by omega)]
  exact ⟨set_formula_nearest_of_nonneg percent, set_formula_off_by_one_of_neg percent,
    fun h => ⟨set_formula_nearest_of_nonneg _ (by omega),
      set_formula_nearest_of_nonneg _ (by omega)⟩⟩

/-! ## Claims on the equalizer -/

/-- C12 fails on the code for a negative brightness: setting brightness to -1 is handled and
stores `(-65536 + 50) / 100 = -654`, the C division truncating toward zero, whereas the
integer nearest to `-1 * 65536 / 100 = -655.36` is -655. -/
theorem C12_set_negative_brightness_off_by_one :
    (control sample_control_env sample_sws .VFCTRL_SET_EQUALIZER
        { item := "brightness", value := -1 }).outcome = .handled ∧
      (control sample_control_env sample_sws .VFCTRL_SET_EQUALIZER
        { item := "brightness", value := -1 }).sws.brightness = -654 ∧
      ¬ is_nearest (-654) (-1 * 65536) 100 ∧ is_nearest (-655) (-1 * 65536) 100 := by
  decide

/-- C13, as stated, fails: for the raw brightness 21474509 the product `raw * 100` fits the
type `int`, but the addition of `1 << 15` to it does not; the get is handled and returns
-32768, whereas the integer nearest to `raw * 100 / 65536` is 32768. -/
theorem C13_get_rounding_overflows :
    fits_int (21474509 * 100) ∧ ¬ fits_int (21474509 * 100 + 32768) ∧
      (control sample_control_env { sample_sws with brightness := 21474509 }
        .VFCTRL_GET_EQUALIZER { item := "brightness", value := 0 }).outcome = .handled ∧
      (control sample_control_env { sample_sws with brightness := 21474509 }
        .VFCTRL_GET_EQUALIZER { item := "brightness", value := 0 }).data.value = -32768 ∧
      ¬ is_nearest (-32768) (21474509 * 100) 65536 ∧
      is_nearest 32768 (21474509 * 100) 65536 := by
  decide

/-- C13, amended: a get of brightness is handled and, when neither `raw * 100` nor the
addition of `1 << 15` to it overflows the type `int`, returns a nearest integer to
`raw * 100 / 65536`; a get of contrast or saturation is handled and under the same condition
returns such a nearest integer minus 100; the raw value 65536 reads as brightness 100 and as
contrast or saturation 0; and a get leaves the scaler context as it was. -/
theorem C13_get_equalizer (env : ControlEnv) (sws : mp_sws_context) (data : vf_equalizer_t) :
    (data.item = "brightness" →
      (control env sws .VFCTRL_GET_EQUALIZER data).outcome = .handled ∧
      (control env sws .VFCTRL_GET_EQUALIZER data).ret = env.CONTROL_TRUE ∧
      (fits_int (sws.brightness * 100) → fits_int (sws.brightness * 100 + 32768) →
        is_nearest (control env sws .VFCTRL_GET_EQUALIZER data).data.value
          (sws.brightness * 100) 65536) ∧
      (sws.brightness = 65536 → (control env sws .VFCTRL_GET_EQUALIZER data).data.value = 100)) ∧
    (data.item = "contrast" →
      (control env sws .VFCTRL_GET_EQUALIZER data).outcome = .handled ∧
      (control env sws .VFCTRL_GET_EQUALIZER data).ret = env.CONTROL_TRUE ∧
      (fits_int (sws.contrast * 100) → fits_int (sws.contrast * 100 + 32768) →
        is_nearest ((control env sws .VFCTRL_GET_EQUALIZER data).data.value + 100)
          (sws.contrast * 100) 65536) ∧
      (sws.contrast = 65536 → (control env sws .VFCTRL_GET_EQUALIZER data).data.value = 0)) ∧
    (data.item = "saturation" →
      (control env sws .VFCTRL_GET_EQUALIZER data).outcome = .handled ∧
      (control env sws .VFCTRL_GET_EQUALIZER data).ret = env.CONTROL_TRUE ∧
      (fits_int (sws.saturation * 100) → fits_int (sws.saturation * 100 + 32768) →
        is_nearest ((control env sws .VFCTRL_GET_EQUALIZER data).data.value + 100)
          (sws.saturation * 100) 65536) ∧
      (sws.saturation = 65536 → (control env sws .VFCTRL_GET_EQUALIZER data).data.value = 0)) ∧
    (control env sws .VFCTRL_GET_EQUALIZER data).sws = sws := by
  obtain ⟨hb, hc, hs⟩ := control_get_value env sws data
  have hone : control_get_percent 65536 = 100 := by decide
  refine ⟨?_, ?_, ?_, control_get_sws env sws data⟩
  · intro h
    obtain ⟨h1, h2⟩ := control_get_handled env sws data (Or.inl h)
    rw [hb h]
    refine ⟨h1, h2, ?_, ?_⟩
    · intro f1 f2
      rw [control_get_percent_of_fits _ f1 f2]
      exact get_formula_nearest _
    · intro hraw
      rw [hraw, hone]
  · intro h
    obtain ⟨h1, h2⟩ := control_get_handled env sws data (Or.inr (Or.inl h))
    rw [hc h]
    refine ⟨h1, h2, ?_, ?_⟩
    · intro f1 f2
      rw [control_get_percent_of_fits _ f1 f2]
      have := get_formula_nearest sws.contrast
      simpa using this
    · intro hraw
      rw [hraw, hone]
      decide
  · intro h
    obtain ⟨h1, h2⟩ := control_get_handled env sws data (Or.inr (Or.inr h))
    rw [hs h]
    refine ⟨h1, h2, ?_, ?_⟩
    · intro f1 f2
      rw [control_get_percent_of_fits _ f1 f2]
      have := get_formula_nearest sws.saturation
      simpa using this
    · intro hraw
      rw [hraw, hone]
      decide

/-- Instance of C13 (amended): the raw contrast -32768 (minus one half) reads as -150. -/
theorem C13_get_equalizer_witness :
    fits_int ({ sample_sws with contrast := -32768 }.contrast * 100) ∧
      fits_int ({ sample_sws with contrast := -32768 }.contrast * 100 + 32768) ∧
      (control sample_control_env { sample_sws with contrast := -32768 } .VFCTRL_GET_EQUALIZER
        { item := "contrast", value := 7 }).data.value = -150 ∧
      is_nearest ((control sample_control_env { sample_sws with contrast := -32768 }
        .VFCTRL_GET_EQUALIZER { item := "contrast", value := 7 }).data.value + 100)
        ({ sample_sws with contrast := -32768 }.contrast * 100) 65536 :=
  ⟨by decide, by decide, by decide,
    ((C13_get_equalizer sample_control_env { sample_sws with contrast := -32768 }
      { item := "contrast", value := 7 }).2.1 rfl).2.2.1 (by decide) (by decide)⟩

/-- C14, as stated, fails: with a libswscale that fails to initialise and a next filter that
answers every request with the value of `CONTROL_TRUE`, setting contrast to 10 stores the new
contrast, fails to reinitialise, and still returns the value of `CONTROL_TRUE`. -/
theorem C14_failed_set_returns_handled_value :
    sample_control_env_failing.mp_sws_reinit
        (control sample_control_env_failing sample_sws .VFCTRL_SET_EQUALIZER
          { item := "contrast", value := 10 }).sws < 0 ∧
      (control sample_control_env_failing sample_sws .VFCTRL_SET_EQUALIZER
        { item := "contrast", value := 10 }).ret = sample_control_env_failing.CONTROL_TRUE ∧
      (control sample_control_env_failing sample_sws .VFCTRL_SET_EQUALIZER
        { item := "contrast", value := 10 }).sws.contrast = 72090 := by
  decide

/-- C14, amended: for a set of brightness, contrast or saturation whose reinitialisation
fails, `control` does not answer itself: it passes the request and the unmodified record on
to the next filter and returns what the next filter returns.  A request with an unrecognised
item, whatever the request, is passed on in the same way, with the scaler context
untouched. -/
theorem C14_failed_set_is_forwarded (env : ControlEnv) (sws : mp_sws_context)
    (data : vf_equalizer_t) :
    ((data.item = "brightness" ∨ data.item = "contrast" ∨ data.item = "saturation") →
      env.mp_sws_reinit (control env sws .VFCTRL_SET_EQUALIZER data).sws < 0 →
      (control env sws .VFCTRL_SET_EQUALIZER data).outcome =
        .forwarded .VFCTRL_SET_EQUALIZER data ∧
      (control env sws .VFCTRL_SET_EQUALIZER data).ret =
        (env.vf_next_control .VFCTRL_SET_EQUALIZER data).1 ∧
      (control env sws .VFCTRL_SET_EQUALIZER data).data =
        (env.vf_next_control .VFCTRL_SET_EQUALIZER data).2) ∧
    (data.item ≠ "brightness" → data.item ≠ "contrast" → data.item ≠ "saturation" →
      ∀ request : vf_control_request,
        (control env sws request data).outcome = .forwarded request data ∧
        (control env sws request data).ret = (env.vf_next_control request data).1 ∧
        (control env sws request data).data = (env.vf_next_control request data).2 ∧
        (control env sws request data).sws = sws) := by
  constructor
  · intro hitem hfail
    exact (control_set_handled_iff env sws data hitem).2 hfail
  · intro h1 h2 h3 request
    rw [control_forwarded_of_unrecognised env sws request data h1 h2 h3]
    exact ⟨rfl, rfl, rfl, rfl⟩

/-- Instance of C14 (amended): the failed set of contrast is passed on to the next filter. -/
theorem C14_failed_set_is_forwarded_witness :
    sample_control_env_failing.mp_sws_reinit
        (control sample_control_env_failing sample_sws .VFCTRL_SET_EQUALIZER
          { item := "contrast", value := 10 }).sws < 0 ∧
      (control sample_control_env_failing sample_sws .VFCTRL_SET_EQUALIZER
        { item := "contrast", value := 10 }).outcome =
        .forwarded .VFCTRL_SET_EQUALIZER { item := "contrast", value := 10 } :=
  ⟨by decide,
    ((C14_failed_set_is_forwarded sample_control_env_failing sample_sws
      { item := "contrast", value := 10 }).1 (Or.inr (Or.inl rfl)) (by decide)).1⟩

/-- C19: for each of brightness, contrast and saturation and every percentage from -100 to
100, a set that is handled followed by a get of the same item returns the percentage that
was set. -/
theorem C19_set_then_get (env : ControlEnv) (sws : mp_sws_context) (item : String)
    (percent other : Int)
    (hitem : item = "brightness" ∨ item = "contrast" ∨ item = "saturation")
    (_hlo : -100 ≤ percent) (_hhi : percent ≤ 100)
    (_hset : (control env sws .VFCTRL_SET_EQUALIZER
      { item := item, value := percent }).outcome = .handled) :
    (control env
        (control env sws .VFCTRL_SET_EQUALIZER { item := item, value := percent }).sws
        .VFCTRL_GET_EQUALIZER { item := item, value := other }).outcome = .handled ∧
      (control env
        (control env sws .VFCTRL_SET_EQUALIZER { item := item, value := percent }).sws
        .VFCTRL_GET_EQUALIZER { item := item, value := other }).data.value = percent := by
  refine ⟨(control_get_handled env _ { item := item, value := other } hitem).1, ?_⟩
  obtain ⟨hb, hc, hs⟩ := control_get_value env
    (control env sws .VFCTRL_SET_EQUALIZER { item := item, value := percent }).sws
    { item := item, value := other }
  have hwrap : wrap32 (percent + 100) = percent + 100 :=
    wrap32_of_fits _ ⟨by omega, by omega⟩
  rcases hitem with h | h | h
  · subst h
    have hfield : (control env sws .VFCTRL_SET_EQUALIZER
        { item := "brightness", value := percent }).sws.brightness =
        control_set_raw percent := by
      rw [control_set_sws]; rfl
    rw [hb rfl, hfield]
    exact control_get_percent_of_set_raw percent (by omega) (by omega)
  · subst h
    have hfield : (control env sws .VFCTRL_SET_EQUALIZER
        { item := "contrast", value := percent }).sws.contrast =
        control_set_raw (wrap32 (percent + 100)) := by
      rw [control_set_sws]; rfl
    rw [hc rfl, hfield, hwrap,
      control_get_percent_of_set_raw (percent + 100) (by omega) (by omega)]
    omega
  · subst h
    have hfield : (control env sws .VFCTRL_SET_EQUALIZER
        { item := "saturation", value := percent }).sws.saturation =
        control_set_raw (wrap32 (percent + 100)) := by
      rw [control_set_sws]; rfl
    rw [hs rfl, hfield, hwrap,
      control_get_percent_of_set_raw (percent + 100) (by omega) (by omega)]
    omega

/-- Instance of C19: brightness -37 is read back as -37. -/
theorem C19_set_then_get_witness :
    (control sample_control_env sample_sws .VFCTRL_SET_EQUALIZER
        { item := "brightness", value := -37 }).outcome = .handled ∧
      (control sample_control_env
        (control sample_control_env sample_sws .VFCTRL_SET_EQUALIZER
          { item := "brightness", value := -37 }).sws
        .VFCTRL_GET_EQUALIZER { item := "brightness", value := 0 }).data.value = -37 :=
  ⟨by decide,
    (C19_set_then_get sample_control_env sample_sws "brightness" (-37) 0 (Or.inl rfl)
      (by decide) (by decide) (by decide)).2⟩

/-! ## Claims on the state and the colour policy of `reconfig` -/

theorem reconfig_priv_config (env : ReconfigEnv) (priv : vf_priv_s) (sws : mp_sws_context)
    (p : mp_image_params) (flags : Int) :
    (reconfig env priv sws p flags).priv.cfg_w = priv.cfg_w ∧
      (reconfig env priv sws p flags).priv.cfg_h = priv.cfg_h ∧
      (reconfig env priv sws p flags).priv.noup = priv.noup ∧
      (reconfig env priv sws p flags).priv.v_chr_drop = priv.v_chr_drop ∧
      (reconfig env priv sws p flags).priv.accurate_rnd = priv.accurate_rnd := by
  simp only [reconfig]
  split_ifs <;> exact ⟨rfl, rfl, rfl, rfl, rfl⟩

/-- The record `*p` and the rejections of `reconfig` depend on the private data only through
the configured width, height and `noup`, and not on the scaler context. -/
theorem reconfig_config_only (env : ReconfigEnv) (priv1 priv2 : vf_priv_s)
    (sws1 sws2 : mp_sws_context) (p : mp_image_params) (flags : Int)
    (hcw : priv1.cfg_w = priv2.cfg_w) (hch : priv1.cfg_h = priv2.cfg_h)
    (hnoup : priv1.noup = priv2.noup) :
    (reconfig env priv1 sws1 p flags).p = (reconfig env priv2 sws2 p flags).p ∧
      ((reconfig env priv1 sws1 p flags).outcome = .no_outfmt ↔
        (reconfig env priv2 sws2 p flags).outcome = .no_outfmt) ∧
      ((reconfig env priv1 sws1 p flags).outcome = .bad_params ↔
        (reconfig env priv2 sws2 p flags).outcome = .bad_params) ∧
      ((reconfig env priv1 sws1 p flags).outcome ≠ .no_outfmt →
        (reconfig env priv1 sws1 p flags).priv.w = (reconfig env priv2 sws2 p flags).priv.w ∧
        (reconfig env priv1 sws1 p flags).priv.h = (reconfig env priv2 sws2 p flags).priv.h) := by
  simp only [reconfig, hcw, hch, hnoup]
  split_ifs <;> simp

/-- C15: two instance states that agree on the configured width, height and `noup` but differ
in the previously resolved width and height (and in anything else) give, for the same source
parameters, the same record `*p`, the same rejections and the same resolved width and height;
`reconfig` leaves the configuration unchanged; and reconfiguring again with the same input,
from the state the first call left, gives the same record and the same private data. -/
theorem C15_geometry_depends_on_config_only (env : ReconfigEnv) (priv1 priv2 : vf_priv_s)
    (sws1 sws2 sws3 : mp_sws_context) (p : mp_image_params) (flags : Int)
    (hcw : priv1.cfg_w = priv2.cfg_w) (hch : priv1.cfg_h = priv2.cfg_h)
    (hnoup : priv1.noup = priv2.noup) :
    ((reconfig env priv1 sws1 p flags).p = (reconfig env priv2 sws2 p flags).p ∧
      ((reconfig env priv1 sws1 p flags).outcome = .no_outfmt ↔
        (reconfig env priv2 sws2 p flags).outcome = .no_outfmt) ∧
      ((reconfig env priv1 sws1 p flags).outcome = .bad_params ↔
        (reconfig env priv2 sws2 p flags).outcome = .bad_params) ∧
      ((reconfig env priv1 sws1 p flags).outcome ≠ .no_outfmt →
        (reconfig env priv1 sws1 p flags).priv.w = (reconfig env priv2 sws2 p flags).priv.w ∧
        (reconfig env priv1 sws1 p flags).priv.h = (reconfig env priv2 sws2 p flags).priv.h)) ∧
    ((reconfig env priv1 sws1 p flags).priv.cfg_w = priv1.cfg_w ∧
      (reconfig env priv1 sws1 p flags).priv.cfg_h = priv1.cfg_h ∧
      (reconfig env priv1 sws1 p flags).priv.noup = priv1.noup) ∧
    ((reconfig env (reconfig env priv1 sws1 p flags).priv sws3 p flags).p =
        (reconfig env priv1 sws1 p flags).p ∧
      (reconfig env (reconfig env priv1 sws1 p flags).priv sws3 p flags).priv =
        (reconfig env priv1 sws1 p flags).priv) := by
  obtain ⟨c1, c2, c3, -, -⟩ := reconfig_priv_config env priv1 sws1 p flags
  refine ⟨reconfig_config_only env priv1 priv2 sws1 sws2 p flags hcw hch hnoup,
    ⟨c1, c2, c3⟩, ?_, ?_⟩
  · exact (reconfig_config_only env (reconfig env priv1 sws1 p flags).priv priv1 sws3 sws1 p
      flags c1 c2 c3).1
  · simp only [reconfig]
    split_ifs <;> simp

/-- Instance of C15: two states configured at -3 x 200 that remember 17x23 and 0x0 resolve a
1920x1080 source to the same record. -/
theorem C15_geometry_depends_on_config_only_witness :
    ({ sample_priv (-3) 200 0 with w := 17, h := 23 } : vf_priv_s).cfg_w =
        (sample_priv (-3) 200 0).cfg_w ∧
      (reconfig sample_reconfig_env { sample_priv (-3) 200 0 with w := 17, h := 23 } sample_sws
        (sample_params 1920 1080 1920 1080) 0).p =
      (reconfig sample_reconfig_env (sample_priv (-3) 200 0) sample_sws
        (sample_params 1920 1080 1920 1080) 0).p :=
  ⟨rfl,
    (C15_geometry_depends_on_config_only sample_reconfig_env
      { sample_priv (-3) 200 0 with w := 17, h := 23 } (sample_priv (-3) 200 0)
      sample_sws sample_sws sample_sws (sample_params 1920 1080 1920 1080) 0 rfl rfl rfl).1.1⟩

/-- C16: in an accepted `reconfig`, the record handed to the colour inference carries the
resolved geometry and the chosen format; if the source format or the chosen format is not
YUV its colour space and colour levels are both "auto", and if both are YUV they are the
values the caller declared; the colour fields of the final record are what the inference
returns for that record. -/
theorem C16_colour_policy (env : ReconfigEnv) (priv : vf_priv_s) (sws : mp_sws_context)
    (p : mp_image_params) (flags : Int)
    (hbest : find_best_out env.toFormatEnv p.imgfmt ≠ 0)
    (hok : ¬ reconfig_nonsense (reconfig_decode priv.cfg_w).1 (reconfig_decode priv.cfg_h).1) :
    ((reconfig env priv sws p flags).p.colorspace =
        (env.mp_image_params_guess_csp (reconfig_guess_input env priv p)).1 ∧
      (reconfig env priv sws p flags).p.colorlevels =
        (env.mp_image_params_guess_csp (reconfig_guess_input env priv p)).2) ∧
    ((reconfig_guess_input env priv p).imgfmt = find_best_out env.toFormatEnv p.imgfmt ∧
      (reconfig_guess_input env priv p).w = (reconfig env priv sws p flags).p.w ∧
      (reconfig_guess_input env priv p).h = (reconfig env priv sws p flags).p.h) ∧
    ((¬ is_yuv env p.imgfmt ∨ ¬ is_yuv env (find_best_out env.toFormatEnv p.imgfmt)) →
      (reconfig_guess_input env priv p).colorspace = env.MP_CSP_AUTO ∧
      (reconfig_guess_input env priv p).colorlevels = env.MP_CSP_LEVELS_AUTO) ∧
    ((is_yuv env p.imgfmt ∧ is_yuv env (find_best_out env.toFormatEnv p.imgfmt)) →
      (reconfig_guess_input env priv p).colorspace = p.colorspace ∧
      (reconfig_guess_input env priv p).colorlevels = p.colorlevels) := by
  refine ⟨?_, ?_, ?_, ?_⟩
  · simp only [reconfig, reconfig_guess_input]
    rw [if_neg hbest, if_neg hok]
    split_ifs <;> exact ⟨rfl, rfl⟩
  · obtain ⟨-, -, h3, h4, -, -⟩ := reconfig_accepted env priv sws p flags hbest hok
    rw [h3, h4]
    simp only [reconfig_guess_input]
    exact ⟨(reconfig_csp_geometry env _ _).2.2.2.2, (reconfig_csp_geometry env _ _).1,
      (reconfig_csp_geometry env _ _).2.1⟩
  · intro hnot
    have hcond : env.mp_imgfmt_get_desc_flags p.imgfmt &&& env.MP_IMGFLAG_YUV = 0 ∨
        env.mp_imgfmt_get_desc_flags (find_best_out env.toFormatEnv p.imgfmt) &&&
          env.MP_IMGFLAG_YUV = 0 := by
      simp only [is_yuv, ne_eq, not_not] at hnot
      exact hnot
    simp only [reconfig_guess_input, reconfig_csp]
    rw [if_pos hcond]
    exact ⟨rfl, rfl⟩
  · intro hboth
    have hcond : ¬ (env.mp_imgfmt_get_desc_flags p.imgfmt &&& env.MP_IMGFLAG_YUV = 0 ∨
        env.mp_imgfmt_get_desc_flags (find_best_out env.toFormatEnv p.imgfmt) &&&
          env.MP_IMGFLAG_YUV = 0) := by
      simp only [is_yuv, ne_eq] at hboth
      rintro (h | h)
      · exact hboth.1 h
      · exact hboth.2 h
    simp only [reconfig_guess_input, reconfig_csp]
    rw [if_neg hcond]
    exact ⟨rfl, rfl⟩

/-- Instance of C16: a source of format 5, which is not YUV, declared with colour space 5
and levels 2, reaches the colour inference with both set to "auto" (0). -/
theorem C16_colour_policy_witness :
    find_best_out sample_reconfig_env.toFormatEnv
        ({ sample_params 1920 1080 1920 1080 with
          imgfmt := 5, colorspace := 5, colorlevels := 2 } : mp_image_params).imgfmt ≠ 0 ∧
      ¬ reconfig_nonsense (reconfig_decode (sample_priv (-1) (-1) 0).cfg_w).1
        (reconfig_decode (sample_priv (-1) (-1) 0).cfg_h).1 ∧
      ¬ is_yuv sample_reconfig_env 5 ∧
      (reconfig_guess_input sample_reconfig_env (sample_priv (-1) (-1) 0)
        { sample_params 1920 1080 1920 1080 with
          imgfmt := 5, colorspace := 5, colorlevels := 2 }).colorspace = 0 ∧
      (reconfig_guess_input sample_reconfig_env (sample_priv (-1) (-1) 0)
        { sample_params 1920 1080 1920 1080 with
          imgfmt := 5, colorspace := 5, colorlevels := 2 }).colorlevels = 0 :=
  ⟨by decide, by decide, by decide,
    (C16_colour_policy sample_reconfig_env (sample_priv (-1) (-1) 0) sample_sws
      { sample_params 1920 1080 1920 1080 with imgfmt := 5, colorspace := 5, colorlevels := 2 }
      0 (by decide) (by decide)).2.2.1 (Or.inl (by decide))⟩

/-! ## The cascade of `reconfig` and the rule-based reference -/

theorem decode_axis_eq (cfg : Int) :
    decode_axis cfg = ((reconfig_decode cfg).2, axis_rule (reconfig_decode cfg).1) := by
  unfold decode_axis reconfig_decode
  split_ifs <;> rfl

theorem axis_rule_of_invalid (v : Int) (h : v < -3) : axis_rule v = none := by
  unfold axis_rule
  rw [if_pos h]

/-- A value of -1 or more stands for a rule that does not refer to the other axis, and the
rule evaluates to what the first two tests of the cascade leave on that axis. -/
theorem axis_rule_fixed (v src disp : Int) (hv : -1 ≤ v) (hsrc : 0 < src) :
    ∃ r, axis_rule v = some r ∧ (∀ space, r ≠ .RelativeAspect space) ∧
      eval_fixed src disp r = reconfig_axis_base v src disp := by
  have hv3 : ¬ v < -3 := by omega
  by_cases h1 : v = -1
  · refine ⟨.FromSource, ?_, fun _ => by simp, ?_⟩
    · simp [axis_rule, h1]
    · have hs0 : ¬ src = 0 := by omega
      simp [eval_fixed, reconfig_axis_base, h1, hs0]
  · by_cases h0 : v = 0
    · refine ⟨.FromDisplay, ?_, fun _ => by simp, ?_⟩
      · simp [axis_rule, h0]
      · simp [eval_fixed, reconfig_axis_base, h0]
    · have h3 : ¬ v = -3 := by omega
      have h2 : ¬ v = -2 := by omega
      refine ⟨.Absolute v, ?_, fun _ => by simp, ?_⟩
      · simp [axis_rule, hv3, h1, h0, h3, h2]
      · simp [eval_fixed, reconfig_axis_base, h1, h0]

theorem axis_rule_relative (v : Int) (hv : v = -3 ∨ v = -2) :
    ∃ space, axis_rule v = some (.RelativeAspect space) ∧
      ∀ other a b c d : Int, 0 ≤ other → 0 < a → 0 < b → 0 < c → 0 < d →
        (v = -3 → fits_int (other * a)) → (v = -2 → fits_int (other * c)) →
        eval_relative space other a b c d = reconfig_axis_rel v other a b c d := by
  rcases hv with rfl | rfl
  · refine ⟨.SourceSpace, by decide, ?_⟩
    intro other a b c d ho ha hb hc hd h3 h2
    rw [reconfig_axis_rel_of_fits (-3) other a b c d (Or.inl rfl) ho ha hb hc hd h3 h2]
    simp [eval_relative]
  · refine ⟨.DisplaySpace, by decide, ?_⟩
    intro other a b c d ho ha hb hc hd h3 h2
    rw [reconfig_axis_rel_of_fits (-2) other a b c d (Or.inr rfl) ho ha hb hc hd h3 h2]
    simp [eval_relative]

theorem resolve_rules_fixed (rule_w rule_h : AxisRule) (width height d_width d_height : Int)
    (hw : ∀ space, rule_w ≠ .RelativeAspect space)
    (hh : ∀ space, rule_h ≠ .RelativeAspect space) :
    resolve_rules rule_w rule_h width height d_width d_height =
      some (eval_fixed width d_width rule_w, eval_fixed height d_height rule_h) := by
  cases rule_w <;> cases rule_h <;> simp_all [resolve_rules]

theorem resolve_rules_h_relative (rule_w : AxisRule) (space : AspectSpace)
    (width height d_width d_height : Int) (hw : ∀ sp, rule_w ≠ .RelativeAspect sp) :
    resolve_rules rule_w (.RelativeAspect space) width height d_width d_height =
      some (eval_fixed width d_width rule_w,
        eval_relative space (eval_fixed width d_width rule_w) height width d_height d_width) := by
  cases rule_w <;> simp_all [resolve_rules]

theorem resolve_rules_w_relative (space : AspectSpace) (rule_h : AxisRule)
    (width height d_width d_height : Int) (hh : ∀ sp, rule_h ≠ .RelativeAspect sp) :
    resolve_rules (.RelativeAspect space) rule_h width height d_width d_height =
      some (eval_relative space (eval_fixed height d_height rule_h) width height d_width
        d_height, eval_fixed height d_height rule_h) := by
  cases rule_h <;> simp_all [resolve_rules]

/-- On an accepted pair of decoded values and a source of positive dimensions, both values
stand for a rule and the rules evaluate; when no product overflows they evaluate to what the
cascade of lines 259-277 computes. -/
theorem resolve_rules_eq_cascade (w h width height d_width d_height : Int)
    (hok : ¬ reconfig_nonsense w h) (hW : 0 < width) (hH : 0 < height)
    (hDW : 0 < d_width) (hDH : 0 < d_height) :
    ∃ rule_w rule_h wh, axis_rule w = some rule_w ∧ axis_rule h = some rule_h ∧
      resolve_rules rule_w rule_h width height d_width d_height = some wh ∧
      (reconfig_resolve_fits w h width height d_width d_height →
        wh = reconfig_resolve w h width height d_width d_height) := by
  have hb : -3 ≤ w ∧ -3 ≤ h ∧ (-1 ≤ w ∨ -1 ≤ h) := by
    unfold reconfig_nonsense at hok
    omega
  by_cases hw : -1 ≤ w
  · obtain ⟨rule_w, hrw, hnw, hew⟩ := axis_rule_fixed w width d_width hw hW
    have hw2 := reconfig_axis_base_pos w width d_width hw hW hDW
    by_cases hh : -1 ≤ h
    · obtain ⟨rule_h, hrh, hnh, heh⟩ := axis_rule_fixed h height d_height hh hH
      have hh2 := reconfig_axis_base_pos h height d_height hh hH hDH
      refine ⟨rule_w, rule_h, _, hrw, hrh, resolve_rules_fixed _ _ _ _ _ _ hnw hnh, ?_⟩
      intro _
      rw [reconfig_resolve_eq_axes, reconfig_axis_rel_of_pos _ _ _ _ _ _ hw2,
        reconfig_axis_rel_of_pos _ _ _ _ _ _ hh2, hew, heh]
    · have hh2 : h = -3 ∨ h = -2 := by omega
      obtain ⟨space, hrh, heh⟩ := axis_rule_relative h hh2
      refine ⟨rule_w, .RelativeAspect space, _, hrw, hrh,
        resolve_rules_h_relative _ _ _ _ _ _ hnw, ?_⟩
      intro hf
      rw [reconfig_resolve_eq_axes, reconfig_axis_rel_of_pos _ _ _ _ _ _ hw2,
        reconfig_axis_base_rel h height d_height hh2, hew,
        heh _ height width d_height d_width (by omega) hH hW hDH hDW hf.2.2.1 hf.2.2.2]
  · have hw2 : w = -3 ∨ w = -2 := by omega
    have hh : -1 ≤ h := by omega
    obtain ⟨space, hrw, hew⟩ := axis_rule_relative w hw2
    obtain ⟨rule_h, hrh, hnh, heh⟩ := axis_rule_fixed h height d_height hh hH
    have hh2 := reconfig_axis_base_pos h height d_height hh hH hDH
    refine ⟨.RelativeAspect space, rule_h, _, hrw, hrh,
      resolve_rules_w_relative _ _ _ _ _ _ hnh, ?_⟩
    intro hf
    rw [reconfig_resolve_eq_axes, reconfig_axis_base_rel w width d_width hw2,
      reconfig_axis_rel_of_pos _ _ _ _ _ _ hh2, heh,
      hew _ width height d_width d_height (by omega) hW hH hDW hDH hf.1 hf.2.1]

theorem anti_upscale_eq_noup (t w h width height : Int) (ht : t = 0 ∨ t = 1 ∨ t = 2) :
    anti_upscale t w h width height = reconfig_noup t w h width height := by
  simp only [anti_upscale, reconfig_noup]
  split_ifs <;> first | rfl | (exfalso; omega)

/-- The alignment of the reference is the rounding of lines 279-282 when the sum does not
overflow. -/
theorem align16_eq_round (round : Bool) (v : Int) (hf : reconfig_round_fits round v) :
    align16 round v = reconfig_round round v := by
  cases round with
  | false => simp [align16, reconfig_round]
  | true =>
    rw [reconfig_round_of_fits v (hf rfl)]
    simp [align16]

/-- The rule-based reference rejects what the test of lines 248-249 rejects. -/
theorem resolve_reference_none_iff (cfg_w cfg_h noup width height d_width d_height : Int)
    (hW : 0 < width) (hH : 0 < height) (hDW : 0 < d_width) (hDH : 0 < d_height) :
    resolve_reference cfg_w cfg_h noup width height d_width d_height = none ↔
      reconfig_nonsense (reconfig_decode cfg_w).1 (reconfig_decode cfg_h).1 := by
  simp only [resolve_reference, decode_axis_eq]
  by_cases hbad : reconfig_nonsense (reconfig_decode cfg_w).1 (reconfig_decode cfg_h).1
  · refine ⟨fun _ => hbad, fun _ => ?_⟩
    unfold reconfig_nonsense at hbad
    by_cases h1 : (reconfig_decode cfg_w).1 < -3
    · rw [axis_rule_of_invalid _ h1]
    · by_cases h2 : (reconfig_decode cfg_h).1 < -3
      · rw [axis_rule_of_invalid _ h2]
        cases axis_rule (reconfig_decode cfg_w).1 <;> rfl
      · obtain ⟨sw, hsw, -⟩ := axis_rule_relative (reconfig_decode cfg_w).1 (by omega)
        obtain ⟨sh, hsh, -⟩ := axis_rule_relative (reconfig_decode cfg_h).1 (by omega)
        rw [hsw, hsh]
        rfl
  · obtain ⟨rule_w, rule_h, wh, hrw, hrh, hres, -⟩ := resolve_rules_eq_cascade _ _ width height
      d_width d_height hbad hW hH hDW hDH
    rw [hrw, hrh]
    simp only [hres]
    exact ⟨fun h => by simp at h, fun h => absurd h hbad⟩

/-- On an accepted configuration for which no product and no sum of lines 269-282 overflows,
the rule-based reference gives the size computed by lines 259-290. -/
theorem resolve_reference_eq (priv : vf_priv_s) (p : mp_image_params)
    (hok : ¬ reconfig_nonsense (reconfig_decode priv.cfg_w).1 (reconfig_decode priv.cfg_h).1)
    (hnoup : priv.noup = 0 ∨ priv.noup = 1 ∨ priv.noup = 2) (hW : 0 < p.w) (hH : 0 < p.h)
    (hDW : 0 < p.d_w) (hDH : 0 < p.d_h) (hf : reconfig_size_fits priv p) :
    resolve_reference priv.cfg_w priv.cfg_h priv.noup p.w p.h p.d_w p.d_h =
      some (reconfig_size (reconfig_decode priv.cfg_w).1 (reconfig_decode priv.cfg_h).1
        (reconfig_decode priv.cfg_w).2 (reconfig_decode priv.cfg_h).2 priv.noup p.w p.h p.d_w
        p.d_h) := by
  simp only [resolve_reference, decode_axis_eq]
  obtain ⟨rule_w, rule_h, wh, hrw, hrh, hres, heq⟩ := resolve_rules_eq_cascade _ _ p.w p.h
    p.d_w p.d_h hok hW hH hDW hDH
  rw [hrw, hrh]
  simp only [hres, heq hf.1, anti_upscale_eq_noup _ _ _ _ _ hnoup,
    align16_eq_round _ _ hf.2.1, align16_eq_round _ _ hf.2.2]
  rfl

/-- C17, as stated, fails.  With configured width -3 and configured height 2000000 on a
1920x1080 source the rules give the width `2000000 * 1920 / 1080 = 3555555`, whereas the
product does not fit the type `int` and `reconfig` gives the width -421266.  With configured
width -3 and configured height 2147483647 on a 2x1 source shown at 3x1 the product
`2147483647 * 2` is left as -2 in an `int`, the quotient -2 is read again by the next test
as the code "display aspect", and `reconfig` gives the width `2147483647 * 3` as left in an
`int`, which is 2147483645, whereas the rules give 4294967294. -/
theorem C17_cascade_differs_on_overflow :
    resolve_reference (sample_priv (-3) 2000000 0).cfg_w (sample_priv (-3) 2000000 0).cfg_h
        (sample_priv (-3) 2000000 0).noup 1920 1080 1920 1080 = some (3555555, 2000000) ∧
      (reconfig sample_reconfig_env (sample_priv (-3) 2000000 0) sample_sws
        (sample_params 1920 1080 1920 1080) 0).outcome ≠ .bad_params ∧
      (reconfig sample_reconfig_env (sample_priv (-3) 2000000 0) sample_sws
        (sample_params 1920 1080 1920 1080) 0).p.w = -421266 ∧
      resolve_reference (sample_priv (-3) 2147483647 0).cfg_w
        (sample_priv (-3) 2147483647 0).cfg_h (sample_priv (-3) 2147483647 0).noup 2 1 3 1 =
        some (4294967294, 2147483647) ∧
      (reconfig sample_reconfig_env (sample_priv (-3) 2147483647 0) sample_sws
        (sample_params 2 1 3 1) 0).outcome ≠ .bad_params ∧
      wrap32 (2147483647 * 2) = -2 ∧ wrap32 (2147483647 * 3) = 2147483645 ∧
      (reconfig sample_reconfig_env (sample_priv (-3) 2147483647 0) sample_sws
        (sample_params 2 1 3 1) 0).p.w = 2147483645 := by
  decide

/-- C17, amended: for configured values from -11 upward, `noup` in 0..2 and a source whose
decoded and display dimensions are all positive, the rule-based reference rejects exactly the
configurations that `reconfig` rejects as making no sense, and for every other configuration
on which no product and no sum of lines 269-282 overflows the type `int`, the output width
and height of `reconfig` are those of the reference: each value is decoded once into a rule,
and no value produced by a rule is read again as a code. -/
theorem C17_cascade_refines_reference (env : ReconfigEnv) (priv : vf_priv_s)
    (sws : mp_sws_context) (p : mp_image_params) (flags : Int)
    (hbest : find_best_out env.toFormatEnv p.imgfmt ≠ 0)
    (_hw : -11 ≤ priv.cfg_w) (_hh : -11 ≤ priv.cfg_h)
    (hnoup : priv.noup = 0 ∨ priv.noup = 1 ∨ priv.noup = 2)
    (hW : 0 < p.w) (hH : 0 < p.h) (hDW : 0 < p.d_w) (hDH : 0 < p.d_h) :
    (resolve_reference priv.cfg_w priv.cfg_h priv.noup p.w p.h p.d_w p.d_h = none ↔
      (reconfig env priv sws p flags).outcome = .bad_params) ∧
    (reconfig_size_fits priv p →
      ∀ wh, resolve_reference priv.cfg_w priv.cfg_h priv.noup p.w p.h p.d_w p.d_h = some wh →
        (reconfig env priv sws p flags).outcome ≠ .bad_params ∧
        (reconfig env priv sws p flags).p.w = wh.1 ∧
        (reconfig env priv sws p flags).p.h = wh.2) := by
  have hnone := resolve_reference_none_iff priv.cfg_w priv.cfg_h priv.noup p.w p.h p.d_w p.d_h
    hW hH hDW hDH
  by_cases hbad : reconfig_nonsense (reconfig_decode priv.cfg_w).1 (reconfig_decode priv.cfg_h).1
  · have hrej := reconfig_rejected env priv sws p flags hbest hbad
    have href := hnone.mpr hbad
    refine ⟨⟨fun _ => hrej, fun _ => href⟩, fun _ wh h => ?_⟩
    rw [href] at h
    simp at h
  · obtain ⟨-, h2, h3, h4, -, -⟩ := reconfig_accepted env priv sws p flags hbest hbad
    refine ⟨⟨fun h => absurd (hnone.mp h) hbad, fun h => absurd h h2⟩, ?_⟩
    intro hf wh hwh
    rw [resolve_reference_eq priv p hbad hnoup hW hH hDW hDH hf] at hwh
    simp only [Option.some.injEq] at hwh
    rw [← hwh]
    exact ⟨h2, h3, h4⟩

/-- Instance of C17 (amended): the configuration -3 x 200 on a 1920x1080 source resolves to
355x200 by the rules and by `reconfig`. -/
theorem C17_cascade_refines_reference_witness :
    reconfig_size_fits (sample_priv (-3) 200 0) (sample_params 1920 1080 1920 1080) ∧
      resolve_reference (sample_priv (-3) 200 0).cfg_w (sample_priv (-3) 200 0).cfg_h
        (sample_priv (-3) 200 0).noup 1920 1080 1920 1080 = some (355, 200) ∧
      (reconfig sample_reconfig_env (sample_priv (-3) 200 0) sample_sws
        (sample_params 1920 1080 1920 1080) 0).p.w = 355 ∧
      (reconfig sample_reconfig_env (sample_priv (-3) 200 0) sample_sws
        (sample_params 1920 1080 1920 1080) 0).p.h = 200 :=
  ⟨by decide, by decide,
    ((C17_cascade_refines_reference sample_reconfig_env (sample_priv (-3) 200 0) sample_sws
      (sample_params 1920 1080 1920 1080) 0 (by decide) (by decide) (by decide) (by decide)
      (by decide) (by decide) (by decide) (by decide)).2 (by decide) (355, 200) (by decide)).2⟩

/-! ## Soundness and completeness of the search -/

theorem two_tier_eq_none_iff (env : FormatEnv) (l : List Int) :
    two_tier env l = none ↔ ∀ f ∈ l, ¬ passes_check_outfmt env f := by
  unfold two_tier passes_check_outfmt
  constructor
  · intro h f hf
    cases hhw : l.find? (reports_hw env) with
    | some g => rw [hhw] at h; simp at h
    | none =>
      rw [hhw] at h
      have h1 := List.find?_eq_none.mp hhw f hf
      have h2 := List.find?_eq_none.mp h f hf
      simp only [reports_hw, reports_supported, decide_eq_true_eq] at h1 h2
      rintro (h3 | h3)
      · exact h1 h3
      · exact h2 h3
  · intro h
    have h1 : l.find? (reports_hw env) = none := by
      apply List.find?_eq_none.mpr
      intro f hf
      simp only [reports_hw, decide_eq_true_eq]
      exact fun h3 => h f hf (Or.inl h3)
    have h2 : l.find? (reports_supported env) = none := by
      apply List.find?_eq_none.mpr
      intro f hf
      simp only [reports_supported, decide_eq_true_eq]
      exact fun h3 => h f hf (Or.inr h3)
    rw [h1]
    exact h2

theorem format_range_ne_zero (env : FormatEnv) (hstart : 0 < env.IMGFMT_START) :
    ∀ f ∈ format_range env, f ≠ 0 := by
  intro f hf
  unfold format_range at hf
  obtain ⟨k, -, rfl⟩ := List.mem_map.mp hf
  omega

theorem best_of_eq_zero_iff (env : FormatEnv) (l : List Int) (hl : ∀ f ∈ l, f ≠ 0)
    (hstart : 0 < env.IMGFMT_START) :
    best_of env l = 0 ↔ two_tier env l = none ∧ two_tier env (format_range env) = none := by
  unfold best_of
  cases h1 : two_tier env l with
  | some f =>
    have hf := two_tier_some_ne_zero env l f hl h1
    simp [hf]
  | none =>
    cases h2 : two_tier env (format_range env) with
    | some g =>
      have hg := two_tier_some_ne_zero env _ g (format_range_ne_zero env hstart) h2
      simp [hg]
    | none => simp

/-- C18: a non-zero result of `find_best_out` passes `check_outfmt`: libswscale can write
it and the next filter reports one of the two capability bits for it, so that the re-check
of `query_format` cannot fail; and, for well-formed tables and a non-zero input format, the
result is zero exactly when none of the formats that may be probed (the input format, the
conversion-table targets for it, the format-table entries, the whole identifier range)
passes `check_outfmt`. -/
theorem C18_find_best_out_sound_complete (env : FormatEnv) (in_format : Int) :
    (find_best_out env in_format ≠ 0 →
      passes_check_outfmt env (find_best_out env in_format) ∧
      env.imgfmt2pixfmt (find_best_out env in_format) ≠ env.PIX_FMT_NONE ∧
      1 ≤ env.sws_isSupportedOutput (env.imgfmt2pixfmt (find_best_out env in_format)) ∧
      env.vf_next_query_format (find_best_out env in_format) &&&
        (env.VFCAP_CSP_SUPPORTED ||| env.VFCAP_CSP_SUPPORTED_BY_HW) ≠ 0) ∧
    (tables_wf env → in_format ≠ 0 →
      (find_best_out env in_format = 0 ↔
        ∀ f ∈ probed_formats env in_format, ¬ passes_check_outfmt env f)) := by
  constructor
  · intro hbest
    have hpass : passes_check_outfmt env (find_best_out env in_format) := by
      rcases find_best_out_sound env in_format with h0 | h
      · exact absurd h0 hbest
      · exact h
    have hcheck : check_outfmt env (find_best_out env in_format) ≠ 0 := by
      rcases hpass with h | h
      · exact land_ne_zero_left _ _ h
      · exact land_ne_zero_left _ _ h
    obtain ⟨-, hpix, hout⟩ := check_outfmt_eq_next env _ hcheck
    exact ⟨hpass, hpix, by omega, find_best_out_recheck env in_format hbest⟩
  · intro hwf hin
    rw [find_best_out_eq_best_of env in_format hwf hin]
    obtain ⟨hrows, hlist, hstart⟩ := hwf
    have hcand : ∀ g ∈ in_format :: (conv_targets env in_format ++ env.outfmt_list), g ≠ 0 := by
      intro g hg
      rcases List.mem_cons.mp hg with rfl | hg
      · exact hin
      · rcases List.mem_append.mp hg with hg | hg
        · obtain ⟨row, hrow, rfl⟩ := List.mem_map.mp hg
          exact (hrows row (List.mem_of_mem_filter hrow)).2
        · exact hlist g hg
    unfold findBestOutputFormat_input_first
    rw [best_of_eq_zero_iff env _ hcand hstart, two_tier_eq_none_iff, two_tier_eq_none_iff]
    unfold probed_formats
    constructor
    · rintro ⟨h1, h2⟩ f hf
      rcases List.mem_append.mp hf with hf | hf
      · exact h1 f hf
      · exact h2 f hf
    · intro h
      exact ⟨fun f hf => h f (List.mem_append_left _ hf),
        fun f hf => h f (List.mem_append_right _ hf)⟩

/-- Instance of C18: in the sample environment whose next filter takes only format 2 without
conversion, the search for input format 1 returns a format that passes `check_outfmt`. -/
theorem C18_find_best_out_sound_complete_witness :
    find_best_out sample_env_conv 1 ≠ 0 ∧ tables_wf sample_env_conv ∧ (1 : Int) ≠ 0 ∧
      passes_check_outfmt sample_env_conv (find_best_out sample_env_conv 1) ∧
      (find_best_out sample_env_conv 1 = 0 ↔
        ∀ f ∈ probed_formats sample_env_conv 1, ¬ passes_check_outfmt sample_env_conv f) :=
  ⟨by decide, by decide, by decide,
    ((C18_find_best_out_sound_complete sample_env_conv 1).1 (by decide)).1,
    (C18_find_best_out_sound_complete sample_env_conv 1).2 (by decide) (by decide)⟩

/-! ## Symmetry of the geometry in the two axes -/

theorem reconfig_nonsense_swap (w h : Int) : reconfig_nonsense h w ↔ reconfig_nonsense w h := by
  unfold reconfig_nonsense
  omega

theorem reconfig_resolve_swap (w h width height d_width d_height : Int)
    (hok : ¬ reconfig_nonsense w h) (hW : 0 < width) (hH : 0 < height)
    (hDW : 0 < d_width) (hDH : 0 < d_height) :
    reconfig_resolve h w height width d_height d_width =
      ((reconfig_resolve w h width height d_width d_height).2,
        (reconfig_resolve w h width height d_width d_height).1) := by
  have hb : -3 ≤ w ∧ -3 ≤ h ∧ (-1 ≤ w ∨ -1 ≤ h) := by
    unfold reconfig_nonsense at hok
    omega
  rw [reconfig_resolve_eq_axes, reconfig_resolve_eq_axes]
  by_cases hw : -1 ≤ w
  · have hw2 := reconfig_axis_base_pos w width d_width hw hW hDW
    simp only [reconfig_axis_rel_of_pos _ _ _ _ _ _ hw2]
  · have hh : -1 ≤ h := by omega
    have hh2 := reconfig_axis_base_pos h height d_height hh hH hDH
    simp only [reconfig_axis_rel_of_pos _ _ _ _ _ _ hh2]

theorem reconfig_noup_swap (noup w h width height : Int) :
    reconfig_noup noup h w height width =
      ((reconfig_noup noup w h width height).2, (reconfig_noup noup w h width height).1) := by
  simp only [reconfig_noup]
  split_ifs <;> first | rfl | (exfalso; omega)

theorem reconfig_display_fits_swap (w h d_width d_height : Int)
    (hf : reconfig_display_fits w h d_width d_height) :
    reconfig_display_fits h w d_height d_width :=
  ⟨hf.2, hf.1⟩

theorem reconfig_display_swap (w h d_width d_height : Int) (hDW : 0 < d_width)
    (hDH : 0 < d_height) (hf : reconfig_display_fits w h d_width d_height) :
    reconfig_display h w d_height d_width =
      ((reconfig_display w h d_width d_height).2, (reconfig_display w h d_width d_height).1) := by
  rw [reconfig_display_of_fits w h d_width d_height hf,
    reconfig_display_of_fits h w d_height d_width (reconfig_display_fits_swap _ _ _ _ hf)]
  by_cases h1 : h * d_width > w * d_height
  · have h2 : ¬ w * d_height > h * d_width := by omega
    rw [if_pos h1, if_neg h2]
  · by_cases h3 : w * d_height > h * d_width
    · rw [if_neg h1, if_pos h3]
    · have htie : w * d_height = h * d_width := by omega
      rw [if_neg h1, if_neg h3]
      have e1 : (w * d_height).tdiv d_width = h := by
        rw [htie]
        exact Int.mul_tdiv_cancel h (by omega)
      have e2 : (h * d_width).tdiv d_height = w := by
        rw [← htie]
        exact Int.mul_tdiv_cancel w (by omega)
      rw [e1, e2]

theorem reconfig_size_swap (w h : Int) (round_w round_h : Bool)
    (noup width height d_width d_height : Int)
    (hok : ¬ reconfig_nonsense w h) (hW : 0 < width) (hH : 0 < height)
    (hDW : 0 < d_width) (hDH : 0 < d_height) :
    reconfig_size h w round_h round_w noup height width d_height d_width =
      ((reconfig_size w h round_w round_h noup width height d_width d_height).2,
        (reconfig_size w h round_w round_h noup width height d_width d_height).1) := by
  simp only [reconfig_size]
  rw [reconfig_resolve_swap w h width height d_width d_height hok hW hH hDW hDH]
  exact reconfig_noup_swap _ _ _ _ _

/-- C20, as stated, fails: with the configured size 1 x 6700417 on a 1x1 source shown at
641x1 the product `6700417 * 641` is `2 ^ 32 + 1`, which is left as 1 in an `int` and ties with
`1 * 1`; the output display size is 1x0, whereas the exchanged configuration on the exchanged
source gets the output display size 6700417x1, which is not 0x1. -/
theorem C20_display_not_symmetric_on_overflow :
    (reconfig sample_reconfig_env (sample_priv 1 6700417 0) sample_sws
        (sample_params 1 1 641 1) 0).outcome ≠ .no_outfmt ∧
      (reconfig sample_reconfig_env (sample_priv 1 6700417 0) sample_sws
        (sample_params 1 1 641 1) 0).outcome ≠ .bad_params ∧
      (6700417 * 641 : Int) = 2 ^ 32 + 1 ∧ wrap32 (6700417 * 641) = 1 ∧
      (reconfig sample_reconfig_env (sample_priv 1 6700417 0) sample_sws
        (sample_params 1 1 641 1) 0).p.d_w = 1 ∧
      (reconfig sample_reconfig_env (sample_priv 1 6700417 0) sample_sws
        (sample_params 1 1 641 1) 0).p.d_h = 0 ∧
      swap_axes_priv (sample_priv 1 6700417 0) = sample_priv 6700417 1 0 ∧
      swap_axes_params (sample_params 1 1 641 1) = sample_params 1 1 1 641 ∧
      (reconfig sample_reconfig_env (swap_axes_priv (sample_priv 1 6700417 0)) sample_sws
        (swap_axes_params (sample_params 1 1 641 1)) 0).p.d_w = 6700417 ∧
      (reconfig sample_reconfig_env (swap_axes_priv (sample_priv 1 6700417 0)) sample_sws
        (swap_axes_params (sample_params 1 1 641 1)) 0).p.d_h = 1 := by
  decide

/-- C20, amended: for a source whose decoded and display dimensions are all positive,
exchanging the roles of width and height in the configuration and in the source gives the
same rejections and the exchanged output width and height, rounding and the check for
upscaling included; and when the two products of the display size (line 298) fit the type
`int`, the output display width and height are exchanged as well, a tie of the display
comparison included. -/
theorem C20_axes_symmetric (env : ReconfigEnv) (priv : vf_priv_s) (sws : mp_sws_context)
    (p : mp_image_params) (flags : Int)
    (hW : 0 < p.w) (hH : 0 < p.h) (hDW : 0 < p.d_w) (hDH : 0 < p.d_h) :
    ((reconfig env (swap_axes_priv priv) sws (swap_axes_params p) flags).outcome = .no_outfmt ↔
      (reconfig env priv sws p flags).outcome = .no_outfmt) ∧
    ((reconfig env (swap_axes_priv priv) sws (swap_axes_params p) flags).outcome = .bad_params ↔
      (reconfig env priv sws p flags).outcome = .bad_params) ∧
    (reconfig env (swap_axes_priv priv) sws (swap_axes_params p) flags).p.w =
      (reconfig env priv sws p flags).p.h ∧
    (reconfig env (swap_axes_priv priv) sws (swap_axes_params p) flags).p.h =
      (reconfig env priv sws p flags).p.w ∧
    (reconfig_display_fits (reconfig env priv sws p flags).p.w
        (reconfig env priv sws p flags).p.h p.d_w p.d_h →
      (reconfig env (swap_axes_priv priv) sws (swap_axes_params p) flags).p.d_w =
        (reconfig env priv sws p flags).p.d_h ∧
      (reconfig env (swap_axes_priv priv) sws (swap_axes_params p) flags).p.d_h =
        (reconfig env priv sws p flags).p.d_w) := by
  by_cases hbest : find_best_out env.toFormatEnv p.imgfmt = 0
  · have hbest2 : find_best_out env.toFormatEnv (swap_axes_params p).imgfmt = 0 := hbest
    have e1 : reconfig env priv sws p flags = ⟨.no_outfmt, priv, sws, p⟩ := by
      simp only [reconfig]
      rw [if_pos hbest]
    have e2 : reconfig env (swap_axes_priv priv) sws (swap_axes_params p) flags =
        ⟨.no_outfmt, swap_axes_priv priv, sws, swap_axes_params p⟩ := by
      simp only [reconfig]
      rw [if_pos hbest2]
    rw [e1, e2]
    simp [swap_axes_params]
  · have hbest2 : find_best_out env.toFormatEnv (swap_axes_params p).imgfmt ≠ 0 := hbest
    by_cases hbad : reconfig_nonsense (reconfig_decode priv.cfg_w).1
        (reconfig_decode priv.cfg_h).1
    · have hbad2 : reconfig_nonsense (reconfig_decode (swap_axes_priv priv).cfg_w).1
          (reconfig_decode (swap_axes_priv priv).cfg_h).1 :=
        (reconfig_nonsense_swap _ _).mpr hbad
      have e1 : (reconfig env priv sws p flags).outcome = .bad_params ∧
          (reconfig env priv sws p flags).p = p := by
        simp only [reconfig]
        rw [if_neg hbest, if_pos hbad]
        exact ⟨rfl, rfl⟩
      have e2 : (reconfig env (swap_axes_priv priv) sws (swap_axes_params p) flags).outcome =
            .bad_params ∧
          (reconfig env (swap_axes_priv priv) sws (swap_axes_params p) flags).p =
            swap_axes_params p := by
        simp only [reconfig]
        rw [if_neg hbest2, if_pos hbad2]
        exact ⟨rfl, rfl⟩
      rw [e1.1, e1.2, e2.1, e2.2]
      simp [swap_axes_params]
    · have hok2 : ¬ reconfig_nonsense (reconfig_decode (swap_axes_priv priv).cfg_w).1
          (reconfig_decode (swap_axes_priv priv).cfg_h).1 :=
        fun h => hbad ((reconfig_nonsense_swap _ _).mp h)
      obtain ⟨a1, a2, a3, a4, a5, a6⟩ := reconfig_accepted env priv sws p flags hbest hbad
      obtain ⟨b1, b2, b3, b4, b5, b6⟩ := reconfig_accepted env (swap_axes_priv priv) sws
        (swap_axes_params p) flags hbest2 hok2
      have hsize := reconfig_size_swap (reconfig_decode priv.cfg_w).1
        (reconfig_decode priv.cfg_h).1 (reconfig_decode priv.cfg_w).2
        (reconfig_decode priv.cfg_h).2 priv.noup p.w p.h p.d_w p.d_h hbad hW hH hDW hDH
      have hw : (reconfig env (swap_axes_priv priv) sws (swap_axes_params p) flags).p.w =
          (reconfig env priv sws p flags).p.h := by
        rw [b3, a4]
        exact congrArg Prod.fst hsize
      have hh : (reconfig env (swap_axes_priv priv) sws (swap_axes_params p) flags).p.h =
          (reconfig env priv sws p flags).p.w := by
        rw [b4, a3]
        exact congrArg Prod.snd hsize
      refine ⟨⟨fun h => absurd h b1, fun h => absurd h a1⟩,
        ⟨fun h => absurd h b2, fun h => absurd h a2⟩, hw, hh, ?_⟩
      intro hfit
      have hdisp := reconfig_display_swap (reconfig env priv sws p flags).p.w
        (reconfig env priv sws p flags).p.h p.d_w p.d_h hDW hDH hfit
      constructor
      · rw [b5, hw, hh, a6]
        exact congrArg Prod.fst hdisp
      · rw [b6, hw, hh, a5]
        exact congrArg Prod.snd hdisp

/-- Instance of C20 (amended): the configuration -11 x 300 with `noup = 2` on a 1920x1080
source shown at 1280x720, and the exchanged configuration on the exchanged source. -/
theorem C20_axes_symmetric_witness :
    (0 : Int) < (sample_params 1920 1080 1280 720).w ∧
      (reconfig sample_reconfig_env (sample_priv (-11) 300 2) sample_sws
        (sample_params 1920 1080 1280 720) 0).p = sample_params 528 300 533 300 ∧
      (reconfig sample_reconfig_env (swap_axes_priv (sample_priv (-11) 300 2)) sample_sws
        (swap_axes_params (sample_params 1920 1080 1280 720)) 0).p.w =
        (reconfig sample_reconfig_env (sample_priv (-11) 300 2) sample_sws
          (sample_params 1920 1080 1280 720) 0).p.h ∧
      (reconfig sample_reconfig_env (swap_axes_priv (sample_priv (-11) 300 2)) sample_sws
        (swap_axes_params (sample_params 1920 1080 1280 720)) 0).p.d_w =
        (reconfig sample_reconfig_env (sample_priv (-11) 300 2) sample_sws
          (sample_params 1920 1080 1280 720) 0).p.d_h :=
  ⟨by decide, by decide,
    (C20_axes_symmetric sample_reconfig_env (sample_priv (-11) 300 2) sample_sws
      (sample_params 1920 1080 1280 720) 0 (by decide) (by decide) (by decide)
      (by decide)).2.2.1,
    ((C20_axes_symmetric sample_reconfig_env (sample_priv (-11) 300 2) sample_sws
      (sample_params 1920 1080 1280 720) 0 (by decide) (by decide) (by decide)
      (by decide)).2.2.2.2 (by decide)).1⟩

end VfScale
